import Mathlib

/-!
# Festival backend: notification fan-out

A shallow embedding of `src/apis/notification_api.js`, `src/models/notification_model.js`
and of the notification fragments of the resource handlers.

Modelling decisions.

* The document store is a list of records in insertion order. Reads always succeed; a write
  is refused when validation fails or when the environment says the store does not accept it.
* Identifiers are strings. A value stored in an ObjectId path is cast first: a string of 24
  hexadecimal digits is accepted and stored in lower case, any other string is a cast error.
* A socket.io room is its name (a string); a connection is the set of rooms it has joined.
* Asynchronous continuations are run to completion: the result of an operation is the store
  and the list of emitted events once all its promises have settled.
-/

set_option autoImplicit false

namespace Festival

/-! ## JavaScript values -/

/-- Truthiness of a value that is either absent or a string: `undefined`, `null` and the empty
string are falsy, every other string is truthy. -/
def truthy : Option String → Bool
  | none => false
  | some s => decide (s ≠ "")

/-- Hexadecimal digit, either case. -/
def isHexChar (c : Char) : Bool :=
  c.isDigit || (decide ('a' ≤ c) && decide (c ≤ 'f')) || (decide ('A' ≤ c) && decide (c ≤ 'F'))

/-- Cast of a string to an ObjectId path: 24 hexadecimal digits, stored in lower case;
`none` is the CastError. -/
def castObjectId (s : String) : Option String :=
  if s.data.length = 24 ∧ s.data.all isHexChar = true then
    some (String.mk (s.data.map Char.toLower))
  else none

/-- Cast of an optional ObjectId field of a document: absent stays absent (`some none`), a
present value is cast; the outer `none` is the CastError. -/
def castOptionalId : Option String → Option (Option String)
  | none => some none
  | some s => (castObjectId s).map some

/-! ## The Notification model (`notification_model.js`) -/

/-- The `enum` of the `type` path. -/
def typeEnum : List String :=
  ["new_vendor", "new_attendee", "payment_attachment", "status_update", "new_user",
   "festival_review", "login_attempt_unverified", "welcome", "new_ticket",
   "ticket_status_update", "user_verified", "booth_assigned", "new_sale", "new_review",
   "user_login", "login_error"]

/-- The `enum` of the `targetRoles` path; also the literal array tested in `sendNotification`. -/
def roleEnum : List String := ["admin", "vendor", "user"]

/-- The object handed to `new Notification(...)`: every schema path may be absent. The
`metadata` bag, which no operation reads, is left out. -/
structure NotificationData where
  type : Option String := none
  message : Option String := none
  timestamp : Option Nat := none
  read : Option Bool := none
  entityId : Option String := none
  targetRoles : Option (List String) := none
  targetUserId : Option String := none
  deriving DecidableEq, Repr

/-- A stored notification document. `createdAt` and `updatedAt` come from `timestamps: true`. -/
structure Notification where
  id : String
  type : String
  message : String
  timestamp : Nat
  read : Bool
  entityId : Option String
  targetRoles : List String
  targetUserId : Option String
  createdAt : Nat
  updatedAt : Nat
  deriving DecidableEq, Repr

/-- The notification collection, in insertion order. -/
abbrev Store := List Notification

/-- What the document store and the clock supply to one write: whether the store accepts it,
the `_id` it assigns and the current time. -/
structure Env where
  accept : Bool
  newId : String
  now : Nat
  deriving DecidableEq, Repr

/-- Why a save is rejected. -/
inductive SaveError where
  | validation
  | cast
  | store
  deriving DecidableEq, Repr

/-- The document built by `new Notification(data)` and checked by the validation that `save()`
runs first. Defaults: `timestamp` is now, `read` is false, `targetRoles` is the empty array.
`type` and `message` are required strings (an empty string does not satisfy `required`);
`type` and every element of `targetRoles` must belong to their `enum`; `required` on the array
path `targetRoles` only asks for an array, which the default always provides. -/
def validate (env : Env) (d : NotificationData) : Except SaveError Notification :=
  match castOptionalId d.entityId, castOptionalId d.targetUserId with
  | some entity, some user =>
    match d.type, d.message with
    | some t, some m =>
      if t ∈ typeEnum ∧ m ≠ "" ∧ ∀ r ∈ d.targetRoles.getD [], r ∈ roleEnum then
        .ok { id := env.newId, type := t, message := m,
              timestamp := d.timestamp.getD env.now, read := d.read.getD false,
              entityId := entity, targetRoles := d.targetRoles.getD [],
              targetUserId := user, createdAt := env.now, updatedAt := env.now }
      else .error .validation
    | _, _ => .error .validation
  | _, _ => .error .cast

/-- The effect of `notification.save()`: validate, then insert when the store accepts the write. -/
def save (env : Env) (store : Store) (d : NotificationData) : Except SaveError (Notification × Store) :=
  match validate env d with
  | .error e => .error e
  | .ok doc => if env.accept then .ok (doc, store ++ [doc]) else .error .store

/-! ## Real-time channel -/

/-- Addressee of an emit: `io.emit` reaches every connection, `io.to(room).emit` one room. -/
inductive Target where
  | all
  | room (name : String)
  deriving DecidableEq, Repr

/-- Payload of an emitted event. -/
inductive Payload where
  | record (n : Notification)
  | records (l : List Notification)
  deriving DecidableEq, Repr

/-- One emitted event. -/
structure Emit where
  target : Target
  event : String
  payload : Payload
  deriving DecidableEq, Repr

/-- The room of a role: the template string with the role after `role_`. -/
def roleRoom (role : String) : String := "role_" ++ role

/-- The room of a user: the template string with the user id after `user_`. -/
def userRoom (userId : String) : String := "user_" ++ userId

/-- A live connection: the rooms it has joined and whether it is still connected. -/
structure Socket where
  rooms : Finset String
  connected : Bool
  deriving DecidableEq

/-- Whether socket.io delivers the emit to a connection with these rooms. -/
def delivered (rooms : Finset String) (e : Emit) : Bool :=
  match e.target with
  | .all => true
  | .room name => decide (name ∈ rooms)

/-- The events a connection with these rooms receives out of a list of emits, in order. -/
def received (rooms : Finset String) (es : List Emit) : List Emit :=
  es.filter (delivered rooms)

/-! ## `sendNotification` -/

/-- The emits of the `then` callback of `sendNotification`, for the saved record. -/
def sendEmits (d : NotificationData) (saved : Notification) : List Emit :=
  (match d.targetUserId with
   | some u => if truthy (some u) then [⟨.room (userRoom u), "userNotification", .record saved⟩] else []
   | none => []) ++
  (match d.targetRoles with
   | some roles =>
     roles.filterMap fun role =>
       if role ∈ roleEnum then some ⟨.room (roleRoom role), role ++ "Notification", .record saved⟩
       else none
   | none => [])

/-- The function `sendNotification(notificationData)`: the guard returns early when
`targetRoles` is absent and `targetUserId` is falsy (an array, even an empty one, is truthy);
otherwise the record is saved and, only when the save succeeded, pushed. A failed save is
logged by `.catch(console.error)` and changes nothing. The result is the store afterwards and
the emitted events. -/
def sendNotification (env : Env) (store : Store) (d : NotificationData) : Store × List Emit :=
  if d.targetRoles.isNone && !truthy d.targetUserId then (store, [])
  else
    match save env store d with
    | .error _ => (store, [])
    | .ok (saved, store1) => (store1, sendEmits d saved)

/-! ## The connection handlers -/

/-- The payload of the `authenticate` message; the `token` field is never read. -/
structure AuthMessage where
  userId : Option String := none
  role : Option String := none
  deriving DecidableEq, Repr

/-- The state of a connection right after `connection`: socket.io puts it in the room named by
its own id. -/
def connect (socketId : String) : Socket := { rooms := {socketId}, connected := true }

/-- The filter clause for `targetUserId` equal to an ObjectId. -/
def matchesUser (uid : String) (n : Notification) : Bool := decide (n.targetUserId = some uid)

/-- The filter clause `targetRoles: role` on the array path: the array contains the value. An
absent value (`null`) matches no stored array. -/
def matchesRole (role : Option String) (n : Notification) : Bool :=
  match role with
  | none => false
  | some r => decide (r ∈ n.targetRoles)

/-- The order of `.sort` with `timestamp: -1`: newest first. -/
def newestFirst (l : List Notification) : List Notification :=
  l.insertionSort fun a b => b.timestamp ≤ a.timestamp

/-- The role part of `broadcastNotificationsUpdate`. -/
def roleUpdate (store : Store) (role : Option String) : List Emit :=
  match role with
  | some r =>
    if truthy (some r) then
      [⟨.room (roleRoom r), "roleNotificationsUpdate",
        .records (newestFirst (store.filter (matchesRole (some r))))⟩]
    else []
  | none => []

/-- The function `broadcastNotificationsUpdate(userId = null, role = null)`. When the user id
cannot be cast, `find` rejects and the catch block ends the function with nothing emitted. -/
def broadcastNotificationsUpdate (store : Store) (userId role : Option String) : List Emit :=
  match userId with
  | some u =>
    if truthy (some u) then
      match castObjectId u with
      | none => []
      | some uid =>
        ⟨.room (userRoom u), "userNotificationsUpdate",
          .records (newestFirst (store.filter fun n => matchesUser uid n || matchesRole role n))⟩
          :: roleUpdate store role
    else roleUpdate store role
  | none => roleUpdate store role

/-- The handler of the `authenticate` message. Without a truthy role the handler throws before
any join, and the catch block disconnects the socket, which leaves every room. -/
def authenticate (store : Store) (sock : Socket) (msg : AuthMessage) : Socket × List Emit :=
  if truthy msg.role then
    match msg.role with
    | some role =>
      let rooms1 := insert (roleRoom role) sock.rooms
      match msg.userId with
      | some u =>
        if truthy (some u) then
          ({ sock with rooms := insert (userRoom u) rooms1 },
            broadcastNotificationsUpdate store (some u) (some role))
        else ({ sock with rooms := rooms1 }, broadcastNotificationsUpdate store none (some role))
      | none => ({ sock with rooms := rooms1 }, broadcastNotificationsUpdate store none (some role))
    | none => ({ rooms := ∅, connected := false }, [])
  else ({ rooms := ∅, connected := false }, [])

/-- What a connection receives out of a list of emits: nothing once disconnected. -/
def Socket.receives (sock : Socket) (es : List Emit) : List Emit :=
  if sock.connected then received sock.rooms es else []

/-! ## The query surface -/

/-- The query string of a request (`req.query`). -/
structure Query where
  role : Option String := none
  user_id : Option String := none
  limit : Option String := none
  skip : Option String := none
  deriving DecidableEq, Repr

/-- Body of a JSON response; `error` stands for the message of a thrown error. -/
inductive Body where
  | message (text : String)
  | error
  | list (l : List Notification)
  | doc (n : Notification)
  | count (c : Nat)
  deriving DecidableEq, Repr

/-- An HTTP response. -/
structure Response where
  status : Nat
  body : Body
  deriving DecidableEq, Repr

/-- What one handler invocation does: its response, the store afterwards, the events emitted,
and the calls its own body made on the Notification model, in order (the reads of the
broadcasts it starts show in `emitted`). -/
structure Outcome where
  response : Response
  store : Store
  emitted : List Emit
  calls : List String
  deriving DecidableEq, Repr

/-- Value of a digit in a radix up to 16. -/
def digitValue (c : Char) : Option Nat :=
  if c.isDigit then some (c.toNat - 48)
  else if 'a' ≤ c ∧ c ≤ 'f' then some (c.toNat - 87)
  else if 'A' ≤ c ∧ c ≤ 'F' then some (c.toNat - 55)
  else none

/-- The values of the longest leading run of digits of the radix. -/
def leadingDigits (radix : Nat) : List Char → List Nat
  | [] => []
  | c :: cs =>
    match digitValue c with
    | some v => if v < radix then v :: leadingDigits radix cs else []
    | none => []

/-- The number written by a non-empty run of digits; `none` (NaN) for an empty run. -/
def digitsValue (radix : Nat) (ds : List Nat) : Option Nat :=
  if ds.isEmpty then none else some (ds.foldl (fun acc v => acc * radix + v) 0)

/-- The unsigned part of `parseInt`: hexadecimal after `0x` or `0X`, decimal otherwise. -/
def parseMagnitude : List Char → Option Nat
  | '0' :: 'x' :: rest => digitsValue 16 (leadingDigits 16 rest)
  | '0' :: 'X' :: rest => digitsValue 16 (leadingDigits 16 rest)
  | cs => digitsValue 10 (leadingDigits 10 cs)

/-- The function `parseInt` on a query value without a radix: leading white space is skipped,
a sign is read, then the digits; `none` is NaN, the result for `undefined` as well. -/
def parseInt : Option String → Option Int
  | none => none
  | some s =>
    match s.data.dropWhile Char.isWhitespace with
    | '-' :: rest => (parseMagnitude rest).map fun n => -(n : Int)
    | '+' :: rest => (parseMagnitude rest).map fun n => (n : Int)
    | cs => (parseMagnitude cs).map fun n => (n : Int)

/-- The expression `parseInt(x) || dflt`: NaN and 0 are falsy. -/
def parseIntOr (x : Option String) (dflt : Int) : Int :=
  match parseInt x with
  | some n => if n = 0 then dflt else n
  | none => dflt

/-- The response of the guard shared by the three routes. -/
def badRequest : Response :=
  ⟨400, .message "Either role or user_id must be provided"⟩

/-- The route `GET /notifications`. A user id that cannot be cast and a negative skip make
`find` reject (status 500); a negative limit is served as one batch of at most 101 records. -/
def getNotifications (store : Store) (q : Query) : Outcome :=
  let limit := parseIntOr q.limit 50
  let skip := parseIntOr q.skip 0
  if !truthy q.role && !truthy q.user_id then ⟨badRequest, store, [], []⟩
  else
    let filter : Option (Notification → Bool) :=
      if truthy q.role && truthy q.user_id then
        (castObjectId (q.user_id.getD "")).map fun uid n => matchesRole q.role n || matchesUser uid n
      else if truthy q.role then some (matchesRole q.role)
      else (castObjectId (q.user_id.getD "")).map fun uid n => matchesUser uid n
    match filter with
    | none => ⟨⟨500, .error⟩, store, [], ["find"]⟩
    | some f =>
      if skip < 0 then ⟨⟨500, .error⟩, store, [], ["find"]⟩
      else
        let sorted := newestFirst (store.filter f)
        let kept := if limit < 0 then min limit.natAbs 101 else limit.toNat
        ⟨⟨200, .list ((sorted.drop skip.toNat).take kept)⟩, store, [], ["find"]⟩

/-- The update of `findByIdAndUpdate(id, read: true)`: the first record with that id is marked
read, and `timestamps: true` refreshes its `updatedAt`. -/
def setRead (now : Nat) (id : String) : Store → Store
  | [] => []
  | n :: rest =>
    if n.id = id then { n with read := true, updatedAt := now } :: rest
    else n :: setRead now id rest

/-- The route `PATCH /notifications/:id/read`. -/
def patchNotificationRead (env : Env) (store : Store) (id : String) (q : Query) : Outcome :=
  if !truthy q.role && !truthy q.user_id then ⟨badRequest, store, [], []⟩
  else
    let filter : Option (Notification → Bool) :=
      match castObjectId id with
      | none => none
      | some oid =>
        if truthy q.user_id then
          (castObjectId (q.user_id.getD "")).map fun uid n => decide (n.id = oid) && matchesUser uid n
        else some fun n => decide (n.id = oid) && matchesRole q.role n
    match filter, castObjectId id with
    | some f, some oid =>
      match store.find? f with
      | none => ⟨⟨404, .message "Notification not found or unauthorized"⟩, store, [], ["findOne"]⟩
      | some _ =>
        let store1 := setRead env.now oid store
        match store1.find? fun n => decide (n.id = oid) with
        | none => ⟨⟨500, .error⟩, store1, [], ["findOne", "findByIdAndUpdate"]⟩
        | some updated =>
          let emits :=
            if updated.targetUserId.isSome then
              broadcastNotificationsUpdate store1 updated.targetUserId none
            else
              (updated.targetRoles.map fun role =>
                broadcastNotificationsUpdate store1 none (some role)).flatten
          ⟨⟨200, .doc updated⟩, store1, emits, ["findOne", "findByIdAndUpdate"]⟩
    | _, _ => ⟨⟨500, .error⟩, store, [], ["findOne"]⟩

/-- The route `GET /notifications/unread-count`. -/
def getUnreadCount (store : Store) (q : Query) : Outcome :=
  if !truthy q.role && !truthy q.user_id then ⟨badRequest, store, [], []⟩
  else
    let filter : Option (Notification → Bool) :=
      if truthy q.user_id then
        (castObjectId (q.user_id.getD "")).map fun uid n =>
          !n.read && (matchesUser uid n || matchesRole q.role n)
      else some fun n => !n.read && matchesRole q.role n
    match filter with
    | none => ⟨⟨500, .error⟩, store, [], ["countDocuments"]⟩
    | some f => ⟨⟨200, .count (store.filter f).length⟩, store, [], ["countDocuments"]⟩

/-! ## Notifications built inline by the resource handlers -/

/-- The statements a resource handler runs to notify: `new Notification(data)`, then
`await notification.save()`, then `io.emit(event, notification.toObject())`, an emit to every
connection. A rejected save throws into the catch block of the handler before the emit. -/
def saveAndEmit (env : Env) (store : Store) (d : NotificationData) (event : String) :
    Except SaveError (Store × List Emit) :=
  match save env store d with
  | .error e => .error e
  | .ok (saved, store1) => .ok (store1, [⟨.all, event, .record saved⟩])

/-- The notification of `POST /signup` for the user just saved. -/
def signupNotification (userId email : String) : NotificationData :=
  { type := some "new_user", message := some ("New user registered: " ++ email),
    targetRoles := some ["admin"], targetUserId := none, entityId := some userId }

/-- The notification of `POST /vendors` for the vendor just saved. -/
def vendorNotification (vendorId name : String) : NotificationData :=
  { type := some "new_vendor", message := some ("New vendor registered: " ++ name),
    targetRoles := some ["admin"], entityId := some vendorId }

/-- The notification of `POST /tickets` for the ticket just saved: it names no target. -/
def ticketNotification (ticketId userName : String) : NotificationData :=
  { type := some "new_ticket", message := some ("New ticket purchase by " ++ userName),
    entityId := some ticketId }

/-- The notification step of `POST /signup`, after `await user.save()`. -/
def postSignup_notify (env : Env) (store : Store) (userId email : String) :
    Except SaveError (Store × List Emit) :=
  saveAndEmit env store (signupNotification userId email) "adminNotification"

/-- The notification step of `POST /vendors`, after `await vendor.save()`. -/
def postVendors_notify (env : Env) (store : Store) (vendorId name : String) :
    Except SaveError (Store × List Emit) :=
  saveAndEmit env store (vendorNotification vendorId name) "adminNotification"

/-- The notification step of `POST /tickets`, after `await ticket.save()`. -/
def postTickets_notify (env : Env) (store : Store) (ticketId userName : String) :
    Except SaveError (Store × List Emit) :=
  saveAndEmit env store (ticketNotification ticketId userName) "adminNotification"

/-- The event pushed to the group of a role for a saved record. -/
def roleEvent (saved : Notification) (r : String) : Emit :=
  ⟨.room (roleRoom r), r ++ "Notification", .record saved⟩

/-! ## Sample data -/

/-- A store environment that accepts the write. -/
def sampleEnv : Env := { accept := true, newId := "64b7f3a2c9e1d4f5a6b7c801", now := 7 }

/-- A well-formed ObjectId string. -/
def sampleUser : String := "64b7f3a2c9e1d4f5a6b7c8d9"

/-- A notification for two roles and no user. -/
def twoRoleData : NotificationData :=
  { type := some "new_vendor", message := some "m", targetRoles := some ["admin", "vendor"] }

/-- The record saved for `twoRoleData` in `sampleEnv`. -/
def twoRoleSaved : Notification :=
  { id := "64b7f3a2c9e1d4f5a6b7c801", type := "new_vendor", message := "m", timestamp := 7,
    read := false, entityId := none, targetRoles := ["admin", "vendor"], targetUserId := none,
    createdAt := 7, updatedAt := 7 }

/-- A notification for one user and one role. -/
def userRoleData : NotificationData :=
  { type := some "welcome", message := some "m", targetRoles := some ["user"],
    targetUserId := some sampleUser }

/-- The record saved for `userRoleData` in `sampleEnv`. -/
def userRoleSaved : Notification :=
  { id := "64b7f3a2c9e1d4f5a6b7c801", type := "welcome", message := "m", timestamp := 7,
    read := false, entityId := none, targetRoles := ["user"], targetUserId := some sampleUser,
    createdAt := 7, updatedAt := 7 }

/-! ## The targeting rule and runs of operations -/

/-- The targeting rule in the words of the spec, `targetUserId == userId OR role ∈ targetRoles`:
the role is one of the target roles of the record, or the user id, cast to an ObjectId, is
its target user. An absent role or user id contributes nothing. -/
def addressed (role user_id : Option String) (n : Notification) : Bool :=
  matchesRole role n ||
  match user_id with
  | some u =>
    match castObjectId u with
    | some uid => matchesUser uid n
    | none => false
  | none => false

/-- The records listed by a response, none when the body is not a list. -/
def Outcome.records (o : Outcome) : List Notification :=
  match o.response.body with
  | .list l => l
  | _ => []

/-- The store after a sequence of `sendNotification` calls, each with what the store and the
clock supply to it. -/
def publishAll : Store → List (Env × NotificationData) → Store
  | s, [] => s
  | s, (e, d) :: rest => publishAll (sendNotification e s d).1 rest

/-- Every call of the sequence has `targetUserId` equal to the given user id and its save
succeeds. -/
def publishedFor (U1 : String) : Store → List (Env × NotificationData) → Bool
  | _, [] => true
  | s, (e, d) :: rest =>
    decide (d.targetUserId = some U1) &&
    (match save e s d with
     | .ok _ => true
     | .error _ => false) &&
    publishedFor U1 (sendNotification e s d).1 rest

/-- What `findByIdAndUpdate` writes into the record it matches. -/
def markedRead (now : Nat) (n : Notification) : Notification :=
  { n with read := true, updatedAt := now }

/-- A record without its `updatedAt` stamp. -/
def withoutStamp (n : Notification) : Notification := { n with updatedAt := 0 }

/-- The steps of `sendNotification` in the order they happen: the early return of the guard
logs an error; otherwise `save()` either resolves, and the `then` callback emits, or rejects,
and `.catch(console.error)` handles the rejection. -/
inductive Action where
  | guardLogged
  | saved (n : Notification)
  | emit (e : Emit)
  | rejected (e : SaveError)
  | caught (e : SaveError)
  deriving DecidableEq, Repr

/-- The trace of one call of `sendNotification`. -/
def sendNotificationTrace (env : Env) (store : Store) (d : NotificationData) : List Action :=
  if d.targetRoles.isNone && !truthy d.targetUserId then [.guardLogged]
  else
    match save env store d with
    | .error e => [.rejected e, .caught e]
    | .ok (saved, _) => .saved saved :: (sendEmits d saved).map .emit

/-- The filter of the `findOne` of `PATCH /notifications/:id/read` for a cast id: the id and,
when `user_id` is truthy, the target user, otherwise the role; `none` is the CastError of a
user id that cannot be cast. -/
def callerFilter (q : Query) (oid : String) : Option (Notification → Bool) :=
  if truthy q.user_id then
    (castObjectId (q.user_id.getD "")).map fun uid n => decide (n.id = oid) && matchesUser uid n
  else some fun n => decide (n.id = oid) && matchesRole q.role n

/-- The broadcasts that `PATCH /notifications/:id/read` starts for the updated record. -/
def readBroadcasts (store : Store) (updated : Notification) : List Emit :=
  if updated.targetUserId.isSome then
    broadcastNotificationsUpdate store updated.targetUserId none
  else
    (updated.targetRoles.map fun role =>
      broadcastNotificationsUpdate store none (some role)).flatten

/-- The events of a trace, in order. -/
def emitsOf (trace : List Action) : List Emit :=
  trace.filterMap fun a =>
    match a with
    | .emit e => some e
    | _ => none

/-- The event sent to the room of a role by `broadcastNotificationsUpdate`. -/
def roleSnapshot (store : Store) (r : String) : Emit :=
  ⟨.room (roleRoom r), "roleNotificationsUpdate",
    .records (newestFirst (store.filter (matchesRole (some r))))⟩

/-- One notification operation, with what its environment supplies. -/
inductive Op where
  | send (env : Env) (d : NotificationData)
  | list (q : Query)
  | unreadCount (q : Query)
  | markRead (env : Env) (id : String) (q : Query)
  | authenticate (sock : Socket) (msg : AuthMessage)

/-- The store after one operation. `authenticate` only reads the store. -/
def Op.run : Op → Store → Store
  | .send env d, s => (sendNotification env s d).1
  | .list q, s => (getNotifications s q).store
  | .unreadCount q, s => (getUnreadCount s q).store
  | .markRead env id q, s => (patchNotificationRead env s id q).store
  | .authenticate _ _, s => s

/-- The document store assigns an `_id` that no stored record has. -/
def Op.fresh : Op → Store → Prop
  | .send env _, s => env.newId ∉ s.map fun n => n.id
  | _, _ => True

/-- The store after a sequence of operations. -/
def runAll : List Op → Store → Store
  | [], s => s
  | op :: rest, s => runAll rest (op.run s)

/-- Every `_id` assigned along the run is new at the time it is assigned. -/
def freshRun : List Op → Store → Prop
  | [], _ => True
  | op :: rest, s => op.fresh s ∧ freshRun rest (op.run s)

/-- Hexadecimal digit of a value below 16. -/
def hexDigit (n : Nat) : Char := "0123456789abcdef".data.getD n '0'

/-- A well-formed ObjectId string for each number below 256. -/
def sampleId (i : Nat) : String :=
  String.mk (List.replicate 22 '0' ++ [hexDigit (i / 16), hexDigit (i % 16)])

/-- Fifty-one publishes for the sample user, each with its own `_id` and time. -/
def manyPublishes : List (Env × NotificationData) :=
  (List.range 51).map fun i =>
    ({ accept := true, newId := sampleId i, now := i },
     { type := some "welcome", message := some "m", targetUserId := some sampleUser })

/-- A record already marked read, addressed to the role admin. -/
def readRecord : Notification :=
  { id := "64b7f3a2c9e1d4f5a6b7c804", type := "new_vendor", message := "m", timestamp := 4,
    read := true, entityId := none, targetRoles := ["admin"], targetUserId := none,
    createdAt := 4, updatedAt := 8 }

/-- A run of operations on the store that holds `readRecord`. -/
def sampleOps : List Op :=
  [.send sampleEnv twoRoleData,
   .markRead { sampleEnv with now := 9 } "64b7f3a2c9e1d4f5a6b7c801" { role := some "vendor" },
   .list { role := some "admin" },
   .authenticate (connect "s1") { role := some "admin" }]

/-- An unread record addressed to the role admin only. -/
def adminRecord : Notification :=
  { id := "64b7f3a2c9e1d4f5a6b7c802", type := "new_vendor", message := "m", timestamp := 5,
    read := false, entityId := none, targetRoles := ["admin"], targetUserId := none,
    createdAt := 5, updatedAt := 5 }

/-- An unread record addressed to the sample user and to the role admin. -/
def userAdminRecord : Notification :=
  { id := "64b7f3a2c9e1d4f5a6b7c803", type := "user_verified", message := "m", timestamp := 6,
    read := false, entityId := none, targetRoles := ["admin"], targetUserId := some sampleUser,
    createdAt := 6, updatedAt := 6 }

/-! ## Sample data for the later claims -/

/-- Fifty-one unread records for the role admin, all newer than `adminRecord`. -/
def newerAdminRecords : List Notification :=
  (List.range 51).map fun i =>
    { id := sampleId i, type := "new_vendor", message := "m", timestamp := 100 + i,
      read := false, entityId := none, targetRoles := ["admin"], targetUserId := none,
      createdAt := 100 + i, updatedAt := 100 + i }

/-- A notification for the role vendor alone. -/
def vendorOnlyData : NotificationData :=
  { type := some "new_sale", message := some "New Sale Added", targetRoles := some ["vendor"] }

/-- The record saved for `vendorOnlyData` in `sampleEnv`. -/
def vendorOnlySaved : Notification :=
  { id := "64b7f3a2c9e1d4f5a6b7c801", type := "new_sale", message := "New Sale Added",
    timestamp := 7, read := false, entityId := none, targetRoles := ["vendor"],
    targetUserId := none, createdAt := 7, updatedAt := 7 }

/-! ## Resource handlers: replies -/

/-- The reply of a resource handler: the status and, of the JSON body, the `success` flag and
the `message` when the body has them. -/
structure Reply where
  status : Nat
  success : Option Bool := none
  message : Option String := none
  deriving DecidableEq, Repr

/-! ## `POST /login` (`user_auth_api.js`) -/

/-- The paths of a user document that the login handler reads. -/
structure LoginUser where
  oid : String
  name : String
  email : String
  emailVerified : Bool
  status : String
  deriving DecidableEq, Repr

/-- The body of a login request. -/
structure LoginRequest where
  email : Option String := none
  password : Option String := none
  deriving DecidableEq, Repr

/-- What the environment supplies to one login: the user that `User.findOne` returns, the
answer of `comparePassword`, whether `jwt.sign` succeeds, and what the store supplies to the
notification saved in the `try` block and to the one saved in the `catch` block. -/
structure LoginEnv where
  found : Option LoginUser
  isMatch : Bool
  tokenOk : Bool
  first : Env
  second : Env
  deriving DecidableEq, Repr

/-- What one login does; `reply` is `none` when the handler ends without answering. -/
structure LoginOutcome where
  reply : Option Reply
  store : Store
  emitted : List Emit
  deriving DecidableEq, Repr

/-- The `catch` block of the login handler: a `login_error` notification for the admins is
saved and emitted to every connection, then the answer is 500. When this save is rejected too,
the rejection leaves the handler and no answer is sent. -/
def loginCatch (env : Env) (store : Store) (emailText : String) (emitted : List Emit) :
    LoginOutcome :=
  match save env store
      { type := some "login_error", message := some ("Login error for email: " ++ emailText),
        targetRoles := some ["admin"] } with
  | .error _ => ⟨none, store, emitted⟩
  | .ok (saved, store1) =>
    ⟨some { status := 500, message := some "Authentication failed" }, store1,
      emitted ++ [⟨.all, "adminNotification", .record saved⟩]⟩

/-- The notification a login builds for a user: type, target roles, and the user as target
user and entity. -/
def loginNotification (type message : String) (roles : List String) (u : LoginUser) :
    NotificationData :=
  { type := some type, message := some message, targetRoles := some roles,
    targetUserId := some u.oid, entityId := some u.oid }

/-- The handler of `POST /login`. Every `await notification.save()` stands in the `try`
block, so a rejected save continues in the `catch` block. -/
def postLogin (env : LoginEnv) (store : Store) (req : LoginRequest) : LoginOutcome :=
  if !truthy req.email || !truthy req.password then
    ⟨some { status := 400, message := some "Email and password are required" }, store, []⟩
  else
    match env.found with
    | none => ⟨some { status := 401, message := some "Invalid credentials" }, store, []⟩
    | some u =>
      if !env.isMatch then
        ⟨some { status := 401, message := some "Invalid credentials" }, store, []⟩
      else if !u.emailVerified then
        match save env.first store
            (loginNotification "login_attempt_unverified"
              ("Login attempt with unverified email: " ++ u.email) ["admin", "user"] u) with
        | .error _ => loginCatch env.second store (req.email.getD "") []
        | .ok (saved, store1) =>
          ⟨some { status := 403, message := some "Please verify your email first" }, store1,
            [⟨.all, "adminNotification", .record saved⟩,
             ⟨.room u.oid, "userNotification", .record saved⟩]⟩
      else if u.status ≠ "Active" then
        match save env.first store
            (loginNotification "login_attempt_inactive"
              ("Login attempt with inactive account: " ++ u.email) ["admin"] u) with
        | .error _ => loginCatch env.second store (req.email.getD "") []
        | .ok (saved, store1) =>
          ⟨some { status := 403, message := some "Account is not active" }, store1,
            [⟨.all, "adminNotification", .record saved⟩]⟩
      else if !env.tokenOk then loginCatch env.second store (req.email.getD "") []
      else
        match save env.first store
            (loginNotification "user_login" ("User logged in: " ++ u.email) ["admin"] u) with
        | .error _ => loginCatch env.second store (req.email.getD "") []
        | .ok (saved, store1) =>
          ⟨some { status := 200 }, store1, [⟨.all, "adminNotification", .record saved⟩]⟩

/-- The types of the notifications that the handlers construct. -/
def constructedTypes : List String :=
  ["status_update", "new_vendor", "payment_attachment", "new_user", "user_verified", "welcome",
   "login_attempt_unverified", "login_attempt_inactive", "user_login", "login_error",
   "ticket_status_update", "new_ticket", "new_attendee", "festival_review", "new_review",
   "new_sale"]

/-- A verified user whose account is not active. -/
def inactiveUser : LoginUser :=
  { oid := sampleUser, name := "A", email := "a@b.c", emailVerified := true,
    status := "Pending" }

/-- A login environment in which the credentials match and every write is accepted. -/
def loginEnv : LoginEnv :=
  { found := some inactiveUser, isMatch := true, tokenOk := true, first := sampleEnv,
    second := { accept := true, newId := "64b7f3a2c9e1d4f5a6b7c805", now := 8 } }

/-- A login request with the address of the sample user. -/
def loginRequest : LoginRequest := { email := some "a@b.c", password := some "secret12" }

/-! ## The Vendor model (`vendor_model.js`) -/

/-- The class `\s` of a JavaScript regular expression; `trim` removes the same characters. -/
def isSpace (c : Char) : Bool :=
  (decide (9 ≤ c.toNat) && decide (c.toNat ≤ 13)) || c.toNat == 32 || c.toNat == 160 ||
    c.toNat == 5760 || (decide (8192 ≤ c.toNat) && decide (c.toNat ≤ 8202)) ||
    c.toNat == 8232 || c.toNat == 8233 || c.toNat == 8239 || c.toNat == 8287 ||
    c.toNat == 12288 || c.toNat == 65279

/-- The `trim` setter of a String path. -/
def trim (s : String) : String :=
  String.mk ((s.data.dropWhile isSpace).reverse.dropWhile isSpace).reverse

/-- The `lowercase` setter of a String path; letters outside ASCII are left as they are. -/
def toLowerCase (s : String) : String := String.mk (s.data.map Char.toLower)

/-- The validator of `email`: `/^[^\s@]+@[^\s@]+\.[^\s@]+$/`. -/
def emailOk (v : String) : Bool :=
  match v.data.span (fun c => c != '@') with
  | (l, _ :: d) =>
    !l.isEmpty && l.all (fun c => !isSpace c) && d.all (fun c => !isSpace c && c != '@') &&
      ((d.drop 1).dropLast).contains '.'
  | (_, []) => false

/-- The validator of `phone`: `/^[0-9]{10,}$/`. -/
def phoneOk (v : String) : Bool := decide (10 ≤ v.data.length) && v.data.all Char.isDigit

/-- The validator of the URL paths: `/^(http|https):\/\/[^ "]+$/`. -/
def urlOk (v : String) : Bool :=
  ["http://", "https://"].any fun p =>
    v.data.take p.data.length == p.data && !(v.data.drop p.data.length).isEmpty &&
      (v.data.drop p.data.length).all fun c => c != ' ' && c != '"'

/-- The `enum` of `stall_type`. -/
def stallTypes : List String := ["Food", "Beverage", "Merchandise", "Service", "Other"]

/-- The statuses a vendor status may be set to. -/
def validStatuses : List String := ["Pending", "Approved", "Rejected"]

/-- A required String path with a minimum length and a validator: absent and empty values
fail `required`. -/
def requiredPath (minlength : Nat) (check : String → Bool) : Option String → Bool
  | none => false
  | some s => s != "" && decide (minlength ≤ s.length) && check s

/-- The object handed to `new Vendor(...)` by `POST /vendors`. -/
structure VendorData where
  name : Option String := none
  email : Option String := none
  phone : Option String := none
  password : Option String := none
  stall_name : Option String := none
  stall_type : Option String := none
  festival_id : Option String := none
  registration_status : Option String := none
  payment_status : Option String := none
  profile_image : Option String := none
  document_attachment : Option String := none
  payment_attachment : Option String := none
  deriving DecidableEq, Repr

/-- The paths of a stored vendor document that the handlers read or write; `oid` is `_id`,
`id` the auto-incremented number. -/
structure Vendor where
  oid : String
  id : Nat
  name : String
  email : String
  registration_status : String
  payment_status : Option String
  payment_attachment : Option String
  isAssign : Bool
  booth_id : Option String
  createdAt : Nat
  deriving DecidableEq, Repr

/-- The answer of `vendor.validateSync()`: `true` when there is no validation error. The
setters `trim` and `lowercase` have run before the validators. -/
def Vendor.validateSync (d : VendorData) : Bool :=
  requiredPath 2 (fun _ => true) (d.name.map trim) &&
  requiredPath 0 emailOk (d.email.map fun s => toLowerCase (trim s)) &&
  requiredPath 0 phoneOk d.phone &&
  requiredPath 6 (fun _ => true) d.password &&
  requiredPath 0 urlOk d.profile_image &&
  requiredPath 2 (fun _ => true) (d.stall_name.map trim) &&
  requiredPath 0 (fun s => decide (s ∈ stallTypes)) d.stall_type &&
  (d.festival_id.bind castObjectId).isSome &&
  (match d.registration_status with
   | none => true
   | some s => decide (s ∈ validStatuses)) &&
  (match d.payment_status with
   | none => true
   | some s => decide (s ∈ validStatuses)) &&
  requiredPath 0 urlOk d.document_attachment &&
  (match d.payment_attachment with
   | none => true
   | some s => s == "" || urlOk s)

/-- The number the pre-save hook gives a new document: one more than the largest stored. -/
def nextNumber (ids : List Nat) : Nat := ids.foldl max 0 + 1

/-- The effect of `vendor.save()` on the vendor collection for validated data: the unique
index on `email` rejects a duplicate, and the store may refuse the write. -/
def Vendor.save (env : Env) (vendors : List Vendor) (d : VendorData) :
    Option (Vendor × List Vendor) :=
  let doc : Vendor :=
    { oid := env.newId, id := nextNumber (vendors.map fun v => v.id),
      name := trim (d.name.getD ""), email := toLowerCase (trim (d.email.getD "")),
      registration_status := d.registration_status.getD "Pending",
      payment_status := d.payment_status, payment_attachment := d.payment_attachment,
      isAssign := false, booth_id := none, createdAt := env.now }
  if vendors.any (fun v => v.email == doc.email) || !env.accept then none
  else some (doc, vendors ++ [doc])

/-! ## The BoothAssignment model (`booth-assignmnet_model.js`) -/

/-- A stored booth assignment: `oid` is `_id`, `id` the auto-incremented number; the three
references are cast ObjectIds. -/
structure Assignment where
  oid : String
  id : Nat
  vendor : String
  festival : String
  booth : String
  deriving DecidableEq, Repr

/-! ## The Festival model (`festival_model.js`) -/

/-- A stored festival document; `date` is the time value of the Date, the numbers are taken
to be integers. -/
structure FestivalDoc where
  oid : String
  name : String
  organizer : String
  date : Nat
  status : String
  address : String
  category : String
  contact : String
  website : Option String
  description : Option String
  guestsAllowed : Int
  images : List String
  ticketPrice : Int
  deriving DecidableEq, Repr

/-! ## Events of the resource handlers -/

/-- The payload of an event of a resource handler. -/
inductive Data where
  | notification (n : Notification)
  | vendors (l : List Vendor)
  | vendorPayment (id : String) (payment_attachment payment_status : Option String)
  | paymentStatus (id : String) (status : Option String)
  | counts (registration payment : List (Option String × Nat)) (paymentVendors : Nat)
  | vendorAssignment (id : Nat) (isAssign : Bool) (booth_id : Option String)
  | yourBooth (isAssigned : Bool) (boothId : Option String)
  | assignments (l : List Assignment)
  | festivals (l : List FestivalDoc)
  deriving DecidableEq, Repr

/-- One event emitted by a resource handler. -/
structure Push where
  target : Target
  event : String
  data : Data
  deriving DecidableEq, Repr

/-! ## The vendor handlers (`vendor_api.js`) -/

/-- The vendor collection and the notification collection. -/
structure VendorState where
  vendors : List Vendor := []
  notifications : Store := []
  deriving DecidableEq, Repr

/-- The text fields of the body of `POST /vendors` that the schema takes from it. -/
structure VendorBody where
  name : Option String := none
  email : Option String := none
  phone : Option String := none
  password : Option String := none
  stall_name : Option String := none
  stall_type : Option String := none
  festival_id : Option String := none
  deriving DecidableEq, Repr

/-- The uploaded files of `POST /vendors`: for each field the stored file name. -/
structure VendorFiles where
  profile_image : Option String := none
  document_attachment : Option String := none
  payment_attachment : Option String := none
  deriving DecidableEq, Repr

/-- What a vendor handler does. -/
structure VendorOutcome where
  reply : Reply
  state : VendorState
  emitted : List Push
  deriving DecidableEq, Repr

/-- The constant `BASE_URL_UPLOAD`. -/
def BASE_URL_UPLOAD : String := "http://localhost:3000/uploads"

/-- The object `vendorData` of `POST /vendors`. -/
def vendorData (body : VendorBody) (files : VendorFiles) : VendorData :=
  { name := body.name, email := body.email, phone := body.phone, password := body.password,
    stall_name := body.stall_name, stall_type := body.stall_type,
    festival_id := body.festival_id,
    registration_status := some "Pending",
    payment_status := if files.payment_attachment.isSome then some "Pending" else none,
    profile_image := files.profile_image.map fun f => BASE_URL_UPLOAD ++ "/" ++ f,
    document_attachment := files.document_attachment.map fun f => BASE_URL_UPLOAD ++ "/" ++ f,
    payment_attachment := files.payment_attachment.map fun f => BASE_URL_UPLOAD ++ "/" ++ f }

/-- The result of `Vendor.find().sort({ createdAt: -1 })`. -/
def vendorsNewestFirst (vendors : List Vendor) : List Vendor :=
  vendors.insertionSort fun a b => b.createdAt ≤ a.createdAt

/-- The result of `$group` by a path with `$sum: 1`, reduced to a map: each value that occurs,
with the number of documents that have it. -/
def countBy (values : List (Option String)) : List (Option String × Nat) :=
  values.dedup.map fun v => (v, values.count v)

/-- The events of `emitStatusCounts`. -/
def emitStatusCounts (vendors : List Vendor) : List Push :=
  [⟨.all, "vendorStatusCounts",
    .counts (countBy (vendors.map fun v => some v.registration_status))
      (countBy (vendors.map fun v => v.payment_status))
      (vendors.countP fun v => v.payment_attachment.isSome)⟩]

/-- The binding of the name `status` in the scope of `broadcastVendorsUpdate`: the function
declares none and neither does an enclosing scope, so reading it throws a ReferenceError. -/
def statusInScope : Option String := none

/-- The function `broadcastVendorsUpdate`. With a vendor id that names a stored vendor, the
message of the notification reads `status`; the ReferenceError is caught by the `catch` block
of the function, which logs, so the call of `emitStatusCounts` at the end is not reached. -/
def broadcastVendorsUpdate (env : Env) (st : VendorState) (specificVendorId : Option String) :
    VendorState × List Push :=
  let list : List Push := [⟨.all, "vendorsUpdate", .vendors (vendorsNewestFirst st.vendors)⟩]
  if truthy specificVendorId then
    match castObjectId (specificVendorId.getD "") with
    | none => (st, list ++ emitStatusCounts st.vendors)
    | some oid =>
      match st.vendors.find? fun v => v.oid == oid with
      | none => (st, list ++ emitStatusCounts st.vendors)
      | some vendor =>
        let update : List Push :=
          list ++ [⟨.all, "vendorPaymentUpdate",
            .vendorPayment vendor.oid vendor.payment_attachment vendor.payment_status⟩]
        match statusInScope with
        | none => (st, update)
        | some status =>
          match save env st.notifications
              { type := some "status_update",
                message := some ("Your payment has been " ++ status),
                targetRoles := some ["vendor"], targetUserId := some vendor.oid,
                entityId := some vendor.oid } with
          | .error _ => (st, update)
          | .ok (saved, store1) =>
            ({ st with notifications := store1 },
              update ++ [⟨.all, "adminNotification", .notification saved⟩] ++
                emitStatusCounts st.vendors)
  else (st, list ++ emitStatusCounts st.vendors)

/-- The handler of `POST /vendors`; `files` is `none` when the request carries no multipart
body, `venv` is what the store supplies to the save of the vendor and `nenv` to the save of
the notification. A rejected save of either continues in the `catch` block, which answers 400
for a ValidationError and 500 otherwise. -/
def postVendors (venv nenv : Env) (st : VendorState) (body : VendorBody)
    (files : Option VendorFiles) : VendorOutcome :=
  match files with
  | none => ⟨{ status := 500, success := some false }, st, []⟩
  | some f =>
    if !Vendor.validateSync (vendorData body f) then
      ⟨{ status := 400, success := some false }, st, []⟩
    else
      match Vendor.save venv st.vendors (vendorData body f) with
      | none => ⟨{ status := 500, success := some false }, st, []⟩
      | some (vendor, vendors1) =>
        match postVendors_notify nenv st.notifications vendor.oid vendor.name with
        | .error e =>
          ⟨{ status := if e = .store then 500 else 400, success := some false },
            { st with vendors := vendors1 }, []⟩
        | .ok (store1, emits) =>
          let st1 : VendorState := { vendors := vendors1, notifications := store1 }
          let (st2, pushes) := broadcastVendorsUpdate nenv st1 none
          ⟨{ status := 201, success := some true }, st2,
            emits.filterMap (fun e =>
              match e.payload with
              | .record n => some ⟨e.target, e.event, .notification n⟩
              | .records _ => none) ++ pushes⟩

/-- The write `Vendor.findByIdAndUpdate(id, update, { new: true })` for a cast id. -/
def updateVendor (vendors : List Vendor) (oid : String) (f : Vendor → Vendor) : List Vendor :=
  vendors.map fun v => if v.oid = oid then f v else v

/-- The handler of `PATCH /vendors/:id/registration-status`; it ends with
`broadcastVendorsUpdate()`. -/
def patchRegistrationStatus (env : Env) (st : VendorState) (id : String)
    (status : Option String) : VendorOutcome :=
  match status with
  | none =>
    ⟨{ status := 400, success := some false,
       message := some "Status must be one of: Pending, Approved, Rejected" }, st, []⟩
  | some s =>
    if s ∉ validStatuses then
      ⟨{ status := 400, success := some false,
         message := some "Status must be one of: Pending, Approved, Rejected" }, st, []⟩
    else
      match castObjectId id with
      | none => ⟨{ status := 500, success := some false }, st, []⟩
      | some oid =>
        if !env.accept then ⟨{ status := 500, success := some false }, st, []⟩
        else
          match st.vendors.find? fun v => v.oid == oid with
          | none =>
            ⟨{ status := 404, success := some false, message := some "Vendor not found" },
              st, []⟩
          | some _ =>
            let st1 : VendorState :=
              { st with vendors :=
                  updateVendor st.vendors oid fun v => { v with registration_status := s } }
            let (st2, pushes) := broadcastVendorsUpdate env st1 none
            ⟨{ status := 200, success := some true }, st2, pushes⟩

/-- The handler of `PATCH /vendors/:id/payment-status`; a failure of the email is caught
inside the handler and changes nothing. After the answer it emits `paymentStatusUpdate` and
calls `broadcastVendorsUpdate(vendor._id)`. -/
def patchPaymentStatus (env : Env) (st : VendorState) (id : String)
    (status : Option String) : VendorOutcome :=
  match status with
  | none =>
    ⟨{ status := 400, success := some false,
       message := some "Status must be one of: Pending, Approved, Rejected" }, st, []⟩
  | some s =>
    if s ∉ validStatuses then
      ⟨{ status := 400, success := some false,
         message := some "Status must be one of: Pending, Approved, Rejected" }, st, []⟩
    else
      match castObjectId id with
      | none => ⟨{ status := 500, success := some false }, st, []⟩
      | some oid =>
        if !env.accept then ⟨{ status := 500, success := some false }, st, []⟩
        else
          match st.vendors.find? fun v => v.oid == oid with
          | none =>
            ⟨{ status := 404, success := some false, message := some "Vendor not found" },
              st, []⟩
          | some vendor =>
            let st1 : VendorState :=
              { st with vendors :=
                  updateVendor st.vendors oid fun v => { v with payment_status := some s } }
            let (st2, pushes) := broadcastVendorsUpdate env st1 (some vendor.oid)
            ⟨{ status := 200, success := some true }, st2,
              ⟨.all, "paymentStatusUpdate", .paymentStatus vendor.oid (some s)⟩ :: pushes⟩

/-- A body of `POST /vendors` that passes the validators. -/
def sampleVendorBody : VendorBody :=
  { name := some "Ann", email := some "Ann@Stall.io", phone := some "0123456789",
    password := some "secret12", stall_name := some "Teas", stall_type := some "Beverage",
    festival_id := some "64b7f3a2c9e1d4f5a6b7c8f1" }

/-- The files of the sample request: a profile image and a document. -/
def sampleVendorFiles : VendorFiles :=
  { profile_image := some "p.png", document_attachment := some "d.pdf" }

/-- What the store supplies to a write it refuses. -/
def refusingEnv : Env := { accept := false, newId := "64b7f3a2c9e1d4f5a6b7c806", now := 9 }

/-- What the store supplies to the save of the sample vendor. -/
def vendorEnv : Env := { accept := true, newId := "64b7f3a2c9e1d4f5a6b7c8a1", now := 3 }

/-- The sample vendor as stored. -/
def sampleVendor : Vendor :=
  { oid := "64b7f3a2c9e1d4f5a6b7c8a1", id := 1, name := "Ann", email := "ann@stall.io",
    registration_status := "Pending", payment_status := none, payment_attachment := none,
    isAssign := false, booth_id := none, createdAt := 3 }
/-! ## The booth-assignment handlers (`booth-assignment_api.js`) -/

/-- The vendor collection and the assignment collection. -/
structure AssignState where
  vendors : List Vendor := []
  assignments : List Assignment := []
  deriving DecidableEq, Repr

/-- The body of `POST /assignments` and `PUT /assignments/:id`. -/
structure AssignBody where
  vendor : Option String := none
  festival : Option String := none
  booth : Option String := none
  deriving DecidableEq, Repr

/-- What the environment supplies to one assignment request: whether the store accepts the
write of the assignment, the `_id` of a new document, whether the festival and the booth of
the request are found, whether the email is sent, and whether the transaction commits. -/
structure AssignEnv where
  accept : Bool := true
  newId : String
  festivalFound : Bool := true
  boothFound : Bool := true
  mailOk : Bool := true
  commitOk : Bool := true
  deriving DecidableEq, Repr

/-- What an assignment handler does. -/
structure AssignOutcome where
  reply : Reply
  state : AssignState
  emitted : List Push
  deriving DecidableEq, Repr

/-- The function `broadcastVendorAssignmentUpdate`: it reads the vendor, outside any session,
and emits its assignment to every connection and to the group of the vendor; an id that
cannot be cast rejects the read, which the `catch` block logs. -/
def broadcastVendorAssignmentUpdate (vendors : List Vendor) (vendorId : String) : List Push :=
  match castObjectId vendorId with
  | none => []
  | some oid =>
    match vendors.find? fun v => v.oid == oid with
    | none => []
    | some vendor =>
      [⟨.all, "vendorAssignmentUpdate",
        .vendorAssignment vendor.id vendor.isAssign vendor.booth_id⟩,
       ⟨.room ("vendor_" ++ toString vendor.id), "yourBoothAssignment",
        .yourBooth vendor.isAssign vendor.booth_id⟩]

/-- The function `broadcastAssignmentsUpdate`: the assignments sorted by `id`; the populated
references are left as ids. -/
def broadcastAssignmentsUpdate (assignments : List Assignment) : List Push :=
  [⟨.all, "assignmentsUpdate", .assignments (assignments.insertionSort fun a b => a.id ≤ b.id)⟩]

/-- The handler of `POST /assignments`. After the assignment is saved and the vendor updated,
a vendor, festival or booth that is not found, or a failure of the email, throws into the
`catch` block, which answers 500. -/
def postAssignments (env : AssignEnv) (st : AssignState) (body : AssignBody) : AssignOutcome :=
  match body.vendor.bind castObjectId, body.festival.bind castObjectId,
      body.booth.bind castObjectId with
  | some v, some f, some b =>
    if st.assignments.any fun a => a.booth == b then
      ⟨{ status := 400, success := some false }, st, []⟩
    else if st.vendors.any fun x => x.oid == v && x.isAssign then
      ⟨{ status := 400, success := some false }, st, []⟩
    else if !env.accept then ⟨{ status := 500, success := some false }, st, []⟩
    else
      let st1 : AssignState :=
        { vendors := updateVendor st.vendors v fun x =>
            { x with isAssign := true, booth_id := some b },
          assignments := st.assignments ++
            [{ oid := env.newId, id := nextNumber (st.assignments.map fun a => a.id),
               vendor := v, festival := f, booth := b }] }
      if (st1.vendors.find? fun x => x.oid == v).isNone || !env.festivalFound ||
          !env.boothFound || !env.mailOk then
        ⟨{ status := 500, success := some false }, st1, []⟩
      else
        ⟨{ status := 201, success := some true,
           message := some "Assignment created and email sent" }, st1,
          broadcastVendorAssignmentUpdate st1.vendors (body.vendor.getD "") ++
            broadcastAssignmentsUpdate st1.assignments⟩
  | _, _, _ => ⟨{ status := 400, success := some false }, st, []⟩

/-- A field of the update of `PUT /assignments/:id`: absent leaves the path as it is, a
present value is cast; the outer `none` is the CastError. -/
def castUpdate : Option String → Option (Option String)
  | none => some none
  | some s => (castObjectId s).map some

/-- The handler of `PUT /assignments/:id`. The reads of the handler and of the broadcast run
outside the session, on the committed state `st`; the writes run in the session and reach the
state when the transaction commits. `broadcastVendorAssignmentUpdate` is called inside the
block of the vendor change, before `commitTransaction`; `broadcastAssignmentsUpdate` after the
answer. A value that cannot be cast rejects the call that uses it, and a rejected call, write
or commit aborts the transaction and answers 500. -/
def putAssignments (env : AssignEnv) (st : AssignState) (id : String) (body : AssignBody) :
    AssignOutcome :=
  match castObjectId id with
  | none => ⟨{ status := 500, success := some false }, st, []⟩
  | some oid =>
    if truthy body.booth && (castObjectId (body.booth.getD "")).isNone then
      ⟨{ status := 500, success := some false }, st, []⟩
    else if truthy body.booth &&
        st.assignments.any (fun a =>
          some a.booth == castObjectId (body.booth.getD "") && a.oid != oid) then
      ⟨{ status := 400, success := some false }, st, []⟩
    else
      match st.assignments.find? fun a => a.oid == oid with
      | none => ⟨{ status := 404, message := some "Assignment not found" }, st, []⟩
      | some currentAssignment =>
        match castUpdate body.vendor, castUpdate body.festival, castUpdate body.booth with
        | some vendor, some festival, some booth =>
          if !env.accept then ⟨{ status := 500, success := some false }, st, []⟩
          else
            let assignments1 := st.assignments.map fun a =>
              if a.oid = oid then
                { a with vendor := vendor.getD a.vendor, festival := festival.getD a.festival,
                         booth := booth.getD a.booth }
              else a
            let changed : List Vendor × List Push :=
              if truthy body.vendor && body.vendor != some currentAssignment.vendor then
                (updateVendor
                  (updateVendor st.vendors currentAssignment.vendor fun x =>
                    { x with isAssign := false, booth_id := none })
                  (vendor.getD "") (fun x =>
                    { x with isAssign := true, booth_id := booth.orElse fun _ => x.booth_id }),
                 broadcastVendorAssignmentUpdate st.vendors (body.vendor.getD ""))
              else if truthy body.booth && body.booth != some currentAssignment.booth then
                (match vendor with
                 | none => st.vendors
                 | some v => updateVendor st.vendors v fun x => { x with booth_id := booth },
                 [])
              else (st.vendors, [])
            if !env.commitOk then ⟨{ status := 500, success := some false }, st, changed.2⟩
            else
              ⟨{ status := 200 }, { vendors := changed.1, assignments := assignments1 },
                changed.2 ++ broadcastAssignmentsUpdate assignments1⟩
        | _, _, _ => ⟨{ status := 500, success := some false }, st, []⟩

/-- The handler of `DELETE /assignments/:id`. -/
def deleteAssignments (st : AssignState) (id : String) : AssignOutcome :=
  match castObjectId id with
  | none => ⟨{ status := 500 }, st, []⟩
  | some oid =>
    match st.assignments.find? fun a => a.oid == oid with
    | none => ⟨{ status := 404, message := some "Assignment not found" }, st, []⟩
    | some assignment =>
      let vendors1 := updateVendor st.vendors assignment.vendor fun x =>
        { x with isAssign := false, booth_id := none }
      let assignments1 := st.assignments.filter fun a => a.oid != oid
      ⟨{ status := 200, message := some "Assignment deleted successfully" },
        { vendors := vendors1, assignments := assignments1 },
        broadcastVendorAssignmentUpdate vendors1 assignment.vendor ++
          broadcastAssignmentsUpdate assignments1⟩

/-- One request to the assignment routes, with what the environment supplies to it. -/
inductive AssignOp where
  | post (env : AssignEnv) (body : AssignBody)
  | put (env : AssignEnv) (id : String) (body : AssignBody)
  | delete (id : String)
  deriving DecidableEq, Repr

/-- The outcome of one request. -/
def AssignOp.run (st : AssignState) : AssignOp → AssignOutcome
  | .post env body => postAssignments env st body
  | .put env id body => putAssignments env st id body
  | .delete id => deleteAssignments st id

/-- The state after a sequence of requests, applied one after another. -/
def runAssign (st : AssignState) (ops : List AssignOp) : AssignState :=
  ops.foldl (fun s op => (op.run s).state) st

/-- The number of assignments that reference a vendor. -/
def assignmentsOf (st : AssignState) (vendor : String) : Nat :=
  st.assignments.countP fun a => a.vendor == vendor

/-- A second vendor. -/
def secondVendor : Vendor :=
  { oid := "64b7f3a2c9e1d4f5a6b7c8a2", id := 2, name := "Bob", email := "bob@stall.io",
    registration_status := "Approved", payment_status := none, payment_attachment := none,
    isAssign := false, booth_id := none, createdAt := 4 }

/-- Two vendors without a booth and no assignment. -/
def twoVendors : AssignState := { vendors := [sampleVendor, secondVendor] }

/-- The ids of a festival and of two booths. -/
def sampleFestivalId : String := "64b7f3a2c9e1d4f5a6b7c8f1"

/-- The id of the first booth. -/
def boothOne : String := "64b7f3a2c9e1d4f5a6b7c8b1"

/-- The id of the second booth. -/
def boothTwo : String := "64b7f3a2c9e1d4f5a6b7c8b2"

/-- The id given to the first assignment. -/
def assignmentOne : String := "64b7f3a2c9e1d4f5a6b7c8c1"

/-- The id given to the second assignment. -/
def assignmentTwo : String := "64b7f3a2c9e1d4f5a6b7c8c2"

/-- Each vendor is assigned a booth, then the first assignment is moved to the second
vendor. -/
def reassignOps : List AssignOp :=
  [.post { newId := assignmentOne }
      { vendor := some sampleVendor.oid, festival := some sampleFestivalId,
        booth := some boothOne },
   .post { newId := assignmentTwo }
      { vendor := some secondVendor.oid, festival := some sampleFestivalId,
        booth := some boothTwo },
   .put { newId := "" } assignmentOne
      { vendor := some secondVendor.oid, festival := some sampleFestivalId,
        booth := some boothOne }]

/-- The state after the two assignments were created. -/
def twoAssigned : AssignState := runAssign twoVendors (reassignOps.take 2)

/-- An environment whose transaction does not commit. -/
def failingCommit : AssignEnv := { newId := "", commitOk := false }

/-- The id of a third booth. -/
def boothThree : String := "64b7f3a2c9e1d4f5a6b7c8b3"

/-- The body that moves the first assignment to the second vendor. -/
def moveBody : AssignBody :=
  { vendor := some secondVendor.oid, festival := some sampleFestivalId, booth := some boothOne }

/-- A body of `POST /vendors` without a phone number. -/
def invalidVendorBody : VendorBody := { sampleVendorBody with phone := none }

/-! ## The festival handlers (`festival_api.js`) -/

/-- The object `festivalData` of `POST /festivals`: `date` is the time value of
`new Date(req.body.date)`, `none` for an invalid date; the numbers are the values of
`Number(...)`, `none` for NaN; `images` are the URLs built from the uploaded files. -/
structure FestivalData where
  name : Option String := none
  organizer : Option String := none
  date : Option Nat := none
  status : Option String := none
  address : Option String := none
  category : Option String := none
  contact : Option String := none
  ticketPrice : Option Int := none
  website : Option String := none
  guestsAllowed : Option Int := none
  description : Option String := none
  images : List String := []
  deriving DecidableEq, Repr

/-- The date of the body of `PUT /festivals/:id`. -/
inductive DateField where
  | absent
  | invalid
  | at (time : Nat)
  deriving DecidableEq, Repr

/-- The object `updateData` of `PUT /festivals/:id`, before the date is handled: an absent
path is left as it is. -/
structure FestivalUpdate where
  name : Option String := none
  organizer : Option String := none
  date : DateField := .absent
  status : Option String := none
  address : Option String := none
  category : Option String := none
  contact : Option String := none
  ticketPrice : Option Int := none
  website : Option String := none
  guestsAllowed : Option Int := none
  description : Option String := none
  images : Option (List String) := none
  deriving DecidableEq, Repr

/-- The `enum` of the `status` path of a festival. -/
def festivalStatuses : List String := ["Active", "Inactive", "Upcoming"]

/-- The `enum` of the `category` path of a festival. -/
def festivalCategories : List String := ["Religious", "Cultural", "Music", "Food"]

/-- The answer of `festival.validateSync()`: `true` when there is no validation error. -/
def FestivalData.validateSync (d : FestivalData) : Bool :=
  requiredPath 0 (fun _ => true) (d.name.map trim) &&
  requiredPath 0 (fun _ => true) (d.organizer.map trim) &&
  d.date.isSome &&
  requiredPath 0 (fun s => decide (s ∈ festivalStatuses)) d.status &&
  requiredPath 0 (fun _ => true) (d.address.map trim) &&
  requiredPath 0 (fun s => decide (s ∈ festivalCategories)) d.category &&
  requiredPath 0 phoneOk d.contact &&
  (match d.website with
   | none => true
   | some s => urlOk s) &&
  (match d.guestsAllowed with
   | none => false
   | some n => decide (1 ≤ n)) &&
  (match d.ticketPrice with
   | none => false
   | some n => decide (0 ≤ n))

/-- A path of an update passes when it is absent or passes the check of the path. -/
def updatePath {α : Type} (check : α → Bool) : Option α → Bool
  | none => true
  | some v => check v

/-- The validators that `runValidators: true` runs on the paths an update sets. -/
def FestivalUpdate.validate (u : FestivalUpdate) : Bool :=
  updatePath (fun s => trim s != "") u.name &&
  updatePath (fun s => trim s != "") u.organizer &&
  updatePath (fun s => decide (s ∈ festivalStatuses)) u.status &&
  updatePath (fun s => trim s != "") u.address &&
  updatePath (fun s => decide (s ∈ festivalCategories)) u.category &&
  updatePath (fun s => s != "" && phoneOk s) u.contact &&
  updatePath urlOk u.website &&
  updatePath (fun n => decide (1 ≤ n)) u.guestsAllowed &&
  updatePath (fun n => decide (0 ≤ n)) u.ticketPrice

/-- The document after the update is applied. -/
def FestivalUpdate.apply (u : FestivalUpdate) (d : FestivalDoc) : FestivalDoc :=
  { d with
    name := (u.name.map trim).getD d.name,
    organizer := (u.organizer.map trim).getD d.organizer,
    date := match u.date with
      | .at t => t
      | _ => d.date,
    status := u.status.getD d.status,
    address := (u.address.map trim).getD d.address,
    category := u.category.getD d.category,
    contact := u.contact.getD d.contact,
    ticketPrice := u.ticketPrice.getD d.ticketPrice,
    website := u.website.orElse fun _ => d.website,
    guestsAllowed := u.guestsAllowed.getD d.guestsAllowed,
    description := (u.description.map trim).orElse fun _ => d.description,
    images := u.images.getD d.images }

/-- What a festival handler does; `reply` is `none` when the handler ends without answering. -/
structure FestivalOutcome where
  reply : Option Reply
  state : List FestivalDoc
  emitted : List Push
  deriving DecidableEq, Repr

/-- The result of `Festival.find().sort({ date: 1 })`. -/
def festivalsByDate (festivals : List FestivalDoc) : List FestivalDoc :=
  festivals.insertionSort fun a b => a.date ≤ b.date

/-- The function `broadcastFestivalsUpdate`; `fetchOk` tells whether the `find` resolves. A
rejected `find` is logged by the `catch` block of the function. -/
def broadcastFestivalsUpdate (fetchOk : Bool) (festivals : List FestivalDoc) : List Push :=
  if fetchOk then [⟨.all, "festivalsUpdate", .festivals (festivalsByDate festivals)⟩] else []

/-- The handler of `POST /festivals`. The file does not import `mongoose`, which the `catch`
block names: when the save is rejected the `catch` block throws and no answer is sent. -/
def postFestivals (env : Env) (fetchOk : Bool) (st : List FestivalDoc) (d : FestivalData) :
    FestivalOutcome :=
  if !d.validateSync then ⟨some { status := 400, success := some false }, st, []⟩
  else if !env.accept then ⟨none, st, []⟩
  else
    let doc : FestivalDoc :=
      { oid := env.newId, name := trim (d.name.getD ""),
        organizer := trim (d.organizer.getD ""), date := d.date.getD 0,
        status := d.status.getD "", address := trim (d.address.getD ""),
        category := d.category.getD "", contact := d.contact.getD "",
        website := d.website, description := d.description.map trim,
        guestsAllowed := d.guestsAllowed.getD 0, images := d.images,
        ticketPrice := d.ticketPrice.getD 0 }
    ⟨some { status := 201, success := some true }, st ++ [doc],
      broadcastFestivalsUpdate fetchOk (st ++ [doc])⟩

/-- The handler of `PUT /festivals/:id`; every rejection is answered 500. -/
def putFestivals (env : Env) (fetchOk : Bool) (st : List FestivalDoc) (id : String)
    (u : FestivalUpdate) : FestivalOutcome :=
  if u.date = .invalid then
    ⟨some { status := 400, success := some false, message := some "Invalid date format" },
      st, []⟩
  else
    match castObjectId id with
    | none => ⟨some { status := 500, success := some false }, st, []⟩
    | some oid =>
      if !u.validate || !env.accept then
        ⟨some { status := 500, success := some false }, st, []⟩
      else
        match st.find? fun d => d.oid == oid with
        | none => ⟨some { status := 404, message := some "Festival not found" }, st, []⟩
        | some _ =>
          let st1 := st.map fun d => if d.oid = oid then u.apply d else d
          ⟨some { status := 200 }, st1, broadcastFestivalsUpdate fetchOk st1⟩

/-- The handler of `DELETE /festivals/:id`. -/
def deleteFestivals (env : Env) (fetchOk : Bool) (st : List FestivalDoc) (id : String) :
    FestivalOutcome :=
  match castObjectId id with
  | none => ⟨some { status := 500 }, st, []⟩
  | some oid =>
    if !env.accept then ⟨some { status := 500 }, st, []⟩
    else
      match st.find? fun d => d.oid == oid with
      | none => ⟨some { status := 404, message := some "Festival not found" }, st, []⟩
      | some _ =>
        let st1 := st.filter fun d => d.oid != oid
        ⟨some { status := 200, message := some "Festival deleted successfully" }, st1,
          broadcastFestivalsUpdate fetchOk st1⟩

/-- A create, update or delete of a festival. -/
inductive FestivalOp where
  | create (d : FestivalData)
  | update (id : String) (u : FestivalUpdate)
  | delete (id : String)
  deriving DecidableEq, Repr

/-- The outcome of one festival request. -/
def FestivalOp.run (env : Env) (fetchOk : Bool) (st : List FestivalDoc) :
    FestivalOp → FestivalOutcome
  | .create d => postFestivals env fetchOk st d
  | .update id u => putFestivals env fetchOk st id u
  | .delete id => deleteFestivals env fetchOk st id

/-- The statuses with which the festival handlers answer a write that was made. -/
def FestivalOutcome.succeeded (o : FestivalOutcome) : Bool :=
  o.reply.any fun r => r.status == 200 || r.status == 201

/-- A festival as sent to `POST /festivals`. -/
def sampleFestivalData : FestivalData :=
  { name := some "Spring Fair", organizer := some "Town", date := some 20,
    status := some "Upcoming", address := some "Main Square", category := some "Food",
    contact := some "0123456789", ticketPrice := some 5, guestsAllowed := some 100 }

/-- A stored festival that takes place later than the sample. -/
def laterFestival : FestivalDoc :=
  { oid := "64b7f3a2c9e1d4f5a6b7c8f2", name := "Autumn Fair", organizer := "Town", date := 90,
    status := "Upcoming", address := "Park", category := "Music", contact := "0123456789",
    website := none, description := none, guestsAllowed := 50, images := [], ticketPrice := 0 }

/-! ## The event handlers (`event_api.js`) -/

/-- A stored event; the times are time values. -/
structure Event where
  oid : String
  id : Nat
  festivalId : String
  title : String
  eventType : String
  startTime : Nat
  endTime : Nat
  location : String
  description : Option String
  status : String
  deriving DecidableEq, Repr

/-- The body of `POST /events` and `PUT /events/:id`; the times are the cast values. -/
structure EventBody where
  festivalId : Option String := none
  title : Option String := none
  eventType : Option String := none
  startTime : Option Nat := none
  endTime : Option Nat := none
  location : Option String := none
  description : Option String := none
  status : Option String := none
  deriving DecidableEq, Repr

/-- The `enum` of the `status` path of an event; also `allowedStatuses` of the PATCH. -/
def allowedStatuses : List String := ["draft", "published", "cancelled"]

/-- What an event handler does to the answer and to the event collection; the
`eventsUpdate` broadcast that follows a write does not enter the collection and is left out. -/
structure EventOutcome where
  reply : Reply
  state : List Event
  deriving DecidableEq, Repr

/-- The handler of `POST /events`: the status is the one of the body, `draft` when it is
falsy. -/
def postEvents (env : Env) (st : List Event) (b : EventBody) : EventOutcome :=
  let status := if truthy b.status then b.status.getD "" else "draft"
  match b.festivalId.bind castObjectId, b.startTime, b.endTime with
  | some festival, some startTime, some endTime =>
    if !(truthy b.title && truthy b.eventType && truthy b.location &&
        decide (status ∈ allowedStatuses)) then
      ⟨{ status := 400, success := some false }, st⟩
    else if !env.accept then ⟨{ status := 500, success := some false }, st⟩
    else
      ⟨{ status := 201, success := some true },
        st ++ [{ oid := env.newId, id := nextNumber (st.map fun e => e.id),
                 festivalId := festival, title := b.title.getD "",
                 eventType := b.eventType.getD "", startTime := startTime,
                 endTime := endTime, location := b.location.getD "",
                 description := b.description, status := status }]⟩
  | _, _, _ => ⟨{ status := 400, success := some false }, st⟩

/-- The handler of `PUT /events/:id`: `findByIdAndUpdate` with the paths of the body, an
absent path being left as it is; the status of the stored event is not read. A path that
fails its validator is answered 400, a value that cannot be cast 500. -/
def putEvents (env : Env) (st : List Event) (id : String) (b : EventBody) : EventOutcome :=
  match castObjectId id, castUpdate b.festivalId with
  | some oid, some festival =>
    if !(updatePath (fun s => s != "") b.title && updatePath (fun s => s != "") b.eventType &&
        updatePath (fun s => s != "") b.location &&
        updatePath (fun s => decide (s ∈ allowedStatuses)) b.status) then
      ⟨{ status := 400, success := some false }, st⟩
    else if !env.accept then ⟨{ status := 500, success := some false }, st⟩
    else
      match st.find? fun e => e.oid == oid with
      | none => ⟨{ status := 404, message := some "Event not found" }, st⟩
      | some _ =>
        ⟨{ status := 200 },
          st.map fun e =>
            if e.oid = oid then
              { e with festivalId := festival.getD e.festivalId, title := b.title.getD e.title,
                       eventType := b.eventType.getD e.eventType,
                       startTime := b.startTime.getD e.startTime,
                       endTime := b.endTime.getD e.endTime,
                       location := b.location.getD e.location,
                       description := b.description.orElse fun _ => e.description,
                       status := b.status.getD e.status }
            else e⟩
  | _, _ => ⟨{ status := 500, success := some false }, st⟩

/-- The handler of `DELETE /events/:id`. -/
def deleteEvents (env : Env) (st : List Event) (id : String) : EventOutcome :=
  match castObjectId id with
  | none => ⟨{ status := 500 }, st⟩
  | some oid =>
    if !env.accept then ⟨{ status := 500 }, st⟩
    else
      match st.find? fun e => e.oid == oid with
      | none => ⟨{ status := 404, message := some "Event not found" }, st⟩
      | some _ =>
        ⟨{ status := 200, message := some "Event deleted successfully" },
          st.filter fun e => e.oid != oid⟩

/-- The handler of `PATCH /events/:id/status`: a cancelled event keeps its status. -/
def patchEventStatus (env : Env) (st : List Event) (id : String) (status : Option String) :
    EventOutcome :=
  match status with
  | none => ⟨{ status := 400, success := some false }, st⟩
  | some s =>
    if s ∉ allowedStatuses then ⟨{ status := 400, success := some false }, st⟩
    else
      match castObjectId id with
      | none => ⟨{ status := 500, success := some false }, st⟩
      | some oid =>
        match st.find? fun e => e.oid == oid with
        | none => ⟨{ status := 404, message := some "Event not found" }, st⟩
        | some event =>
          if event.status = "cancelled" ∧ s ≠ "cancelled" then
            ⟨{ status := 400, success := some false }, st⟩
          else if !env.accept then ⟨{ status := 500, success := some false }, st⟩
          else
            ⟨{ status := 200 },
              st.map fun e => if e.oid = oid then { e with status := s } else e⟩

/-- A stored event that was cancelled. -/
def cancelledEvent : Event :=
  { oid := "64b7f3a2c9e1d4f5a6b7c8e1", id := 1, festivalId := "64b7f3a2c9e1d4f5a6b7c8f1",
    title := "Parade", eventType := "Show", startTime := 10, endTime := 20,
    location := "Gate", description := none, status := "cancelled" }

/-! ## The ticket handlers (`user_ticket_api.js`) -/

/-- The paths of a stored ticket that the handlers read or write. -/
structure Ticket where
  oid : String
  user_id : String
  festival_id : String
  amount : Int
  payment_status : String
  qr_code : Option String
  deriving DecidableEq, Repr

/-- The paths of the body of `POST /tickets` that the schema takes from it; `amount` is the
cast number. -/
structure TicketBody where
  user_id : Option String := none
  festival_id : Option String := none
  amount : Option Int := none
  deriving DecidableEq, Repr

/-- What the environment supplies to one ticket request: whether the store accepts the write
of the ticket, the `_id` of a new document, the name of the user that `User.findById`
returns, whether the notification record is saved, and whether the QR image is written. -/
structure TicketEnv where
  accept : Bool := true
  newId : String
  userName : Option String := some "A"
  notifyOk : Bool := true
  qrOk : Bool := true
  deriving DecidableEq, Repr

/-- What a ticket handler does to the answer and to the ticket collection; the notification
records and the events of the handlers do not enter the collection and are left out. -/
structure TicketOutcome where
  reply : Reply
  state : List Ticket
  deriving DecidableEq, Repr

/-- A ticket of the user for the festival that is not Rejected: the filter of the `findOne`
of `POST /tickets`. -/
def holds (user festival : String) (t : Ticket) : Bool :=
  t.user_id == user && t.festival_id == festival && t.payment_status != "Rejected"

/-- The handler of `POST /tickets`; `file` is the name of the uploaded payment proof. -/
def postTickets (env : TicketEnv) (st : List Ticket) (body : TicketBody)
    (file : Option String) : TicketOutcome :=
  match file with
  | none =>
    ⟨{ status := 400, success := some false, message := some "Payment proof is required" },
      st⟩
  | some filename =>
    match castUpdate body.user_id, castUpdate body.festival_id with
    | some user, some festival =>
      if st.any fun t => some t.user_id == user && some t.festival_id == festival &&
          t.payment_status != "Rejected" then
        ⟨{ status := 400, success := some false,
           message := some "You already have a ticket for this festival" }, st⟩
      else
        match user, env.userName with
        | some u, some _ =>
          match festival, body.amount with
          | some f, some amount =>
            if !(decide (0 ≤ amount) && urlOk (BASE_URL_UPLOAD ++ "/" ++ filename) &&
                env.accept) then
              ⟨{ status := 500, success := some false }, st⟩
            else
              let st1 := st ++ [{ oid := env.newId, user_id := u, festival_id := f,
                                  amount := amount, payment_status := "Pending",
                                  qr_code := none }]
              if !env.notifyOk then ⟨{ status := 500, success := some false }, st1⟩
              else ⟨{ status := 201, success := some true }, st1⟩
          | _, _ => ⟨{ status := 500, success := some false }, st⟩
        | _, _ =>
          ⟨{ status := 404, success := some false, message := some "User not found" }, st⟩
    | _, _ => ⟨{ status := 500, success := some false }, st⟩

/-- The write `ticket.save()` of a found ticket: the first document with the id. -/
def updateTicket (oid : String) (f : Ticket → Ticket) : List Ticket → List Ticket
  | [] => []
  | t :: rest => if t.oid = oid then f t :: rest else t :: updateTicket oid f rest

/-- The constant `BASE_URL`. -/
def BASE_URL : String := "http://localhost:3000"

/-- The handler of `PATCH /tickets/:id/payment-status`: the status of the stored ticket is
not read. -/
def patchTicketStatus (env : TicketEnv) (st : List Ticket) (id : String)
    (status : Option String) : TicketOutcome :=
  match status with
  | none =>
    ⟨{ status := 400, success := some false,
       message := some "Status must be one of: Pending, Approved, Rejected" }, st⟩
  | some s =>
    if s ∉ validStatuses then
      ⟨{ status := 400, success := some false,
         message := some "Status must be one of: Pending, Approved, Rejected" }, st⟩
    else
      match castObjectId id with
      | none =>
        ⟨{ status := 500, success := some false, message := some "Internal server error" },
          st⟩
      | some oid =>
        match st.find? fun t => t.oid == oid with
        | none =>
          ⟨{ status := 404, success := some false, message := some "Ticket not found" }, st⟩
        | some _ =>
          if s = "Approved" then
            if !(env.qrOk && env.accept) then
              ⟨{ status := 500, success := some false,
                 message := some "Failed to generate QR code" }, st⟩
            else
              ⟨{ status := 200, success := some true },
                updateTicket oid (fun t =>
                  { t with payment_status := s,
                           qr_code := some (BASE_URL ++ "/downloads/ticket-" ++ t.oid ++
                             ".png") }) st⟩
          else if !env.accept then
            ⟨{ status := 500, success := some false,
               message := some "Internal server error" }, st⟩
          else
            ⟨{ status := 200, success := some true },
              updateTicket oid (fun t => { t with payment_status := s }) st⟩

/-- One request to the ticket routes, with what the environment supplies to it. -/
inductive TicketOp where
  | post (env : TicketEnv) (body : TicketBody) (file : Option String)
  | patch (env : TicketEnv) (id : String) (status : Option String)
  deriving DecidableEq, Repr

/-- The outcome of one ticket request. -/
def TicketOp.run (st : List Ticket) : TicketOp → TicketOutcome
  | .post env body file => postTickets env st body file
  | .patch env id status => patchTicketStatus env st id status

/-- The collection after a sequence of requests, applied one after another. -/
def runTickets (st : List Ticket) (ops : List TicketOp) : List Ticket :=
  ops.foldl (fun s op => (op.run s).state) st

/-- Two tickets of one user for one festival that are both not Rejected. -/
def conflict (a b : Ticket) : Bool :=
  a.user_id == b.user_id && a.festival_id == b.festival_id &&
    a.payment_status != "Rejected" && b.payment_status != "Rejected"

/-- No two tickets of the collection are in conflict. -/
def atMostOne (tickets : List Ticket) : Prop :=
  tickets.Pairwise fun a b => conflict a b = false

/-- The request is a PATCH that names a stored ticket that is Rejected and gives it another
valid status. -/
def TicketOp.revives (st : List Ticket) : TicketOp → Bool
  | .post _ _ _ => false
  | .patch _ id status =>
    match castObjectId id, status with
    | some oid, some s =>
      decide (s ∈ validStatuses) && s != "Rejected" &&
        match st.find? fun t => t.oid == oid with
        | some t => t.payment_status == "Rejected"
        | none => false
    | _, _ => false

/-- No request of the sequence revives a ticket in the state it is applied to. -/
def noRevival : List Ticket → List TicketOp → Bool
  | _, [] => true
  | st, op :: rest => !op.revives st && noRevival (op.run st).state rest

/-- The body of a ticket purchase of the sample user for the sample festival. -/
def sampleTicketBody : TicketBody :=
  { user_id := some sampleUser, festival_id := some sampleFestivalId, amount := some 5 }

/-- The id given to the first ticket. -/
def ticketOne : String := "64b7f3a2c9e1d4f5a6b7c8d1"

/-- The id given to the second ticket. -/
def ticketTwo : String := "64b7f3a2c9e1d4f5a6b7c8d2"

/-- A ticket is bought and rejected, a second one is bought, then the first is approved. -/
def reviveOps : List TicketOp :=
  [.post { newId := ticketOne } sampleTicketBody (some "proof.png"),
   .patch { newId := "" } ticketOne (some "Rejected"),
   .post { newId := ticketTwo } sampleTicketBody (some "proof.png"),
   .patch { newId := "" } ticketOne (some "Approved")]

/-- A ticket is bought and approved, a second purchase is refused, the ticket is rejected,
and a new one is bought. -/
def rebuyOps : List TicketOp :=
  [.post { newId := ticketOne } sampleTicketBody (some "proof.png"),
   .patch { newId := "" } ticketOne (some "Approved"),
   .post { newId := ticketTwo } sampleTicketBody (some "proof.png"),
   .patch { newId := "" } ticketOne (some "Rejected"),
   .post { newId := ticketTwo } sampleTicketBody (some "proof.png")]

/-- The sample festival as stored by the sample environment. -/
def sampleFestival : FestivalDoc :=
  { oid := sampleEnv.newId, name := "Spring Fair", organizer := "Town", date := 20,
    status := "Upcoming", address := "Main Square", category := "Food",
    contact := "0123456789", website := none, description := none, guestsAllowed := 100,
    images := [], ticketPrice := 5 }

/-! ## Auxiliary facts -/

theorem append_right_cancel_string {a b c : String} (h : a ++ c = b ++ c) : a = b := by
  have h1 := congrArg String.data h
  simp only [String.data_append] at h1
  exact String.ext (List.append_cancel_right h1)

theorem append_left_cancel_string {a b c : String} (h : c ++ a = c ++ b) : a = b := by
  have h1 := congrArg String.data h
  simp only [String.data_append] at h1
  exact String.ext (List.append_cancel_left h1)

theorem roleRoom_inj {a b : String} (h : roleRoom a = roleRoom b) : a = b :=
  append_left_cancel_string h

theorem append_ne_empty (a b : String) (h : a ≠ "") : a ++ b ≠ "" := by
  intro h1
  have h2 := congrArg String.data h1
  simp only [String.data_append] at h2
  have h3 : a.data = [] := (List.append_eq_nil.mp h2).1
  exact h (String.ext h3)

theorem truthy_some_iff (s : String) : truthy (some s) = true ↔ s ≠ "" := by
  simp [truthy]

theorem castObjectId_ne_empty {s uid : String} (h : castObjectId s = some uid) : s ≠ "" := by
  intro hs
  subst hs
  simp [castObjectId] at h

/-- A validated document carries the cast fields of the data and only roles of the enum. -/
theorem validate_ok {env : Env} {d : NotificationData} {doc : Notification}
    (h : validate env d = .ok doc) :
    (∀ r ∈ d.targetRoles.getD [], r ∈ roleEnum) ∧ doc.targetRoles = d.targetRoles.getD [] ∧
    castOptionalId d.targetUserId = some doc.targetUserId ∧
    castOptionalId d.entityId = some doc.entityId ∧ doc.read = d.read.getD false ∧
    doc.id = env.newId := by
  unfold validate at h
  split at h
  · rename_i entity user he hu
    split at h
    · split at h
      · rename_i hc
        cases h
        exact ⟨hc.2.2, rfl, hu, he, rfl, rfl⟩
      · cases h
    · cases h
  · cases h

theorem save_ok {env : Env} {store store1 : Store} {d : NotificationData} {saved : Notification}
    (h : save env store d = .ok (saved, store1)) :
    validate env d = .ok saved ∧ env.accept = true ∧ store1 = store ++ [saved] := by
  unfold save at h
  split at h
  · cases h
  · rename_i doc hv
    split at h
    · rename_i ha
      cases h
      exact ⟨hv, ha, rfl⟩
    · cases h

theorem filterMap_roles (saved : Notification) (roles : List String)
    (h : ∀ r ∈ roles, r ∈ roleEnum) :
    (roles.filterMap fun role =>
      if role ∈ roleEnum then
        some (⟨.room (roleRoom role), role ++ "Notification", .record saved⟩ : Emit)
      else none) = roles.map (roleEvent saved) := by
  induction roles with
  | nil => rfl
  | cons r rest ih =>
    have hr : r ∈ roleEnum := h r (List.mem_cons_self _ _)
    have hrest : ∀ x ∈ rest, x ∈ roleEnum := fun x hx => h x (List.mem_cons_of_mem _ hx)
    simp only [List.filterMap_cons, hr, if_true, List.map_cons, ih hrest, roleEvent]

theorem truthy_of_cast {u : String} {v : Option String}
    (h : castOptionalId (some u) = some v) : truthy (some u) = true := by
  cases hc : castObjectId u with
  | none => simp [castOptionalId, hc] at h
  | some uid => exact (truthy_some_iff u).mpr (castObjectId_ne_empty hc)

/-- The emits of the `then` callback for a validated record, spelt out: the membership test
against the literal role array never drops a role, and a castable user id is truthy. -/
theorem sendEmits_of_validate {env : Env} {d : NotificationData} {saved : Notification}
    (hv : validate env d = .ok saved) :
    sendEmits d saved =
      (match d.targetUserId with
       | some u => [⟨.room (userRoom u), "userNotification", .record saved⟩]
       | none => []) ++ (d.targetRoles.getD []).map (roleEvent saved) := by
  obtain ⟨hroles, -, hu, -⟩ := validate_ok hv
  unfold sendEmits
  congr 1
  · cases hd : d.targetUserId with
    | none => rfl
    | some u =>
      rw [hd] at hu
      simp [truthy_of_cast hu]
  · cases hd : d.targetRoles with
    | none => rfl
    | some roles =>
      rw [hd] at hroles
      exact filterMap_roles saved roles hroles

/-- What `sendNotification` emits when the save of its record succeeds. -/
theorem sendNotification_emitted {env : Env} {store store1 : Store} {d : NotificationData}
    {saved : Notification} (h : save env store d = .ok (saved, store1)) :
    (sendNotification env store d).2 =
      (match d.targetUserId with
       | some u => [⟨.room (userRoom u), "userNotification", .record saved⟩]
       | none => []) ++ (d.targetRoles.getD []).map (roleEvent saved) := by
  obtain ⟨hv, -, -⟩ := save_ok h
  have hem := sendEmits_of_validate hv
  have key : (sendNotification env store d).2 = sendEmits d saved := by
    unfold sendNotification
    split
    · rename_i hg
      simp only [Bool.and_eq_true, Option.isNone_iff_eq_none, Bool.not_eq_true'] at hg
      obtain ⟨hr, hu⟩ := hg
      rw [hem, hr]
      cases hd : d.targetUserId with
      | none => rfl
      | some u =>
        obtain ⟨-, -, hcu, -⟩ := validate_ok hv
        rw [hd] at hu hcu
        rw [truthy_of_cast hcu] at hu
        cases hu
    · rw [h]
  rw [key, hem]

theorem received_roles (rooms : Finset String) (saved : Notification) (roles : List String) :
    received rooms (roles.map (roleEvent saved)) =
      (roles.filter fun r => decide (roleRoom r ∈ rooms)).map (roleEvent saved) := by
  unfold received
  rw [List.filter_map]
  rfl

theorem roleEvent_event_iff (saved : Notification) (r R : String) :
    (roleEvent saved r).event = R ++ "Notification" ↔ r = R := by
  constructor
  · intro h
    exact append_right_cancel_string h
  · intro h
    rw [h]
    rfl

theorem roleEvent_target_iff (saved : Notification) (r R : String) :
    (roleEvent saved r).target = .room (roleRoom R) ↔ r = R := by
  constructor
  · intro h
    exact roleRoom_inj (Target.room.inj h)
  · intro h
    rw [h]
    rfl

theorem newestFirst_sorted (l : List Notification) :
    (newestFirst l).Sorted (fun a b => b.timestamp ≤ a.timestamp) := by
  haveI : IsTotal Notification (fun a b => b.timestamp ≤ a.timestamp) :=
    ⟨fun a b => Nat.le_total b.timestamp a.timestamp⟩
  haveI : IsTrans Notification (fun a b => b.timestamp ≤ a.timestamp) :=
    ⟨fun _ _ _ hab hbc => Nat.le_trans hbc hab⟩
  exact List.sorted_insertionSort _ l

theorem newestFirst_perm (l : List Notification) : (newestFirst l).Perm l :=
  List.perm_insertionSort _ l

theorem castObjectId_sampleUser : castObjectId sampleUser = some sampleUser := by decide

/-! ## C1: delivery of a role notification -/

/-- C1, as stated, fails: a notification for the roles admin and vendor, without a user, is
published; a connection that joined only the vendor group is not a member of the admin group,
yet it receives an event from this publish, the `vendorNotification`. -/
theorem role_delivery_counterexample :
    "admin" ∈ ["admin", "vendor"] ∧ twoRoleData.targetRoles = some ["admin", "vendor"] ∧
    twoRoleData.targetUserId = none ∧
    roleRoom "admin" ∉ ({roleRoom "vendor"} : Finset String) ∧
    received {roleRoom "vendor"} (sendNotification sampleEnv [] twoRoleData).2 =
      [⟨.room (roleRoom "vendor"), "vendorNotification", .record twoRoleSaved⟩] := by
  decide

/-- C1, amended: for every set of rooms of a connection and every notification without a
user whose save succeeds and whose `targetRoles` lists the role R once, a connection in the
group of R receives exactly one `<R>Notification` event, carrying the saved record; a
connection outside that group receives no `<R>Notification` event and no event addressed to
that group; whatever a connection receives is the event of a target role whose group it has
joined; and when R is the only target role a connection outside its group receives nothing. -/
theorem sendNotification_role_delivery (env : Env) (store store1 : Store)
    (d : NotificationData) (saved : Notification) (roles : List String) (R : String)
    (rooms : Finset String)
    (hu : d.targetUserId = none) (hr : d.targetRoles = some roles) (hR : roles.count R = 1)
    (hs : save env store d = .ok (saved, store1)) :
    (roleRoom R ∈ rooms →
      (received rooms (sendNotification env store d).2).filter
          (fun e => decide (e.event = R ++ "Notification")) =
        [⟨.room (roleRoom R), R ++ "Notification", .record saved⟩]) ∧
    (roleRoom R ∉ rooms →
      ∀ e ∈ received rooms (sendNotification env store d).2,
        e.event ≠ R ++ "Notification" ∧ e.target ≠ .room (roleRoom R)) ∧
    (∀ e ∈ received rooms (sendNotification env store d).2,
      ∃ r ∈ roles, roleRoom r ∈ rooms ∧
        e = ⟨.room (roleRoom r), r ++ "Notification", .record saved⟩) ∧
    (roles = [R] → roleRoom R ∉ rooms →
      received rooms (sendNotification env store d).2 = []) := by
  have hem : (sendNotification env store d).2 = roles.map (roleEvent saved) := by
    rw [sendNotification_emitted hs, hu, hr]
    rfl
  rw [hem, received_roles]
  refine ⟨?_, ?_, ?_, ?_⟩
  · intro hin
    rw [List.filter_map, List.filter_filter]
    have hp : (roles.filter fun r =>
        ((fun e : Emit => decide (e.event = R ++ "Notification")) ∘ roleEvent saved) r &&
          decide (roleRoom r ∈ rooms)) = roles.filter (· = R) := by
      apply List.filter_congr
      intro r _
      by_cases hrR : r = R
      · subst hrR
        simp [roleEvent, hin]
      · have : ¬ (roleEvent saved r).event = R ++ "Notification" :=
          fun h => hrR ((roleEvent_event_iff saved r R).mp h)
        simp [hrR, this]
    rw [hp, List.filter_eq, hR]
    rfl
  · intro hnot e he
    rw [List.mem_map] at he
    obtain ⟨r, hrm, rfl⟩ := he
    rw [List.mem_filter] at hrm
    have hin : roleRoom r ∈ rooms := of_decide_eq_true hrm.2
    have hne : r ≠ R := fun h => hnot (h ▸ hin)
    exact ⟨fun h => hne ((roleEvent_event_iff saved r R).mp h),
      fun h => hne ((roleEvent_target_iff saved r R).mp h)⟩
  · intro e he
    rw [List.mem_map] at he
    obtain ⟨r, hrm, rfl⟩ := he
    rw [List.mem_filter] at hrm
    exact ⟨r, hrm.1, of_decide_eq_true hrm.2, rfl⟩
  · intro hroles hnot
    subst hroles
    simp [hnot]

/-- Witness of C1 amended: the two-role notification, the role vendor, and a connection in
the vendor group only. -/
theorem sendNotification_role_delivery_witness :
    ["admin", "vendor"].count "vendor" = 1 ∧
    save sampleEnv [] twoRoleData = .ok (twoRoleSaved, [twoRoleSaved]) ∧
    (received {roleRoom "vendor"} (sendNotification sampleEnv [] twoRoleData).2).filter
        (fun e => decide (e.event = "vendor" ++ "Notification")) =
      [⟨.room (roleRoom "vendor"), "vendor" ++ "Notification", .record twoRoleSaved⟩] :=
  ⟨by decide, rfl,
    (sendNotification_role_delivery sampleEnv [] [twoRoleSaved] twoRoleData twoRoleSaved
      ["admin", "vendor"] "vendor" {roleRoom "vendor"} rfl rfl (by decide) rfl).1 (by decide)⟩

/-! ## C2: the events of a successful publish -/

/-- C2: for every notification whose save succeeds, `sendNotification` emits exactly: one
`userNotification` to the room of the target user when `targetUserId` is present, then for
each role r of `targetRoles`, in order, one `<r>Notification` to the room of role r; nothing
else is emitted and every payload is the saved record. -/
theorem sendNotification_emits (env : Env) (store store1 : Store) (d : NotificationData)
    (saved : Notification) (h : save env store d = .ok (saved, store1)) :
    (sendNotification env store d).2 =
      (match d.targetUserId with
       | some u => [⟨.room (userRoom u), "userNotification", .record saved⟩]
       | none => []) ++
      (d.targetRoles.getD []).map
        (fun r => ⟨.room (roleRoom r), r ++ "Notification", .record saved⟩) ∧
    ∀ e ∈ (sendNotification env store d).2, e.payload = .record saved := by
  have hem := sendNotification_emitted h
  rw [hem]
  refine ⟨rfl, ?_⟩
  intro e he
  rw [List.mem_append] at he
  rcases he with he | he
  · cases hd : d.targetUserId with
    | none => rw [hd] at he; cases he
    | some u =>
      rw [hd] at he
      simp only [List.mem_singleton] at he
      rw [he]
  · rw [List.mem_map] at he
    obtain ⟨r, -, hr⟩ := he
    rw [← hr]
    rfl

/-- Witness of C2: a notification for one user and the role user. -/
theorem sendNotification_emits_witness :
    save sampleEnv [] userRoleData = .ok (userRoleSaved, [userRoleSaved]) ∧
    (sendNotification sampleEnv [] userRoleData).2 =
      [⟨.room (userRoom sampleUser), "userNotification", .record userRoleSaved⟩,
       ⟨.room (roleRoom "user"), "userNotification", .record userRoleSaved⟩] :=
  ⟨rfl, (sendNotification_emits sampleEnv [] [userRoleSaved] userRoleData userRoleSaved rfl).1⟩

/-! ## C3: the new-vendor scenario -/

/-- C3, as stated, fails: the notification of the scenario, with type `new_vendor`, target
roles admin and a well-formed entity id but no message, is not persisted and not broadcast,
because the model requires a message. -/
theorem new_vendor_without_message_counterexample :
    sendNotification sampleEnv []
        { type := some "new_vendor", targetRoles := some ["admin"],
          entityId := some sampleUser } = ([], []) ∧
    ¬ (sendNotification sampleEnv []
        { type := some "new_vendor", targetRoles := some ["admin"],
          entityId := some sampleUser }).1.length = 1 := by
  decide

/-- C3, amended: publishing the notification with type `new_vendor`, a non-empty message,
target roles admin and an entity id that casts to an ObjectId, on a store that accepts the
write, adds exactly one record, with `targetRoles` equal to admin alone and `read` false, and
emits exactly one event, `adminNotification` to the admin room; no event is addressed to the
vendor or user room. -/
theorem sendNotification_new_vendor (env : Env) (store : Store) (m V1 v : String)
    (hm : m ≠ "") (hv : castObjectId V1 = some v) (ha : env.accept = true) :
    sendNotification env store
        { type := some "new_vendor", message := some m, targetRoles := some ["admin"],
          entityId := some V1 } =
      (store ++ [{ id := env.newId, type := "new_vendor", message := m, timestamp := env.now,
                   read := false, entityId := some v, targetRoles := ["admin"],
                   targetUserId := none, createdAt := env.now, updatedAt := env.now }],
       [⟨.room (roleRoom "admin"), "adminNotification",
         .record { id := env.newId, type := "new_vendor", message := m, timestamp := env.now,
                   read := false, entityId := some v, targetRoles := ["admin"],
                   targetUserId := none, createdAt := env.now, updatedAt := env.now }⟩]) ∧
    ∀ e ∈ (sendNotification env store
        { type := some "new_vendor", message := some m, targetRoles := some ["admin"],
          entityId := some V1 }).2,
      e.target ≠ .room (roleRoom "vendor") ∧ e.target ≠ .room (roleRoom "user") := by
  have h : sendNotification env store
        { type := some "new_vendor", message := some m, targetRoles := some ["admin"],
          entityId := some V1 } =
      (store ++ [{ id := env.newId, type := "new_vendor", message := m, timestamp := env.now,
                   read := false, entityId := some v, targetRoles := ["admin"],
                   targetUserId := none, createdAt := env.now, updatedAt := env.now }],
       [⟨.room (roleRoom "admin"), "adminNotification",
         .record { id := env.newId, type := "new_vendor", message := m, timestamp := env.now,
                   read := false, entityId := some v, targetRoles := ["admin"],
                   targetUserId := none, createdAt := env.now, updatedAt := env.now }⟩]) := by
    simp [sendNotification, save, validate, castOptionalId, hv, hm, ha, typeEnum, roleEnum,
      sendEmits, truthy]
  refine ⟨h, ?_⟩
  rw [h]
  intro e he
  simp only [List.mem_singleton] at he
  subst he
  constructor <;>
    exact fun h => absurd (roleRoom_inj (Target.room.inj h)) (by decide)

/-- Witness of C3 amended: the message `New vendor` and a well-formed entity id. -/
theorem sendNotification_new_vendor_witness :
    "New vendor" ≠ "" ∧ castObjectId sampleUser = some sampleUser ∧
    (sendNotification sampleEnv []
        { type := some "new_vendor", message := some "New vendor",
          targetRoles := some ["admin"], entityId := some sampleUser }).2.length = 1 :=
  ⟨by decide, by decide,
    by rw [(sendNotification_new_vendor sampleEnv [] "New vendor" sampleUser sampleUser
      (by decide) (by decide) rfl).1]; rfl⟩

/-! ## C4: the inline `adminNotification` of the resource handlers -/

/-- C4, evaluated on the code: the notification step of `POST /signup` saves a record for the
role admin and emits `adminNotification` to every connection, so a connection that never
authenticated, which is not in the admin room, receives it; the step of `POST /vendors` does
the same, and a connection authenticated as vendor only receives its event. -/
theorem inline_adminNotification_reaches_every_connection :
    postSignup_notify sampleEnv [] sampleUser "a@b.c" =
      .ok ([{ id := sampleEnv.newId, type := "new_user",
              message := "New user registered: a@b.c", timestamp := 7, read := false,
              entityId := some sampleUser, targetRoles := ["admin"], targetUserId := none,
              createdAt := 7, updatedAt := 7 }],
           [⟨.all, "adminNotification",
             .record { id := sampleEnv.newId, type := "new_user",
                       message := "New user registered: a@b.c", timestamp := 7, read := false,
                       entityId := some sampleUser, targetRoles := ["admin"],
                       targetUserId := none, createdAt := 7, updatedAt := 7 }⟩]) ∧
    roleRoom "admin" ∉ (connect "s1").rooms ∧
    (∀ saved : Notification,
      (connect "s1").receives [⟨.all, "adminNotification", .record saved⟩] =
        [⟨.all, "adminNotification", .record saved⟩]) ∧
    (∀ (store : Store) (name : String), ∃ saved : Notification,
      postVendors_notify sampleEnv store sampleUser name =
        .ok (store ++ [saved], [⟨.all, "adminNotification", .record saved⟩]) ∧
      (authenticate store (connect "s2") { role := some "vendor" }).1.receives
          [⟨.all, "adminNotification", .record saved⟩] =
        [⟨.all, "adminNotification", .record saved⟩]) := by
  refine ⟨rfl, by decide, fun saved => rfl, fun store name => ?_⟩
  have hm : "New vendor registered: " ++ name ≠ "" := append_ne_empty _ _ (by decide)
  refine ⟨{ id := sampleEnv.newId, type := "new_vendor",
            message := "New vendor registered: " ++ name, timestamp := 7, read := false,
            entityId := some sampleUser, targetRoles := ["admin"], targetUserId := none,
            createdAt := 7, updatedAt := 7 }, ?_, rfl⟩
  simp [postVendors_notify, saveAndEmit, save, validate, vendorNotification, castOptionalId,
    castObjectId_sampleUser, hm, typeEnum, roleEnum, sampleEnv]

/-! ## C5: `sendNotification` with an empty role array -/

/-- C5, evaluated on the code: `sendNotification` called with an empty `targetRoles` array and
no `targetUserId`, and a valid type and message, passes the guard; the record is persisted
with no target at all and nothing is emitted. -/
theorem sendNotification_empty_roles_is_saved (store : Store) :
    sendNotification sampleEnv store
        { type := some "new_vendor", message := some "m", targetRoles := some [],
          targetUserId := none } =
      (store ++ [{ id := sampleEnv.newId, type := "new_vendor", message := "m", timestamp := 7,
                   read := false, entityId := none, targetRoles := [], targetUserId := none,
                   createdAt := 7, updatedAt := 7 }], []) := by
  simp [sendNotification, save, validate, castOptionalId, typeEnum, sendEmits, sampleEnv, truthy]

/-! ## C6: records without a target -/

/-- C6, evaluated on the code: the notification step of `POST /tickets` persists a record
whose `targetRoles` is empty and whose `targetUserId` is absent, and the save does not fail. -/
theorem postTickets_notify_saves_untargeted (store : Store) (userName : String) :
    postTickets_notify sampleEnv store sampleUser userName =
      .ok (store ++ [{ id := sampleEnv.newId, type := "new_ticket",
                       message := "New ticket purchase by " ++ userName, timestamp := 7,
                       read := false, entityId := some sampleUser, targetRoles := [],
                       targetUserId := none, createdAt := 7, updatedAt := 7 }],
           [⟨.all, "adminNotification",
             .record { id := sampleEnv.newId, type := "new_ticket",
                       message := "New ticket purchase by " ++ userName, timestamp := 7,
                       read := false, entityId := some sampleUser, targetRoles := [],
                       targetUserId := none, createdAt := 7, updatedAt := 7 }⟩]) := by
  have hm : "New ticket purchase by " ++ userName ≠ "" := append_ne_empty _ _ (by decide)
  simp [postTickets_notify, saveAndEmit, save, validate, ticketNotification, castOptionalId,
    castObjectId_sampleUser, hm, typeEnum, sampleEnv]

/-! ## C7: authenticate without a role -/

/-- C7: for every connection and store, an authenticate message without a role, with or
without a user id, leaves the connection disconnected and in no room, emits no catch-up, and
the connection receives nothing afterwards; an empty role string behaves the same way. -/
theorem authenticate_without_role (store : Store) (sock : Socket) (userId : Option String) :
    authenticate store sock { userId := userId, role := none } =
      ({ rooms := ∅, connected := false }, []) ∧
    authenticate store sock { userId := userId, role := some "" } =
      ({ rooms := ∅, connected := false }, []) ∧
    ∀ es, (authenticate store sock { userId := userId, role := none }).1.receives es = [] := by
  refine ⟨rfl, rfl, fun es => rfl⟩

/-! ## C8: group membership after authenticate -/

/-- C8: for every connection with room set G and every authenticate message with a role r
and an optional user id u, the room set afterwards is G with the room of role r and, when u
is present (a non-empty string), the room of user u; the connection stays as connected as it
was; and authenticating again with the same message changes nothing. -/
theorem authenticate_rooms (store : Store) (sock : Socket) (r : String) (u : Option String)
    (hr : r ≠ "") :
    (authenticate store sock { userId := u, role := some r }).1.rooms =
      sock.rooms ∪ {roleRoom r} ∪
        (match u with
         | some x => if x = "" then ∅ else {userRoom x}
         | none => ∅) ∧
    (authenticate store sock { userId := u, role := some r }).1.connected = sock.connected ∧
    ∀ store2 : Store,
      (authenticate store2 (authenticate store sock { userId := u, role := some r }).1
          { userId := u, role := some r }).1 =
        (authenticate store sock { userId := u, role := some r }).1 := by
  have ht : truthy (some r) = true := (truthy_some_iff r).mpr hr
  cases u with
  | none =>
    simp only [authenticate, ht, if_true]
    refine ⟨?_, trivial, ?_⟩
    · ext x; simp [or_comm]
    · intro _; simp
  | some x =>
    by_cases hx : x = ""
    · subst hx
      have hf : truthy (some "") = false := rfl
      simp only [authenticate, ht, if_true, hf]
      refine ⟨?_, rfl, ?_⟩
      · ext x; simp [or_comm]
      · intro _; simp
    · have hx2 : truthy (some x) = true := (truthy_some_iff x).mpr hx
      simp only [authenticate, ht, if_true, hx2, hx, if_false]
      refine ⟨?_, trivial, ?_⟩
      · ext y; simp [or_comm, or_assoc, or_left_comm]
      · intro _; simp

/-- Witness of C8: a fresh connection authenticates as user with a user id. -/
theorem authenticate_rooms_witness :
    "user" ≠ "" ∧
    (authenticate [] (connect "s1") { userId := some sampleUser, role := some "user" }).1.rooms =
      {"s1", "role_user", "user_64b7f3a2c9e1d4f5a6b7c8d9"} :=
  ⟨by decide,
    by rw [(authenticate_rooms [] (connect "s1") "user" (some sampleUser) (by decide)).1]; decide⟩

/-! ## C9: the catch-up snapshot -/

/-- C9: for every store, after a live connection authenticates with a user id U1 (a
well-formed id, cast to uid) and the role user, the connection receives a
`userNotificationsUpdate` snapshot that contains every stored record with `read` false and
`targetUserId` equal to U1 or the role user among its `targetRoles`; the snapshot is ordered
newest first and is a rearrangement of all the stored records with such a target. -/
theorem authenticate_catch_up (store : Store) (sock : Socket) (U1 uid : String)
    (hc : sock.connected = true) (hU : castObjectId U1 = some uid) :
    ∃ snapshot : List Notification,
      (⟨.room (userRoom U1), "userNotificationsUpdate", .records snapshot⟩ : Emit) ∈
        (authenticate store sock { userId := some U1, role := some "user" }).1.receives
          (authenticate store sock { userId := some U1, role := some "user" }).2 ∧
      (∀ n ∈ store, n.read = false →
        (n.targetUserId = some uid ∨ "user" ∈ n.targetRoles) → n ∈ snapshot) ∧
      snapshot.Sorted (fun a b => b.timestamp ≤ a.timestamp) ∧
      snapshot.Perm (store.filter fun n =>
        decide (n.targetUserId = some uid) || decide ("user" ∈ n.targetRoles)) := by
  have hne : truthy (some U1) = true := (truthy_some_iff U1).mpr (castObjectId_ne_empty hU)
  have htu : truthy (some "user") = true := by decide
  refine ⟨newestFirst (store.filter fun n =>
    matchesUser uid n || matchesRole (some "user") n), ?_, ?_, newestFirst_sorted _, ?_⟩
  · simp only [authenticate, htu, if_true, hne, broadcastNotificationsUpdate, hU,
      Socket.receives, hc, received]
    rw [List.mem_filter]
    refine ⟨List.mem_cons_self _ _, ?_⟩
    simp [delivered]
  · intro n hn _ hm
    rw [(newestFirst_perm _).mem_iff, List.mem_filter]
    refine ⟨hn, ?_⟩
    simpa [matchesUser, matchesRole] using hm
  · exact newestFirst_perm _

/-- Witness of C9: a fresh connection and a store holding one unread record for the user. -/
theorem authenticate_catch_up_witness :
    (connect "s1").connected = true ∧ castObjectId sampleUser = some sampleUser ∧
    ∃ snapshot : List Notification,
      (⟨.room (userRoom sampleUser), "userNotificationsUpdate", .records snapshot⟩ : Emit) ∈
        (authenticate [userRoleSaved] (connect "s1")
          { userId := some sampleUser, role := some "user" }).1.receives
          (authenticate [userRoleSaved] (connect "s1")
            { userId := some sampleUser, role := some "user" }).2 ∧
      (∀ n ∈ [userRoleSaved], n.read = false →
        (n.targetUserId = some sampleUser ∨ "user" ∈ n.targetRoles) → n ∈ snapshot) ∧
      snapshot.Sorted (fun a b => b.timestamp ≤ a.timestamp) ∧
      snapshot.Perm ([userRoleSaved].filter fun n =>
        decide (n.targetUserId = some sampleUser) || decide ("user" ∈ n.targetRoles)) :=
  ⟨rfl, by decide,
    authenticate_catch_up [userRoleSaved] (connect "s1") sampleUser sampleUser rfl (by decide)⟩

/-! ## C10: the guard of the scoped queries -/

/-- C10: when neither `role` nor `user_id` is supplied (absent or empty), each of
`GET /notifications`, `GET /notifications/unread-count` and `PATCH /notifications/:id/read`
answers 400, leaves the store as it was, emits nothing and makes no call on the model. -/
theorem scoped_queries_need_identity (env : Env) (store : Store) (id : String) (q : Query)
    (hrole : truthy q.role = false) (huser : truthy q.user_id = false) :
    getNotifications store q =
      ⟨⟨400, .message "Either role or user_id must be provided"⟩, store, [], []⟩ ∧
    getUnreadCount store q =
      ⟨⟨400, .message "Either role or user_id must be provided"⟩, store, [], []⟩ ∧
    patchNotificationRead env store id q =
      ⟨⟨400, .message "Either role or user_id must be provided"⟩, store, [], []⟩ := by
  simp [getNotifications, getUnreadCount, patchNotificationRead, hrole, huser, badRequest]

/-- Witness of C10: a query with only paging parameters on a store with one record. -/
theorem scoped_queries_need_identity_witness :
    truthy ({ limit := some "10" } : Query).role = false ∧
    truthy ({ limit := some "10" } : Query).user_id = false ∧
    (getNotifications [userRoleSaved] { limit := some "10" }).response.status = 400 ∧
    (getUnreadCount [userRoleSaved] { limit := some "10" }).response.status = 400 ∧
    (patchNotificationRead sampleEnv [userRoleSaved] sampleEnv.newId
      { limit := some "10" }).store = [userRoleSaved] :=
  have h := scoped_queries_need_identity sampleEnv [userRoleSaved] sampleEnv.newId
    { limit := some "10" } rfl rfl
  ⟨rfl, rfl, by rw [h.1], by rw [h.2.1], by rw [h.2.2]⟩

theorem truthy_false_cases {x : Option String} (h : truthy x = false) : x = none ∨ x = some "" := by
  cases x with
  | none => exact Or.inl rfl
  | some s =>
    right
    simp [truthy] at h
    rw [h]

theorem truthy_true_cases {x : Option String} (h : truthy x = true) :
    ∃ s, x = some s ∧ s ≠ "" := by
  cases x with
  | none => cases h
  | some s => exact ⟨s, rfl, (truthy_some_iff s).mp h⟩

theorem castObjectId_empty : castObjectId "" = none := by decide

/-- The user clause of the targeting rule when the user id is falsy. -/
theorem addressed_of_falsy_user {role user_id : Option String} (h : truthy user_id = false)
    (n : Notification) : addressed role user_id n = matchesRole role n := by
  rcases truthy_false_cases h with h | h <;> simp [addressed, h, castObjectId_empty]

theorem addressed_of_cast {role : Option String} {u uid : String}
    (h : castObjectId u = some uid) (n : Notification) :
    addressed role (some u) n = (matchesRole role n || matchesUser uid n) := by
  simp [addressed, h]

/-! ## C11: the page returned by `GET /notifications` -/

/-- C11, amended: for every store and every query with at least one of `role` and `user_id`,
whose role is not the empty string, whose user id (when supplied) is well formed, and whose
skip and limit are not negative, `GET /notifications` answers 200 with exactly the records
that have `targetUserId` equal to `user_id` or `role` among their `targetRoles`, sorted by
timestamp descending, the first skip records dropped and at most limit records kept; limit
is `parseInt(limit) || 50` and skip is `parseInt(skip) || 0`, so limit is 50 when it is
absent, not a number or 0, and skip is 0 when absent. -/
theorem getNotifications_page (store : Store) (q : Query)
    (hid : truthy q.role = true ∨ truthy q.user_id = true)
    (hrole : q.role ≠ some "")
    (huser : truthy q.user_id = true → (castObjectId (q.user_id.getD "")).isSome = true)
    (hskip : 0 ≤ parseIntOr q.skip 0) (hlimit : 0 ≤ parseIntOr q.limit 50) :
    getNotifications store q =
      ⟨⟨200, .list (((newestFirst (store.filter (addressed q.role q.user_id))).drop
          (parseIntOr q.skip 0).toNat).take (parseIntOr q.limit 50).toNat)⟩,
        store, [], ["find"]⟩ ∧
    (newestFirst (store.filter (addressed q.role q.user_id))).Sorted
      (fun a b => b.timestamp ≤ a.timestamp) ∧
    (newestFirst (store.filter (addressed q.role q.user_id))).Perm
      (store.filter (addressed q.role q.user_id)) ∧
    (q.limit = none → parseIntOr q.limit 50 = 50) ∧ (q.skip = none → parseIntOr q.skip 0 = 0) := by
  refine ⟨?_, newestFirst_sorted _, newestFirst_perm _, ?_, ?_⟩
  · have hs : ¬ parseIntOr q.skip 0 < 0 := not_lt.mpr hskip
    have hl : ¬ parseIntOr q.limit 50 < 0 := not_lt.mpr hlimit
    by_cases hu : truthy q.user_id = true
    · obtain ⟨u, hqu, hune⟩ := truthy_true_cases hu
      have hc := huser hu
      rw [hqu] at hc
      simp only [Option.getD_some] at hc
      obtain ⟨uid, huid⟩ := Option.isSome_iff_exists.mp hc
      by_cases hr : truthy q.role = true
      · have hf : store.filter (addressed q.role q.user_id) =
            store.filter fun n => matchesRole q.role n || matchesUser uid n := by
          apply List.filter_congr
          intro n _
          rw [hqu, addressed_of_cast huid]
        rw [hqu] at hu hf
        simp [getNotifications, hr, hu, hqu, huid, hs, hl, hf]
      · have hr2 : truthy q.role = false := by simpa using hr
        have hrn : q.role = none := by
          rcases truthy_false_cases hr2 with h | h
          · exact h
          · exact absurd h hrole
        have hf : store.filter (addressed q.role q.user_id) =
            store.filter fun n => matchesUser uid n := by
          apply List.filter_congr
          intro n _
          rw [hqu, addressed_of_cast huid, hrn]
          simp [matchesRole]
        rw [hqu] at hu hf
        simp [getNotifications, hr2, hu, hqu, huid, hs, hl, hf]
    · have hu2 : truthy q.user_id = false := by simpa using hu
      have hr : truthy q.role = true := by
        rcases hid with h | h
        · exact h
        · exact absurd h hu
      have hf : store.filter (addressed q.role q.user_id) =
          store.filter (matchesRole q.role) := by
        apply List.filter_congr
        intro n _
        rw [addressed_of_falsy_user hu2]
      simp [getNotifications, hr, hu2, hs, hl, hf]
  · intro h
    simp [parseIntOr, parseInt, h]
  · intro h
    simp [parseIntOr, parseInt, h]

/-- C11, as stated, fails: with `limit=0` supplied the route does not keep at most 0 records;
`parseInt("0") || 50` is 50 and the one matching record is returned. -/
theorem getNotifications_zero_limit_counterexample :
    truthy ({ role := some "user", limit := some "0" } : Query).role = true ∧
    parseInt (some "0") = some 0 ∧
    (getNotifications [userRoleSaved] { role := some "user", limit := some "0" }).response =
      ⟨200, .list [userRoleSaved]⟩ := by decide

/-- Witness of C11 amended: the second page of size one for the role admin. -/
theorem getNotifications_page_witness :
    truthy ({ role := some "admin", limit := some "1", skip := some "1" } : Query).role = true ∧
    (0 : Int) ≤ parseIntOr (some "1") 0 ∧
    (getNotifications [adminRecord, userAdminRecord, userRoleSaved]
        { role := some "admin", limit := some "1", skip := some "1" }).response =
      ⟨200, .list [adminRecord]⟩ :=
  ⟨by decide, by decide,
    by
      rw [(getNotifications_page [adminRecord, userAdminRecord, userRoleSaved]
        { role := some "admin", limit := some "1", skip := some "1" } (Or.inl (by decide))
        (by decide) (fun h => by simp [truthy] at h) (by decide) (by decide)).1]
      decide⟩

/-- A successful publish for a user appends one record addressed to that user. -/
theorem sendNotification_for_user {e : Env} {s s1 : Store} {d : NotificationData}
    {saved : Notification} {U1 uid : String} (hd : d.targetUserId = some U1)
    (hU : castObjectId U1 = some uid) (hs : save e s d = .ok (saved, s1)) :
    (sendNotification e s d).1 = s ++ [saved] ∧ saved.targetUserId = some uid := by
  obtain ⟨hv, -, hs1⟩ := save_ok hs
  obtain ⟨-, -, hcu, -⟩ := validate_ok hv
  rw [hd] at hcu
  have ht : truthy d.targetUserId = true := by
    rw [hd]
    exact truthy_of_cast hcu
  constructor
  · unfold sendNotification
    simp [ht, hs, hs1]
  · simp [castOptionalId, hU] at hcu
    exact hcu.symm

theorem publishAll_for_user {U1 uid : String} (hU : castObjectId U1 = some uid) :
    ∀ (ps : List (Env × NotificationData)) (s : Store), publishedFor U1 s ps = true →
      ∃ news : List Notification, publishAll s ps = s ++ news ∧ news.length = ps.length ∧
        ∀ n ∈ news, n.targetUserId = some uid := by
  intro ps
  induction ps with
  | nil =>
    intro s _
    exact ⟨[], by simp [publishAll], rfl, by simp⟩
  | cons p rest ih =>
    intro s h
    obtain ⟨e, d⟩ := p
    simp only [publishedFor, Bool.and_eq_true, decide_eq_true_eq] at h
    obtain ⟨⟨hd, hsave⟩, hrest⟩ := h
    cases hs : save e s d with
    | error err => rw [hs] at hsave; cases hsave
    | ok r =>
      obtain ⟨saved, s1⟩ := r
      obtain ⟨hstore, htarget⟩ := sendNotification_for_user hd hU hs
      obtain ⟨news, hn, hlen, hall⟩ := ih (sendNotification e s d).1 hrest
      refine ⟨saved :: news, ?_, ?_, ?_⟩
      · simp only [publishAll]
        rw [hn, hstore]
        simp
      · simp [hlen]
      · intro n hn
        rcases List.mem_cons.mp hn with h | h
        · rw [h]; exact htarget
        · exact hall n h

/-! ## C12: listing after N publishes -/

/-- C12, amended: for every N, starting from a store with no record for user U1, after N
successful publishes whose `targetUserId` is U1, `GET /notifications` with `user_id` = U1 and
no other parameter answers 200 with the min(N, 50) newest of the N published records, newest
first: exactly the N records when N is at most 50, the default page size. -/
theorem list_after_publishes (store : Store) (U1 uid : String)
    (ps : List (Env × NotificationData)) (hU : castObjectId U1 = some uid)
    (h0 : ∀ n ∈ store, n.targetUserId ≠ some uid)
    (hp : publishedFor U1 store ps = true) :
    (getNotifications (publishAll store ps) { user_id := some U1 }).response.status = 200 ∧
    (getNotifications (publishAll store ps) { user_id := some U1 }).records.length =
      min ps.length 50 ∧
    (getNotifications (publishAll store ps) { user_id := some U1 }).records =
      (newestFirst ((publishAll store ps).drop store.length)).take 50 ∧
    (getNotifications (publishAll store ps) { user_id := some U1 }).records.Sorted
      (fun a b => b.timestamp ≤ a.timestamp) ∧
    (ps.length ≤ 50 →
      (getNotifications (publishAll store ps) { user_id := some U1 }).records.Perm
        ((publishAll store ps).drop store.length)) := by
  obtain ⟨news, hn, hlen, hall⟩ := publishAll_for_user hU ps store hp
  have hne : U1 ≠ "" := castObjectId_ne_empty hU
  have hfilter : (publishAll store ps).filter (fun n => matchesUser uid n) = news := by
    rw [hn, List.filter_append]
    have h1 : store.filter (fun n => matchesUser uid n) = [] := by
      rw [List.filter_eq_nil_iff]
      intro n hn
      simpa [matchesUser] using h0 n hn
    have h2 : news.filter (fun n => matchesUser uid n) = news := by
      rw [List.filter_eq_self]
      intro n hn
      simpa [matchesUser] using hall n hn
    rw [h1, h2]
    rfl
  have hrec : (getNotifications (publishAll store ps) { user_id := some U1 }).records =
      (newestFirst news).take 50 := by
    simp [getNotifications, Outcome.records, truthy, hne, hU, hfilter, parseIntOr, parseInt]
  have hstat : (getNotifications (publishAll store ps) { user_id := some U1 }).response.status
      = 200 := by
    simp [getNotifications, truthy, hne, hU, parseIntOr, parseInt]
  refine ⟨hstat, ?_, ?_, ?_, ?_⟩
  · rw [hrec, List.length_take, (newestFirst_perm news).length_eq, hlen, Nat.min_comm]
  · rw [hrec, hn, List.drop_left]
  · rw [hrec]
    exact (newestFirst_sorted news).sublist (List.take_sublist _ _)
  · intro hle
    rw [hrec, hn, List.drop_left]
    have : (newestFirst news).take 50 = newestFirst news := by
      apply List.take_of_length_le
      rw [(newestFirst_perm news).length_eq, hlen]
      exact hle
    rw [this]
    exact newestFirst_perm news

set_option maxRecDepth 100000 in
/-- C12, as stated, fails for N = 51: after 51 successful publishes for the user, the list
returned for that user holds 50 records. -/
theorem list_after_51_publishes_counterexample :
    publishedFor sampleUser [] manyPublishes = true ∧ manyPublishes.length = 51 ∧
    (getNotifications (publishAll [] manyPublishes) { user_id := some sampleUser }).records.length
      = 50 := by decide

/-- Witness of C12 amended: two publishes on the empty store. -/
theorem list_after_publishes_witness :
    castObjectId sampleUser = some sampleUser ∧
    publishedFor sampleUser [] (manyPublishes.take 2) = true ∧
    (getNotifications (publishAll [] (manyPublishes.take 2))
      { user_id := some sampleUser }).records.length = min (manyPublishes.take 2).length 50 :=
  ⟨by decide, by decide,
    (list_after_publishes [] sampleUser sampleUser (manyPublishes.take 2) (by decide)
      (fun _ h => by cases h) (by decide)).2.1⟩

/-! ## C13: the unread count -/

/-- C13: for every store and every query with at least one of `role` and `user_id` (the user
id, when supplied, well formed), `GET /notifications/unread-count` answers 200 with the
number of records that have `read` false and `targetUserId` equal to `user_id` or `role`
among their `targetRoles`; the statement covers role only, user id only, and both. -/
theorem getUnreadCount_counts (store : Store) (q : Query)
    (hid : truthy q.role = true ∨ truthy q.user_id = true)
    (huser : truthy q.user_id = true → (castObjectId (q.user_id.getD "")).isSome = true) :
    getUnreadCount store q =
      ⟨⟨200, .count (store.filter fun n => !n.read && addressed q.role q.user_id n).length⟩,
        store, [], ["countDocuments"]⟩ := by
  by_cases hu : truthy q.user_id = true
  · obtain ⟨u, hqu, -⟩ := truthy_true_cases hu
    have hc := huser hu
    rw [hqu] at hc hu
    simp only [Option.getD_some] at hc
    obtain ⟨uid, huid⟩ := Option.isSome_iff_exists.mp hc
    have hf : (store.filter fun n => !n.read && addressed q.role q.user_id n) =
        store.filter fun n => !n.read && (matchesUser uid n || matchesRole q.role n) := by
      apply List.filter_congr
      intro n _
      rw [hqu, addressed_of_cast huid, Bool.or_comm]
    rw [hf]
    simp [getUnreadCount, hu, hqu, huid]
  · have hu2 : truthy q.user_id = false := by simpa using hu
    have hr : truthy q.role = true := by
      rcases hid with h | h
      · exact h
      · exact absurd h hu
    have hf : (store.filter fun n => !n.read && addressed q.role q.user_id n) =
        store.filter fun n => !n.read && matchesRole q.role n := by
      apply List.filter_congr
      intro n _
      rw [addressed_of_falsy_user hu2]
    rw [hf]
    simp [getUnreadCount, hr, hu2]

/-- Witness of C13: both parameters supplied, three unread records, all three counted. -/
theorem getUnreadCount_counts_witness :
    truthy ({ role := some "admin", user_id := some sampleUser } : Query).user_id = true ∧
    getUnreadCount [adminRecord, userAdminRecord, userRoleSaved]
        { role := some "admin", user_id := some sampleUser } =
      ⟨⟨200, .count 3⟩, [adminRecord, userAdminRecord, userRoleSaved], [],
        ["countDocuments"]⟩ :=
  ⟨by decide,
    getUnreadCount_counts [adminRecord, userAdminRecord, userRoleSaved]
      { role := some "admin", user_id := some sampleUser } (Or.inl (by decide))
      (fun _ => by decide)⟩

/-! ## C14: marking a record of another identity -/

/-- C14, amended: for a caller that supplies `role` or `user_id` and well-formed ids,
`PATCH /notifications/:id/read` answers 404 whenever the store holds no record that has the
given id and is addressed to the caller (`targetUserId` equal to `user_id` or `role` among
`targetRoles`), and the store is unchanged, nothing is emitted and only `findOne` is called. -/
theorem markRead_not_found (env : Env) (store : Store) (id oid : String) (q : Query)
    (hid : truthy q.role = true ∨ truthy q.user_id = true)
    (hoid : castObjectId id = some oid)
    (huser : truthy q.user_id = true → (castObjectId (q.user_id.getD "")).isSome = true)
    (hnone : ∀ n ∈ store, n.id = oid → addressed q.role q.user_id n = false) :
    patchNotificationRead env store id q =
      ⟨⟨404, .message "Notification not found or unauthorized"⟩, store, [], ["findOne"]⟩ := by
  by_cases hu : truthy q.user_id = true
  · obtain ⟨u, hqu, -⟩ := truthy_true_cases hu
    have hc := huser hu
    rw [hqu] at hc hu
    simp only [Option.getD_some] at hc
    obtain ⟨uid, huid⟩ := Option.isSome_iff_exists.mp hc
    have hfind : store.find? (fun n => decide (n.id = oid) && matchesUser uid n) = none := by
      rw [List.find?_eq_none]
      intro n hn
      by_cases hi : n.id = oid
      · have h := hnone n hn hi
        rw [hqu, addressed_of_cast huid] at h
        simp only [Bool.or_eq_false_iff] at h
        simp [hi, h.2]
      · simp [hi]
    simp [patchNotificationRead, hu, hqu, huid, hoid, hfind]
  · have hu2 : truthy q.user_id = false := by simpa using hu
    have hr : truthy q.role = true := by
      rcases hid with h | h
      · exact h
      · exact absurd h hu
    have hfind : store.find? (fun n => decide (n.id = oid) && matchesRole q.role n) = none := by
      rw [List.find?_eq_none]
      intro n hn
      by_cases hi : n.id = oid
      · have h := hnone n hn hi
        rw [addressed_of_falsy_user hu2] at h
        simp [hi, h]
      · simp [hi]
    simp [patchNotificationRead, hr, hu2, hoid, hfind]

/-- Witness of C14 amended, the scenario of the claim: a caller with role user and a record
whose only target is the role admin; the answer is 404 and the record keeps `read` false. -/
theorem markRead_not_found_witness :
    truthy ({ role := some "user" } : Query).role = true ∧
    castObjectId adminRecord.id = some adminRecord.id ∧
    adminRecord.targetRoles = ["admin"] ∧ adminRecord.targetUserId = none ∧
    adminRecord.read = false ∧
    patchNotificationRead sampleEnv [adminRecord] adminRecord.id { role := some "user" } =
      ⟨⟨404, .message "Notification not found or unauthorized"⟩, [adminRecord], [],
        ["findOne"]⟩ :=
  ⟨by decide, by decide, rfl, rfl, rfl,
    markRead_not_found sampleEnv [adminRecord] adminRecord.id adminRecord.id
      { role := some "user" } (Or.inl (by decide)) (by decide) (fun h => by simp [truthy] at h)
      (by decide)⟩

/-- C14, as stated, fails: the store holds no record addressed to a caller who supplies
neither `role` nor `user_id`, yet the answer is 400, not 404. -/
theorem markRead_without_identity_counterexample :
    (∀ n ∈ [adminRecord], n.id = adminRecord.id → addressed none none n = false) ∧
    (patchNotificationRead sampleEnv [adminRecord] adminRecord.id {}).response.status = 400 := by
  decide

/-! ## Facts about `PATCH /notifications/:id/read` -/

theorem setRead_find (now : Nat) (oid : String) (s : Store) :
    (setRead now oid s).find? (fun n => decide (n.id = oid)) =
      (s.find? fun n => decide (n.id = oid)).map (markedRead now) := by
  induction s with
  | nil => rfl
  | cons n rest ih =>
    by_cases h : n.id = oid
    · simp [setRead, h, markedRead, List.find?_cons]
    · simp [setRead, h, List.find?_cons, ih]

theorem setRead_setRead (a b : Nat) (oid : String) (s : Store) :
    setRead b oid (setRead a oid s) = setRead b oid s := by
  induction s with
  | nil => rfl
  | cons n rest ih =>
    by_cases h : n.id = oid
    · simp [setRead, h]
    · simp [setRead, h, ih]

theorem setRead_withoutStamp (a b : Nat) (oid : String) (s : Store) :
    (setRead b oid s).map withoutStamp = (setRead a oid s).map withoutStamp := by
  induction s with
  | nil => rfl
  | cons n rest ih =>
    by_cases h : n.id = oid
    · simp [setRead, h, withoutStamp]
    · simp [setRead, h, ih]

theorem mem_setRead {now : Nat} {oid : String} {s : Store} {n : Notification}
    (h : n ∈ setRead now oid s) :
    n ∈ s ∨ ∃ m ∈ s, m.id = oid ∧ n = markedRead now m := by
  induction s with
  | nil => cases h
  | cons x rest ih =>
    by_cases hx : x.id = oid
    · rw [setRead, if_pos hx, List.mem_cons] at h
      rcases h with h | h
      · exact Or.inr ⟨x, List.mem_cons_self _ _, hx, h⟩
      · exact Or.inl (List.mem_cons_of_mem _ h)
    · simp only [setRead, hx, if_false, List.mem_cons] at h
      rcases h with h | h
      · exact Or.inl (h ▸ List.mem_cons_self _ _)
      · rcases ih h with h1 | ⟨m, hm, hmid, hn⟩
        · exact Or.inl (List.mem_cons_of_mem _ h1)
        · exact Or.inr ⟨m, List.mem_cons_of_mem _ hm, hmid, hn⟩

theorem mem_setRead_of_mem {now : Nat} {oid : String} {s : Store} {x : Notification}
    (h : x ∈ s) : x ∈ setRead now oid s ∨ markedRead now x ∈ setRead now oid s := by
  induction s with
  | nil => cases h
  | cons y rest ih =>
    by_cases hy : y.id = oid
    · rw [setRead, if_pos hy, List.mem_cons, List.mem_cons]
      rcases List.mem_cons.mp h with h | h
      · subst h
        exact Or.inr (Or.inl rfl)
      · exact Or.inl (Or.inr h)
    · simp only [setRead, hy, if_false, List.mem_cons]
      rcases List.mem_cons.mp h with h | h
      · exact Or.inl (Or.inl h)
      · rcases ih h with h1 | h1
        · exact Or.inl (Or.inr h1)
        · exact Or.inr (Or.inr h1)

theorem setRead_ids (now : Nat) (oid : String) (s : Store) :
    (setRead now oid s).map (fun n => n.id) = s.map fun n => n.id := by
  induction s with
  | nil => rfl
  | cons n rest ih =>
    by_cases h : n.id = oid
    · simp [setRead, h]
    · simp [setRead, h, ih]

/-- The filter of the caller looks at the id and the targets only. -/
theorem callerFilter_markedRead {q : Query} {oid : String} {f : Notification → Bool}
    (hf : callerFilter q oid = some f) (now : Nat) (n : Notification) :
    f (markedRead now n) = f n := by
  unfold callerFilter at hf
  split at hf
  · cases hc : castObjectId (q.user_id.getD "") with
    | none => rw [hc] at hf; cases hf
    | some uid =>
      rw [hc] at hf
      simp only [Option.map_some', Option.some.injEq] at hf
      rw [← hf]
      rfl
  · simp only [Option.some.injEq] at hf
    rw [← hf]
    cases q.role <;> rfl

/-- A record that passes the filter of the caller has the id and is addressed to the caller. -/
theorem callerFilter_addressed {q : Query} {oid : String} {f : Notification → Bool}
    (hf : callerFilter q oid = some f) {n : Notification} (hn : f n = true) :
    n.id = oid ∧ addressed q.role q.user_id n = true := by
  unfold callerFilter at hf
  split at hf
  · rename_i hu
    obtain ⟨u, hqu, -⟩ := truthy_true_cases hu
    rw [hqu] at hf
    simp only [Option.getD_some] at hf
    cases hc : castObjectId u with
    | none => rw [hc] at hf; cases hf
    | some uid =>
      rw [hc] at hf
      simp only [Option.map_some', Option.some.injEq] at hf
      rw [← hf] at hn
      simp only [Bool.and_eq_true, decide_eq_true_eq] at hn
      refine ⟨hn.1, ?_⟩
      rw [hqu, addressed_of_cast hc, hn.2, Bool.or_true]
  · simp only [Option.some.injEq] at hf
    rw [← hf] at hn
    simp only [Bool.and_eq_true, decide_eq_true_eq] at hn
    refine ⟨hn.1, ?_⟩
    simp [addressed, hn.2]

/-- The route in terms of the filter of the caller, once the guard is passed and the id cast. -/
theorem patchNotificationRead_eq {env : Env} {store : Store} {id oid : String} {q : Query}
    (hg : (!truthy q.role && !truthy q.user_id) = false) (hoid : castObjectId id = some oid) :
    patchNotificationRead env store id q =
      match callerFilter q oid with
      | none => ⟨⟨500, .error⟩, store, [], ["findOne"]⟩
      | some f =>
        match store.find? f with
        | none =>
          ⟨⟨404, .message "Notification not found or unauthorized"⟩, store, [], ["findOne"]⟩
        | some _ =>
          match (setRead env.now oid store).find? fun n => decide (n.id = oid) with
          | none => ⟨⟨500, .error⟩, setRead env.now oid store, [],
              ["findOne", "findByIdAndUpdate"]⟩
          | some updated =>
            ⟨⟨200, .doc updated⟩, setRead env.now oid store,
              readBroadcasts (setRead env.now oid store) updated,
              ["findOne", "findByIdAndUpdate"]⟩ := by
  unfold patchNotificationRead callerFilter readBroadcasts
  simp only [hg, hoid]
  by_cases hu : truthy q.user_id = true
  · simp only [hu, if_true]
    cases hc : castObjectId (q.user_id.getD "") <;> simp
  · simp [hu]

/-- What a successful mark-read does. -/
theorem patchNotificationRead_ok {env : Env} {store : Store} {id : String} {q : Query}
    (h : (patchNotificationRead env store id q).response.status = 200) :
    ∃ oid f x, castObjectId id = some oid ∧ callerFilter q oid = some f ∧
      (!truthy q.role && !truthy q.user_id) = false ∧
      store.find? f = some x ∧ x ∈ store ∧ f x = true ∧
      ∃ m, store.find? (fun n => decide (n.id = oid)) = some m ∧
        patchNotificationRead env store id q =
          ⟨⟨200, .doc (markedRead env.now m)⟩, setRead env.now oid store,
            readBroadcasts (setRead env.now oid store) (markedRead env.now m),
            ["findOne", "findByIdAndUpdate"]⟩ := by
  by_cases hg : (!truthy q.role && !truthy q.user_id) = true
  · simp [patchNotificationRead, hg, badRequest] at h
  · have hg2 : (!truthy q.role && !truthy q.user_id) = false := by simpa using hg
    cases hoid : castObjectId id with
    | none => simp [patchNotificationRead, hg2, hoid] at h
    | some oid =>
      rw [patchNotificationRead_eq hg2 hoid] at h ⊢
      cases hf : callerFilter q oid with
      | none => simp [hf] at h
      | some f =>
        simp only [hf] at h ⊢
        cases hx : store.find? f with
        | none => simp [hx] at h
        | some x =>
          simp only [hx] at h ⊢
          have hxm : x ∈ store := List.mem_of_find?_eq_some hx
          have hfx : f x = true := List.find?_some hx
          have hid := (callerFilter_addressed hf hfx).1
          have hfind := setRead_find env.now oid store
          cases hm : store.find? (fun n => decide (n.id = oid)) with
          | none =>
            rw [List.find?_eq_none] at hm
            exact absurd (by simpa using hid) (hm x hxm)
          | some m =>
            rw [hm] at hfind
            simp only [Option.map_some'] at hfind
            rw [hfind]
            exact ⟨oid, f, x, rfl, hf, hg2, hx, hxm, hfx, m, hm, rfl⟩

/-! ## C15: marking twice -/

/-- C15, amended: for every record and caller for which mark-read succeeds, a second call
with the same arguments also succeeds and returns the record with `read` true; the store
after two calls equals the store after one call in every field except the `updatedAt` stamp
of the record, which the second call sets to its own time, and the two stores are equal when
the clock has not advanced between the calls. -/
theorem markRead_twice (env1 env2 : Env) (store : Store) (id : String) (q : Query)
    (h : (patchNotificationRead env1 store id q).response.status = 200) :
    (patchNotificationRead env2 (patchNotificationRead env1 store id q).store id q
      ).response.status = 200 ∧
    (∃ n : Notification,
      (patchNotificationRead env1 store id q).response.body = .doc n ∧ n.read = true ∧
      (patchNotificationRead env2 (patchNotificationRead env1 store id q).store id q
        ).response.body = .doc { n with updatedAt := env2.now }) ∧
    (patchNotificationRead env2 (patchNotificationRead env1 store id q).store id q
      ).store.map withoutStamp =
      (patchNotificationRead env1 store id q).store.map withoutStamp ∧
    (env2.now = env1.now →
      (patchNotificationRead env2 (patchNotificationRead env1 store id q).store id q).store =
        (patchNotificationRead env1 store id q).store) := by
  obtain ⟨oid, f, x, hoid, hf, hg, hx, hxm, hfx, m, hm, heq⟩ := patchNotificationRead_ok h
  have hx1 : ∃ y ∈ setRead env1.now oid store, f y = true := by
    rcases @mem_setRead_of_mem env1.now oid store x hxm with h1 | h1
    · exact ⟨x, h1, hfx⟩
    · exact ⟨_, h1, by rw [callerFilter_markedRead hf]; exact hfx⟩
  have hfind1 : ((setRead env1.now oid store).find? f).isSome = true := by
    rw [List.find?_isSome]
    exact hx1
  obtain ⟨y, hy⟩ := Option.isSome_iff_exists.mp hfind1
  have hfind2 : (setRead env2.now oid (setRead env1.now oid store)).find?
      (fun n => decide (n.id = oid)) = some (markedRead env2.now (markedRead env1.now m)) := by
    rw [setRead_find, setRead_find, hm]
    rfl
  have hsecond : patchNotificationRead env2 (setRead env1.now oid store) id q =
      ⟨⟨200, .doc (markedRead env2.now (markedRead env1.now m))⟩,
        setRead env2.now oid (setRead env1.now oid store),
        readBroadcasts (setRead env2.now oid (setRead env1.now oid store))
          (markedRead env2.now (markedRead env1.now m)),
        ["findOne", "findByIdAndUpdate"]⟩ := by
    rw [patchNotificationRead_eq hg hoid]
    simp only [hf, hy, hfind2]
  rw [heq]
  simp only [hsecond]
  refine ⟨trivial, ⟨markedRead env1.now m, rfl, rfl, rfl⟩, ?_, ?_⟩
  · rw [setRead_setRead]
    exact setRead_withoutStamp env1.now env2.now oid store
  · intro hnow
    rw [setRead_setRead, hnow]

/-- Witness of C15 amended: the admin record marked read twice by the role admin. -/
theorem markRead_twice_witness :
    (patchNotificationRead sampleEnv [adminRecord] adminRecord.id
      { role := some "admin" }).response.status = 200 ∧
    (patchNotificationRead { sampleEnv with now := 9 }
      (patchNotificationRead sampleEnv [adminRecord] adminRecord.id { role := some "admin" }).store
      adminRecord.id { role := some "admin" }).response.status = 200 :=
  ⟨by decide,
    (markRead_twice sampleEnv { sampleEnv with now := 9 } [adminRecord] adminRecord.id
      { role := some "admin" } (by decide)).1⟩

/-- C15, as stated, fails: both calls succeed, but the store after the second call, made at a
later time, differs from the store after the first one (in the `updatedAt` of the record). -/
theorem markRead_twice_counterexample :
    (patchNotificationRead sampleEnv [adminRecord] adminRecord.id
      { role := some "admin" }).response.status = 200 ∧
    (patchNotificationRead { sampleEnv with now := 9 }
      (patchNotificationRead sampleEnv [adminRecord] adminRecord.id { role := some "admin" }).store
      adminRecord.id { role := some "admin" }).response.status = 200 ∧
    (patchNotificationRead { sampleEnv with now := 9 }
      (patchNotificationRead sampleEnv [adminRecord] adminRecord.id { role := some "admin" }).store
      adminRecord.id { role := some "admin" }).store ≠
    (patchNotificationRead sampleEnv [adminRecord] adminRecord.id
      { role := some "admin" }).store := by
  decide

/-! ## Facts about runs of operations -/

theorem sendNotification_store (env : Env) (s : Store) (d : NotificationData) :
    (sendNotification env s d).1 = s ∨
      ∃ saved, (sendNotification env s d).1 = s ++ [saved] ∧ saved.id = env.newId ∧
        save env s d = .ok (saved, s ++ [saved]) := by
  unfold sendNotification
  split
  · exact Or.inl rfl
  · cases hs : save env s d with
    | error e => exact Or.inl rfl
    | ok r =>
      obtain ⟨saved, s1⟩ := r
      obtain ⟨hv, -, hs1⟩ := save_ok hs
      obtain ⟨-, -, -, -, -, hid⟩ := validate_ok hv
      subst hs1
      exact Or.inr ⟨saved, rfl, hid, rfl⟩

theorem getNotifications_store (s : Store) (q : Query) : (getNotifications s q).store = s := by
  unfold getNotifications
  simp only
  split
  · rfl
  · split
    · rfl
    · split <;> rfl

theorem getUnreadCount_store (s : Store) (q : Query) : (getUnreadCount s q).store = s := by
  unfold getUnreadCount
  split
  · rfl
  · simp only
    split <;> rfl

/-- A mark-read either answers 200 or leaves the store as it was. -/
theorem patchNotificationRead_store (env : Env) (s : Store) (id : String) (q : Query) :
    (patchNotificationRead env s id q).response.status = 200 ∨
      (patchNotificationRead env s id q).store = s := by
  by_cases hg : (!truthy q.role && !truthy q.user_id) = true
  · right
    simp [patchNotificationRead, hg]
  · have hg2 : (!truthy q.role && !truthy q.user_id) = false := by simpa using hg
    cases hoid : castObjectId id with
    | none =>
      right
      simp [patchNotificationRead, hg2, hoid]
    | some oid =>
      rw [patchNotificationRead_eq hg2 hoid]
      cases hf : callerFilter q oid with
      | none => exact Or.inr rfl
      | some f =>
        simp only
        cases hx : s.find? f with
        | none => exact Or.inr rfl
        | some x =>
          simp only
          have hid := (callerFilter_addressed hf (List.find?_some hx)).1
          have hfind := setRead_find env.now oid s
          cases hm : s.find? (fun n => decide (n.id = oid)) with
          | none =>
            rw [List.find?_eq_none] at hm
            exact absurd (by simpa using hid) (hm x (List.mem_of_find?_eq_some hx))
          | some m =>
            rw [hm] at hfind
            simp only [Option.map_some'] at hfind
            left
            simp only [hfind]

/-- Two records of a store with distinct ids that carry the same id are the same record. -/
theorem eq_of_id_eq {s : Store} (hn : (s.map fun n => n.id).Nodup) {a b : Notification}
    (ha : a ∈ s) (hb : b ∈ s) (h : a.id = b.id) : a = b :=
  List.inj_on_of_nodup_map hn ha hb h

/-- The shapes of the store after one operation. -/
theorem run_cases (op : Op) (s : Store) :
    op.run s = s ∨
    (∃ env d saved, op = .send env d ∧ op.run s = s ++ [saved] ∧ saved.id = env.newId) ∨
    (∃ env id q oid f x, op = .markRead env id q ∧
      (patchNotificationRead env s id q).response.status = 200 ∧
      castObjectId id = some oid ∧ callerFilter q oid = some f ∧ x ∈ s ∧ f x = true ∧
      op.run s = setRead env.now oid s) := by
  cases op with
  | send env d =>
    rcases sendNotification_store env s d with h | ⟨saved, h, hid, -⟩
    · exact Or.inl h
    · exact Or.inr (Or.inl ⟨env, d, saved, rfl, h, hid⟩)
  | list q => exact Or.inl (getNotifications_store s q)
  | unreadCount q => exact Or.inl (getUnreadCount_store s q)
  | markRead env id q =>
    rcases patchNotificationRead_store env s id q with h | h
    · obtain ⟨oid, f, x, hoid, hf, -, -, hxm, hfx, m, -, heq⟩ := patchNotificationRead_ok h
      refine Or.inr (Or.inr ⟨env, id, q, oid, f, x, rfl, h, hoid, hf, hxm, hfx, ?_⟩)
      show (patchNotificationRead env s id q).store = _
      rw [heq]
    · exact Or.inl h
  | authenticate sock msg => exact Or.inl rfl

/-- One operation keeps the ids distinct and keeps every id. -/
theorem run_ids (op : Op) (s : Store) (hn : (s.map fun n => n.id).Nodup) (hf : op.fresh s) :
    ((op.run s).map fun n => n.id).Nodup ∧
    ∀ i ∈ s.map (fun n => n.id), i ∈ (op.run s).map fun n => n.id := by
  rcases run_cases op s with h | ⟨env, d, saved, hop, h, hid⟩ | ⟨env, id, q, oid, f, x, -, -, -, -, -, -, h⟩
  · rw [h]
    exact ⟨hn, fun i hi => hi⟩
  · subst hop
    rw [h]
    have hfresh : env.newId ∉ s.map fun n => n.id := hf
    constructor
    · rw [List.map_append, List.nodup_append]
      refine ⟨hn, List.nodup_singleton _, ?_⟩
      intro a ha hb
      simp only [List.map_cons, List.map_nil, List.mem_singleton] at hb
      rw [hb, hid] at ha
      exact hfresh ha
    · intro i hi
      rw [List.map_append]
      exact List.mem_append_left _ hi
  · rw [h, setRead_ids]
    exact ⟨hn, fun i hi => hi⟩

/-- One operation: a record keeps `read` once true, and `read` changes only by a successful
mark-read of a caller the record is addressed to. -/
theorem run_read (op : Op) (s : Store) (hn : (s.map fun n => n.id).Nodup) (hf : op.fresh s)
    {n n' : Notification} (hns : n ∈ s) (hn' : n' ∈ op.run s) (hid : n'.id = n.id) :
    (n.read = true → n'.read = true) ∧
    (n'.read ≠ n.read →
      ∃ env id q, op = .markRead env id q ∧
        (patchNotificationRead env s id q).response.status = 200 ∧
        castObjectId id = some n.id ∧ addressed q.role q.user_id n = true ∧
        n'.read = true) := by
  rcases run_cases op s with h | ⟨env, d, saved, hop, h, hsid⟩ |
      ⟨env, id, q, oid, f, x, hop, h200, hoid, hcf, hxm, hfx, h⟩
  · rw [h] at hn'
    have := eq_of_id_eq hn hn' hns hid
    subst this
    exact ⟨fun h => h, fun h => absurd rfl h⟩
  · subst hop
    rw [h, List.mem_append] at hn'
    have hfresh : env.newId ∉ s.map fun n => n.id := hf
    rcases hn' with hn' | hn'
    · have := eq_of_id_eq hn hn' hns hid
      subst this
      exact ⟨fun h => h, fun h => absurd rfl h⟩
    · simp only [List.mem_singleton] at hn'
      subst hn'
      exfalso
      apply hfresh
      rw [← hsid, hid]
      exact List.mem_map_of_mem _ hns
  · rw [h] at hn'
    rcases mem_setRead hn' with hn' | ⟨m, hm, hmid, hn'⟩
    · have := eq_of_id_eq hn hn' hns hid
      subst this
      exact ⟨fun h => h, fun h => absurd rfl h⟩
    · subst hn'
      have hmn : m = n := eq_of_id_eq hn hm hns hid
      subst hmn
      refine ⟨fun _ => rfl, fun _ => ⟨env, id, q, hop, h200, ?_, ?_, rfl⟩⟩
      · rw [hoid, hmid]
      · obtain ⟨hxid, hxa⟩ := callerFilter_addressed hcf hfx
        have hxm' : x = m := eq_of_id_eq hn hxm hm (hxid.trans hmid.symm)
        rw [← hxm']
        exact hxa

/-! ## C16: `read` only goes from false to true -/

/-- C16: from every store whose ids are distinct (so from every reachable state, the empty
store included), along every run of `sendNotification`, list, unread-count, mark-read and
authenticate operations in which the store assigns new ids, the ids stay distinct; a record
whose `read` is true has `read` true in every later state; and when one operation changes
the `read` field of a record, the operation is a mark-read that answered 200, for the id of
that record, by a caller the record is addressed to, and the new value is true. -/
theorem read_never_reset (s0 : Store) (ops : List Op)
    (hn : (s0.map fun n => n.id).Nodup) (hf : freshRun ops s0) :
    ((runAll ops s0).map fun n => n.id).Nodup ∧
    (∀ n ∈ s0, n.read = true → ∀ n' ∈ runAll ops s0, n'.id = n.id → n'.read = true) ∧
    (∀ op : Op, op.fresh s0 → ∀ n ∈ s0, ∀ n' ∈ op.run s0, n'.id = n.id → n'.read ≠ n.read →
      ∃ env id q, op = .markRead env id q ∧
        (patchNotificationRead env s0 id q).response.status = 200 ∧
        castObjectId id = some n.id ∧ addressed q.role q.user_id n = true ∧
        n'.read = true) := by
  refine ⟨?_, ?_, ?_⟩
  · induction ops generalizing s0 with
    | nil => exact hn
    | cons op rest ih => exact ih (op.run s0) (run_ids op s0 hn hf.1).1 hf.2
  · induction ops generalizing s0 with
    | nil =>
      intro n hns hr n' hn' hid
      have := eq_of_id_eq hn hn' hns hid
      subst this
      exact hr
    | cons op rest ih =>
      intro n hns hr n' hn' hid
      obtain ⟨hn1, hsub⟩ := run_ids op s0 hn hf.1
      have hmem : n.id ∈ (op.run s0).map fun n => n.id :=
        hsub _ (List.mem_map_of_mem _ hns)
      obtain ⟨n1, hn1m, hn1id⟩ := List.mem_map.mp hmem
      have hr1 : n1.read = true := (run_read op s0 hn hf.1 hns hn1m hn1id).1 hr
      exact ih (op.run s0) hn1 hf.2 n1 hn1m hr1 n' hn' (hid.trans hn1id.symm)
  · intro op hop n hns n' hn' hid hne
    exact (run_read op s0 hn hop hns hn' hid).2 hne

/-- Witness of C16: a publish, a mark-read of the new record, a list and an authenticate on a
store holding one read record; that record is still read at the end. -/
theorem read_never_reset_witness :
    ([readRecord].map fun n => n.id).Nodup ∧
    ∀ n' ∈ runAll sampleOps [readRecord], n'.id = readRecord.id → n'.read = true :=
  ⟨by decide,
    (read_never_reset [readRecord] sampleOps (by decide)
      ⟨by simp [Op.fresh, sampleEnv, readRecord], trivial, trivial, trivial, trivial⟩).2.1
      readRecord (List.mem_singleton.mpr rfl) rfl⟩

/-! ## C17: the re-broadcast after a mark-read -/

theorem role_rebroadcasts (s : Store) (roles : List String) :
    (roles.map fun role => broadcastNotificationsUpdate s none (some role)).flatten =
      (roles.filter fun r => decide (r ≠ "")).map (roleSnapshot s) := by
  induction roles with
  | nil => rfl
  | cons r rest ih =>
    by_cases hr : r = ""
    · subst hr
      simp only [List.map_cons, List.flatten_cons, ih]
      rfl
    · have ht : truthy (some r) = true := (truthy_some_iff r).mpr hr
      simp only [List.map_cons, List.flatten_cons, ih, List.filter_cons, hr, ne_eq,
        not_false_eq_true, decide_True, if_true]
      simp [broadcastNotificationsUpdate, roleUpdate, ht, roleSnapshot]

/-- C17, amended: after a successful mark-read the record is stored with `read` true and an
update is re-broadcast to the group of its `targetUserId` when that is present (one
`userNotificationsUpdate` to the room of that user, and nothing to the role groups), and
otherwise to the group of each role in its `targetRoles` (one `roleNotificationsUpdate` per
role). -/
theorem markRead_rebroadcast (env : Env) (store : Store) (id : String) (q : Query)
    (h : (patchNotificationRead env store id q).response.status = 200) :
    ∃ updated : Notification,
      (patchNotificationRead env store id q).response.body = .doc updated ∧
      updated ∈ (patchNotificationRead env store id q).store ∧ updated.read = true ∧
      (∀ uid, updated.targetUserId = some uid → castObjectId uid = some uid →
        (patchNotificationRead env store id q).emitted =
          [⟨.room (userRoom uid), "userNotificationsUpdate",
            .records (newestFirst ((patchNotificationRead env store id q).store.filter
              fun n => decide (n.targetUserId = some uid)))⟩]) ∧
      (updated.targetUserId = none →
        (patchNotificationRead env store id q).emitted =
          (updated.targetRoles.filter fun r => decide (r ≠ "")).map fun r =>
            ⟨.room (roleRoom r), "roleNotificationsUpdate",
              .records (newestFirst ((patchNotificationRead env store id q).store.filter
                fun n => decide (r ∈ n.targetRoles)))⟩) := by
  obtain ⟨oid, f, x, hoid, hf, hg, hx, hxm, hfx, m, hm, heq⟩ := patchNotificationRead_ok h
  rw [heq]
  refine ⟨markedRead env.now m, rfl, ?_, rfl, ?_, ?_⟩
  · have := setRead_find env.now oid store
    rw [hm] at this
    exact List.mem_of_find?_eq_some this
  · intro uid hu hc
    have hne : uid ≠ "" := castObjectId_ne_empty hc
    have hu2 : m.targetUserId = some uid := hu
    simp [readBroadcasts, markedRead, hu2, broadcastNotificationsUpdate, truthy, hne, hc,
      roleUpdate, matchesUser, matchesRole]
  · intro hu
    have hu2 : m.targetUserId = none := hu
    simp only [readBroadcasts, markedRead, hu2, Option.isSome_none, Bool.false_eq_true,
      if_false]
    rw [role_rebroadcasts]
    rfl

/-- Witness of C17 amended: the role admin marks the admin record read. -/
theorem markRead_rebroadcast_witness :
    (patchNotificationRead sampleEnv [adminRecord] adminRecord.id
      { role := some "admin" }).response.status = 200 ∧
    ∃ updated : Notification,
      (patchNotificationRead sampleEnv [adminRecord] adminRecord.id
        { role := some "admin" }).response.body = .doc updated ∧ updated.read = true :=
  ⟨by decide,
    let ⟨u, h1, _, h3, _⟩ := markRead_rebroadcast sampleEnv [adminRecord] adminRecord.id
      { role := some "admin" } (by decide)
    ⟨u, h1, h3⟩⟩

/-- C17, as stated, fails: a record addressed to a user and to the role admin is marked read
by that user; the call succeeds, and no event is sent to the admin room. -/
theorem markRead_rebroadcast_counterexample :
    (patchNotificationRead sampleEnv [userAdminRecord] userAdminRecord.id
      { user_id := some sampleUser }).response.status = 200 ∧
    "admin" ∈ userAdminRecord.targetRoles ∧
    ∀ e ∈ (patchNotificationRead sampleEnv [userAdminRecord] userAdminRecord.id
      { user_id := some sampleUser }).emitted, e.target ≠ .room (roleRoom "admin") := by
  decide

/-! ## Facts about the trace of `sendNotification` -/

theorem emitsOf_map_emit (es : List Emit) : emitsOf (es.map .emit) = es := by
  induction es with
  | nil => rfl
  | cons e rest ih =>
    simp only [emitsOf, List.map_cons, List.filterMap_cons] at ih ⊢
    rw [ih]

/-- The trace and the result of `sendNotification` describe the same call. -/
theorem sendNotification_trace (env : Env) (store : Store) (d : NotificationData) :
    (sendNotificationTrace env store d = [.guardLogged] ∧
      sendNotification env store d = (store, [])) ∨
    (∃ err, save env store d = .error err ∧
      sendNotificationTrace env store d = [.rejected err, .caught err] ∧
      sendNotification env store d = (store, [])) ∨
    (∃ saved, save env store d = .ok (saved, store ++ [saved]) ∧
      sendNotificationTrace env store d = .saved saved :: (sendEmits d saved).map .emit ∧
      sendNotification env store d = (store ++ [saved], sendEmits d saved)) := by
  unfold sendNotificationTrace sendNotification
  split
  · exact Or.inl ⟨rfl, rfl⟩
  · cases hs : save env store d with
    | error err => exact Or.inr (Or.inl ⟨err, rfl, rfl, rfl⟩)
    | ok r =>
      obtain ⟨saved, s1⟩ := r
      obtain ⟨-, -, hs1⟩ := save_ok hs
      subst hs1
      exact Or.inr (Or.inr ⟨saved, rfl, rfl, rfl⟩)

theorem sendEmits_payload {d : NotificationData} {saved : Notification} {e : Emit}
    (he : e ∈ sendEmits d saved) : e.payload = .record saved := by
  unfold sendEmits at he
  rw [List.mem_append] at he
  rcases he with he | he
  · cases hd : d.targetUserId with
    | none => rw [hd] at he; cases he
    | some u =>
      rw [hd] at he
      simp only at he
      split at he
      · simp only [List.mem_singleton] at he
        rw [he]
      · cases he
  · cases hd : d.targetRoles with
    | none => rw [hd] at he; cases he
    | some roles =>
      rw [hd] at he
      simp only [List.mem_filterMap] at he
      obtain ⟨r, -, hr⟩ := he
      split at hr
      · simp only [Option.some.injEq] at hr
        rw [← hr]
      · cases hr

/-! ## C18: saved first, pushed second -/

/-- C18: in every call of `sendNotification` the emitted events are the emits of its trace;
every emit of the trace comes after the step in which the save succeeded, which opens the
trace; and every emitted payload is the record as saved, which is in the store afterwards. -/
theorem sendNotification_saves_before_push (env : Env) (store : Store) (d : NotificationData) :
    emitsOf (sendNotificationTrace env store d) = (sendNotification env store d).2 ∧
    (∀ pre e post, sendNotificationTrace env store d = pre ++ .emit e :: post →
      ∃ saved rest, pre = .saved saved :: rest ∧
        save env store d = .ok (saved, (sendNotification env store d).1)) ∧
    (∀ e ∈ (sendNotification env store d).2,
      ∃ saved, save env store d = .ok (saved, (sendNotification env store d).1) ∧
        e.payload = .record saved ∧ saved ∈ (sendNotification env store d).1) := by
  rcases sendNotification_trace env store d with ⟨ht, hr⟩ | ⟨err, hs, ht, hr⟩ |
      ⟨saved, hs, ht, hr⟩
  · rw [ht, hr]
    refine ⟨rfl, ?_, ?_⟩
    · intro pre e post h
      have hmem : Action.emit e ∈ [Action.guardLogged] := by
        rw [h]
        exact List.mem_append_right _ (List.mem_cons_self _ _)
      simp at hmem
    · intro e he
      cases he
  · rw [ht, hr]
    refine ⟨rfl, ?_, ?_⟩
    · intro pre e post h
      have hmem : Action.emit e ∈ [Action.rejected err, Action.caught err] := by
        rw [h]
        exact List.mem_append_right _ (List.mem_cons_self _ _)
      simp at hmem
    · intro e he
      cases he
  · rw [ht, hr]
    refine ⟨?_, ?_, ?_⟩
    · simp only [emitsOf, List.filterMap_cons]
      exact emitsOf_map_emit _
    · intro pre e post h
      cases pre with
      | nil => simp at h
      | cons a rest =>
        simp only [List.cons_append, List.cons.injEq] at h
        exact ⟨saved, rest, by rw [← h.1], hs⟩
    · intro e he
      exact ⟨saved, hs, sendEmits_payload he, by simp⟩

/-- Witness of C18: the role event of a notification for one user and the role user. -/
theorem sendNotification_saves_before_push_witness :
    (⟨.room (roleRoom "user"), "userNotification", .record userRoleSaved⟩ : Emit) ∈
      (sendNotification sampleEnv [] userRoleData).2 ∧
    ∃ saved, save sampleEnv [] userRoleData =
        .ok (saved, (sendNotification sampleEnv [] userRoleData).1) ∧
      (⟨.room (roleRoom "user"), "userNotification", .record userRoleSaved⟩ : Emit).payload =
        .record saved ∧
      saved ∈ (sendNotification sampleEnv [] userRoleData).1 :=
  ⟨by decide,
    (sendNotification_saves_before_push sampleEnv [] userRoleData).2.2 _ (by decide)⟩

/-! ## C19: a failed save -/

/-- C19, amended: in `sendNotification`, when the save of the record fails, no event is
emitted: the `then` callback that pushes is skipped and the rejection goes to
`.catch(console.error)`. -/
theorem sendNotification_failed_save_emits_nothing (env : Env) (store : Store)
    (d : NotificationData) (err : SaveError) (h : save env store d = .error err) :
    (sendNotification env store d).2 = [] ∧
    emitsOf (sendNotificationTrace env store d) = [] ∧
    (sendNotificationTrace env store d = [.rejected err, .caught err] ∨
      sendNotificationTrace env store d = [.guardLogged]) := by
  rcases sendNotification_trace env store d with ⟨ht, hr⟩ | ⟨err2, hs, ht, hr⟩ |
      ⟨saved, hs, ht, hr⟩
  · rw [ht, hr]
    exact ⟨rfl, rfl, Or.inr rfl⟩
  · rw [ht, hr]
    rw [h] at hs
    cases hs
    exact ⟨rfl, rfl, Or.inl rfl⟩
  · rw [h] at hs
    cases hs

/-- Witness of C19 amended: a store that refuses the write. -/
theorem sendNotification_failed_save_emits_nothing_witness :
    save { sampleEnv with accept := false } [] userRoleData = .error .store ∧
    (sendNotification { sampleEnv with accept := false } [] userRoleData).2 = [] :=
  ⟨rfl,
    (sendNotification_failed_save_emits_nothing { sampleEnv with accept := false } []
      userRoleData .store rfl).1⟩

/-- C19, as stated, fails: a valid notification for a user and a role is published while the
store refuses the write; the save is rejected, the rejection is caught, and no event is
emitted for the user or the role group. -/
theorem failed_save_counterexample :
    userRoleData.targetUserId = some sampleUser ∧ userRoleData.targetRoles = some ["user"] ∧
    sendNotificationTrace { sampleEnv with accept := false } [] userRoleData =
      [.rejected .store, .caught .store] ∧
    sendNotification { sampleEnv with accept := false } [] userRoleData = ([], []) := by
  decide

/-! ## C20: failures are swallowed -/

/-- C20: for every input, `sendNotification` ends normally: a rejection of the save is always
followed by the catch handler and nothing else; when the save fails the store is left as it
was, without the record, and nothing is emitted; otherwise the store is either unchanged or
grown by the saved record. -/
theorem sendNotification_swallows_failure (env : Env) (store : Store) (d : NotificationData) :
    (∀ err, .rejected err ∈ sendNotificationTrace env store d →
      sendNotificationTrace env store d = [.rejected err, .caught err]) ∧
    (∀ err, save env store d = .error err → sendNotification env store d = (store, [])) ∧
    ((sendNotification env store d).1 = store ∨
      ∃ saved, save env store d = .ok (saved, store ++ [saved]) ∧
        (sendNotification env store d).1 = store ++ [saved]) := by
  rcases sendNotification_trace env store d with ⟨ht, hr⟩ | ⟨err2, hs, ht, hr⟩ |
      ⟨saved, hs, ht, hr⟩
  · rw [ht, hr]
    refine ⟨?_, fun _ _ => rfl, Or.inl rfl⟩
    intro err hmem
    simp at hmem
  · rw [ht, hr]
    refine ⟨?_, fun _ _ => rfl, Or.inl rfl⟩
    intro err hmem
    simp only [List.mem_cons, Action.rejected.injEq, List.mem_singleton, List.not_mem_nil,
      or_false] at hmem
    rcases hmem with h | h
    · rw [h]
    · cases h
  · rw [ht, hr]
    refine ⟨?_, ?_, Or.inr ⟨saved, hs, rfl⟩⟩
    · intro err hmem
      simp only [List.mem_cons, List.mem_map] at hmem
      rcases hmem with h | ⟨e, -, h⟩
      · cases h
      · cases h
    · intro err herr
      rw [herr] at hs
      cases hs

/-- Witness of C20: a notification without type and message, rejected by validation. -/
theorem sendNotification_swallows_failure_witness :
    save sampleEnv [adminRecord] { targetRoles := some ["admin"] } = .error .validation ∧
    sendNotification sampleEnv [adminRecord] { targetRoles := some ["admin"] } =
      ([adminRecord], []) :=
  ⟨rfl,
    (sendNotification_swallows_failure sampleEnv [adminRecord]
      { targetRoles := some ["admin"] }).2.1 .validation rfl⟩

/-! ## C26: no implicit admin target -/

/-- C26, as stated, fails: a notification with target roles vendor alone and no user is
published and saved; the only event goes to the vendor room, so a connection in the admin
group receives nothing. -/
theorem vendor_only_publish_counterexample :
    vendorOnlyData.targetRoles = some ["vendor"] ∧ vendorOnlyData.targetUserId = none ∧
    sendNotification sampleEnv [] vendorOnlyData =
      ([vendorOnlySaved],
        [⟨.room (roleRoom "vendor"), "vendorNotification", .record vendorOnlySaved⟩]) ∧
    received {roleRoom "admin"} (sendNotification sampleEnv [] vendorOnlyData).2 = [] := by
  decide

/-- C26, amended: for every notification whose save succeeds, `sendNotification` emits an
`adminNotification` carrying the record to the admin room exactly when admin is one of its
`targetRoles`; no event at all is addressed to the admin room otherwise, and a connection that
joined only the admin room then receives nothing. -/
theorem sendNotification_admin_iff (env : Env) (store store1 : Store) (d : NotificationData)
    (saved : Notification) (h : save env store d = .ok (saved, store1)) :
    ((⟨.room (roleRoom "admin"), "adminNotification", .record saved⟩ : Emit) ∈
        (sendNotification env store d).2 ↔ "admin" ∈ d.targetRoles.getD []) ∧
    ("admin" ∉ d.targetRoles.getD [] →
      (∀ e ∈ (sendNotification env store d).2, e.target ≠ .room (roleRoom "admin")) ∧
      received {roleRoom "admin"} (sendNotification env store d).2 = []) := by
  rw [sendNotification_emitted h]
  have huser : ∀ e ∈ (match d.targetUserId with
      | some u => [(⟨.room (userRoom u), "userNotification", .record saved⟩ : Emit)]
      | none => []), e.target ≠ .room (roleRoom "admin") := by
    intro e he
    cases hd : d.targetUserId with
    | none => rw [hd] at he; cases he
    | some u =>
      rw [hd] at he
      simp only [List.mem_singleton] at he
      rw [he]
      intro hc
      have h1 := congrArg String.data (Target.room.inj hc)
      simp only [userRoom, roleRoom, String.data_append] at h1
      have h2 := congrArg List.head? h1
      simp at h2
  constructor
  · constructor
    · intro hm
      rcases List.mem_append.mp hm with hm | hm
      · exact absurd rfl (huser _ hm)
      · obtain ⟨r, hr, he⟩ := List.mem_map.mp hm
        have : r = "admin" := (roleEvent_target_iff saved r "admin").mp (by rw [he])
        rw [← this]
        exact hr
    · intro hm
      exact List.mem_append_right _ (List.mem_map.mpr ⟨"admin", hm, rfl⟩)
  · intro hno
    have hall : ∀ e ∈ (match d.targetUserId with
        | some u => [(⟨.room (userRoom u), "userNotification", .record saved⟩ : Emit)]
        | none => []) ++ (d.targetRoles.getD []).map (roleEvent saved),
        e.target ≠ .room (roleRoom "admin") := by
      intro e he
      rcases List.mem_append.mp he with he | he
      · exact huser e he
      · obtain ⟨r, hr, hre⟩ := List.mem_map.mp he
        intro hc
        have : r = "admin" := (roleEvent_target_iff saved r "admin").mp (by rw [hre]; exact hc)
        exact hno (this ▸ hr)
    refine ⟨hall, ?_⟩
    unfold received
    rw [List.filter_eq_nil_iff]
    intro e he
    have hne := hall e he
    unfold delivered
    cases ht : e.target with
    | all =>
      exfalso
      rcases List.mem_append.mp he with he | he
      · cases hd : d.targetUserId with
        | none => rw [hd] at he; cases he
        | some u =>
          rw [hd] at he
          simp only [List.mem_singleton] at he
          rw [he] at ht
          cases ht
      · obtain ⟨r, -, hre⟩ := List.mem_map.mp he
        rw [← hre] at ht
        cases ht
    | room name =>
      rw [ht] at hne
      simp only [Finset.mem_singleton, decide_eq_true_eq]
      intro hc
      exact hne (by rw [hc])

/-- Witness of C26 amended: the vendor-only notification. -/
theorem sendNotification_admin_iff_witness :
    save sampleEnv [] vendorOnlyData = .ok (vendorOnlySaved, [vendorOnlySaved]) ∧
    received {roleRoom "admin"} (sendNotification sampleEnv [] vendorOnlyData).2 = [] :=
  ⟨rfl,
    ((sendNotification_admin_iff sampleEnv [] [vendorOnlySaved] vendorOnlyData vendorOnlySaved
      rfl).2 (by decide)).2⟩
/-! ## C27: mark-read with both a user id and a role -/

/-- The filter of the caller when the user id is supplied and well formed. -/
theorem callerFilter_user {q : Query} {u uid : String} (hq : q.user_id = some u)
    (hu : castObjectId u = some uid) (oid : String) :
    callerFilter q oid = some fun n => decide (n.id = oid) && matchesUser uid n := by
  have ht : truthy (some u) = true := (truthy_some_iff u).mpr (castObjectId_ne_empty hu)
  simp [callerFilter, ht, hq, hu]

/-- The answer of a mark-read by a caller with a well-formed user id. -/
theorem patchNotificationRead_user (env : Env) (store : Store) {id oid u uid : String}
    {q : Query} (hq : q.user_id = some u) (hu : castObjectId u = some uid)
    (hoid : castObjectId id = some oid) :
    ((∃ n ∈ store, n.id = oid ∧ n.targetUserId = some uid) →
      (patchNotificationRead env store id q).response.status = 200) ∧
    ((¬ ∃ n ∈ store, n.id = oid ∧ n.targetUserId = some uid) →
      patchNotificationRead env store id q =
        ⟨⟨404, .message "Notification not found or unauthorized"⟩, store, [], ["findOne"]⟩) := by
  have ht : truthy q.user_id = true := by
    rw [hq]
    exact (truthy_some_iff u).mpr (castObjectId_ne_empty hu)
  have hg : (!truthy q.role && !truthy q.user_id) = false := by simp [ht]
  rw [patchNotificationRead_eq hg hoid, callerFilter_user hq hu oid]
  simp only
  constructor
  · intro ⟨n, hn, hid, htu⟩
    have hsome : (store.find? fun n => decide (n.id = oid) && matchesUser uid n).isSome
        = true := by
      rw [List.find?_isSome]
      exact ⟨n, hn, by simp [hid, matchesUser, htu]⟩
    obtain ⟨x, hx⟩ := Option.isSome_iff_exists.mp hsome
    rw [hx]
    simp only
    have hfind := setRead_find env.now oid store
    cases hm : store.find? (fun n => decide (n.id = oid)) with
    | none =>
      rw [List.find?_eq_none] at hm
      exact absurd (by simpa using hid) (hm n hn)
    | some m =>
      rw [hm] at hfind
      simp only [Option.map_some'] at hfind
      rw [hfind]
  · intro hno
    have hnone : (store.find? fun n => decide (n.id = oid) && matchesUser uid n) = none := by
      rw [List.find?_eq_none]
      intro n hn hc
      simp only [Bool.and_eq_true, decide_eq_true_eq, matchesUser] at hc
      exact hno ⟨n, hn, hc.1, hc.2⟩
    rw [hnone]

/-- The page of `GET /notifications` when both parameters are supplied and no paging. -/
theorem getNotifications_both (store : Store) {role u uid : String} (hr : role ≠ "")
    (hu : castObjectId u = some uid) :
    (getNotifications store { role := some role, user_id := some u }).records =
      (newestFirst (store.filter fun n =>
        matchesRole (some role) n || matchesUser uid n)).take 50 := by
  have hne : u ≠ "" := castObjectId_ne_empty hu
  simp [getNotifications, Outcome.records, truthy, hr, hne, hu, parseIntOr, parseInt]

/-- C27, amended: when both `user_id` and `role` are supplied to mark-read (well-formed ids),
the role is ignored: the answer is the same for every role, it is 200 if and only if a
record with the given id has `targetUserId` equal to `user_id`, and otherwise 404 with the
store unchanged; so a record addressed only to the role of the caller yields 404, although
the filter of `GET /notifications` with the same parameters selects that record, which is
returned whenever at most 50 stored records match the parameters. -/
theorem markRead_ignores_role (env : Env) (store : Store) (id oid role u uid : String)
    (hr : role ≠ "") (hu : castObjectId u = some uid) (hoid : castObjectId id = some oid) :
    (∀ other : Option String,
      patchNotificationRead env store id { role := other, user_id := some u } =
        patchNotificationRead env store id { role := some role, user_id := some u }) ∧
    ((patchNotificationRead env store id
        { role := some role, user_id := some u }).response.status = 200 ↔
      ∃ n ∈ store, n.id = oid ∧ n.targetUserId = some uid) ∧
    (∀ n ∈ store, n.id = oid → role ∈ n.targetRoles →
      (∀ m ∈ store, m.id = oid → m.targetUserId ≠ some uid) →
      patchNotificationRead env store id { role := some role, user_id := some u } =
        ⟨⟨404, .message "Notification not found or unauthorized"⟩, store, [], ["findOne"]⟩ ∧
      addressed (some role) (some u) n = true ∧
      ((store.filter (addressed (some role) (some u))).length ≤ 50 →
        n ∈ (getNotifications store { role := some role, user_id := some u }).records)) := by
  have hq : ({ role := some role, user_id := some u } : Query).user_id = some u := rfl
  refine ⟨?_, ?_, ?_⟩
  · intro other
    have hg1 : (!truthy ({ role := other, user_id := some u } : Query).role &&
        !truthy ({ role := other, user_id := some u } : Query).user_id) = false := by
      simp [truthy, castObjectId_ne_empty hu]
    have hg2 : (!truthy ({ role := some role, user_id := some u } : Query).role &&
        !truthy ({ role := some role, user_id := some u } : Query).user_id) = false := by
      simp [truthy, castObjectId_ne_empty hu]
    rw [patchNotificationRead_eq hg1 hoid, patchNotificationRead_eq hg2 hoid,
      @callerFilter_user { role := other, user_id := some u } u uid rfl hu oid,
      callerFilter_user hq hu oid]
  · constructor
    · intro h200
      by_contra hno
      rw [(patchNotificationRead_user env store hq hu hoid).2 hno] at h200
      simp at h200
    · exact (patchNotificationRead_user env store hq hu hoid).1
  · intro n hn hid hrole hnone
    have hno : ¬ ∃ m ∈ store, m.id = oid ∧ m.targetUserId = some uid := by
      intro ⟨m, hm, hmid, hmu⟩
      exact hnone m hm hmid hmu
    have hadd : addressed (some role) (some u) n = true := by
      rw [addressed_of_cast hu]
      simp [matchesRole, hrole]
    refine ⟨(patchNotificationRead_user env store hq hu hoid).2 hno, hadd, ?_⟩
    intro hlen
    have hf : (store.filter fun n => matchesRole (some role) n || matchesUser uid n) =
        store.filter (addressed (some role) (some u)) := by
      apply List.filter_congr
      intro x _
      rw [addressed_of_cast hu]
    rw [getNotifications_both store hr hu, hf, List.take_of_length_le
      (by rw [(newestFirst_perm _).length_eq]; exact hlen),
      (newestFirst_perm _).mem_iff, List.mem_filter]
    exact ⟨hn, hadd⟩

/-- Witness of C27 amended: the admin record, a caller with the sample user id and the role
admin. -/
theorem markRead_ignores_role_witness :
    "admin" ≠ "" ∧ castObjectId sampleUser = some sampleUser ∧
    castObjectId adminRecord.id = some adminRecord.id ∧
    ((patchNotificationRead sampleEnv [adminRecord] adminRecord.id
        { role := some "admin", user_id := some sampleUser }).response.status = 200 ↔
      ∃ n ∈ [adminRecord], n.id = adminRecord.id ∧ n.targetUserId = some sampleUser) :=
  ⟨by decide, by decide, by decide,
    (markRead_ignores_role sampleEnv [adminRecord] adminRecord.id adminRecord.id "admin"
      sampleUser sampleUser (by decide) (by decide) (by decide)).2.1⟩

set_option maxRecDepth 100000 in
/-- C27, as stated, fails in its last part: with 51 newer records for the role admin in the
store, a record addressed only to the role admin yields 404 for a caller with that role and
a user id, and `GET /notifications` with the same parameters does not return it, because the
page holds the 50 newest records only. -/
theorem listed_record_counterexample :
    adminRecord ∈ adminRecord :: newerAdminRecords ∧
    (patchNotificationRead sampleEnv (adminRecord :: newerAdminRecords) adminRecord.id
      { role := some "admin", user_id := some sampleUser }).response.status = 404 ∧
    adminRecord ∉ (getNotifications (adminRecord :: newerAdminRecords)
      { role := some "admin", user_id := some sampleUser }).records := by
  decide

/-! ## C25: the type `login_attempt_inactive` -/

/-- A notification of type `login_attempt_inactive` never validates. -/
theorem save_inactive_rejected (env : Env) (store : Store) (message : String)
    (roles : List String) (u : LoginUser) :
    ∃ err, save env store (loginNotification "login_attempt_inactive" message roles u) =
      .error err := by
  have hv : ∃ err, validate env
      (loginNotification "login_attempt_inactive" message roles u) = .error err := by
    unfold validate loginNotification
    simp only
    cases castOptionalId (some u.oid) with
    | none => exact ⟨_, rfl⟩
    | some a =>
      simp only
      rw [if_neg (fun h => absurd h.1 (by decide))]
      exact ⟨_, rfl⟩
  obtain ⟨err, herr⟩ := hv
  exact ⟨err, by rw [save, herr]⟩

/-- The `catch` block of the login handler when its write is accepted. -/
theorem loginCatch_ok (env : Env) (store : Store) (email : String) (emitted : List Emit)
    (h : env.accept = true) :
    loginCatch env store email emitted =
      ⟨some { status := 500, message := some "Authentication failed" },
        store ++ [{ id := env.newId, type := "login_error",
                    message := "Login error for email: " ++ email,
                    timestamp := env.now, read := false, entityId := none,
                    targetRoles := ["admin"], targetUserId := none,
                    createdAt := env.now, updatedAt := env.now }],
        emitted ++ [⟨.all, "adminNotification",
          .record { id := env.newId, type := "login_error",
                    message := "Login error for email: " ++ email,
                    timestamp := env.now, read := false, entityId := none,
                    targetRoles := ["admin"], targetUserId := none,
                    createdAt := env.now, updatedAt := env.now }⟩]⟩ := by
  have hm : "Login error for email: " ++ email ≠ "" := append_ne_empty _ _ (by decide)
  simp [loginCatch, save, validate, castOptionalId, typeEnum, roleEnum, hm, h]

/-- C25, evaluated on the code: the type `login_attempt_inactive` that the login handler
constructs is not in the enum of the model; so for every login with correct credentials on a
verified account that is not active, the save of the notification is rejected, the `catch`
block saves and emits a `login_error` notification instead, and the answer is 500
`Authentication failed`, not 403. -/
theorem login_inactive_answers_500 (env : LoginEnv) (store : Store) (req : LoginRequest)
    (u : LoginUser) (email : String)
    (hemail : req.email = some email) (he : email ≠ "") (hp : truthy req.password = true)
    (hfound : env.found = some u) (hmatch : env.isMatch = true)
    (hver : u.emailVerified = true) (hstatus : u.status ≠ "Active")
    (haccept : env.second.accept = true) :
    "login_attempt_inactive" ∈ constructedTypes ∧ "login_attempt_inactive" ∉ typeEnum ∧
    postLogin env store req =
      ⟨some { status := 500, message := some "Authentication failed" },
        store ++ [{ id := env.second.newId, type := "login_error",
                    message := "Login error for email: " ++ email,
                    timestamp := env.second.now, read := false, entityId := none,
                    targetRoles := ["admin"], targetUserId := none,
                    createdAt := env.second.now, updatedAt := env.second.now }],
        [⟨.all, "adminNotification",
          .record { id := env.second.newId, type := "login_error",
                    message := "Login error for email: " ++ email,
                    timestamp := env.second.now, read := false, entityId := none,
                    targetRoles := ["admin"], targetUserId := none,
                    createdAt := env.second.now, updatedAt := env.second.now }⟩]⟩ := by
  refine ⟨by decide, by decide, ?_⟩
  obtain ⟨err, herr⟩ := save_inactive_rejected env.first store
    ("Login attempt with inactive account: " ++ u.email) ["admin"] u
  have hte : truthy (some email) = true := (truthy_some_iff email).mpr he
  unfold postLogin
  simp only [hemail, hte, hp, hfound, hmatch, hver, hstatus, herr, ne_eq, not_false_eq_true,
    Bool.not_true, Bool.or_self, Bool.false_eq_true, if_false, if_true, Option.getD_some]
  exact loginCatch_ok env.second store email [] haccept

/-- Witness of C25: the sample inactive user logs in with matching credentials. -/
theorem login_inactive_answers_500_witness :
    inactiveUser.emailVerified = true ∧ inactiveUser.status ≠ "Active" ∧
    (postLogin loginEnv [] loginRequest).reply =
      some { status := 500, message := some "Authentication failed" } :=
  ⟨rfl, by decide,
    congrArg LoginOutcome.reply
      (login_inactive_answers_500 loginEnv [] loginRequest inactiveUser "a@b.c" rfl
        (by decide) (by decide) rfl rfl rfl (by decide) rfl).2.2⟩

/-! ## C21: the answer of `POST /vendors` -/

/-- The notification step of `POST /vendors` when the store refuses the write. -/
theorem postVendors_notify_refused (env : Env) (store : Store) (oid x name : String)
    (h : castObjectId oid = some x) (ha : env.accept = false) :
    postVendors_notify env store oid name = .error .store := by
  have hm : "New vendor registered: " ++ name ≠ "" := append_ne_empty _ _ (by decide)
  simp [postVendors_notify, saveAndEmit, save, validate, vendorNotification, castOptionalId,
    h, hm, typeEnum, roleEnum, ha]

/-- The notification step of `POST /vendors` when the store accepts the write. -/
theorem postVendors_notify_accepted (env : Env) (store : Store) (oid x name : String)
    (h : castObjectId oid = some x) (ha : env.accept = true) :
    ∃ saved : Notification, saved.type = "new_vendor" ∧ saved.entityId = some x ∧
      postVendors_notify env store oid name =
        .ok (store ++ [saved], [⟨.all, "adminNotification", .record saved⟩]) := by
  have hm : "New vendor registered: " ++ name ≠ "" := append_ne_empty _ _ (by decide)
  refine ⟨{ id := env.newId, type := "new_vendor",
            message := "New vendor registered: " ++ name, timestamp := env.now, read := false,
            entityId := some x, targetRoles := ["admin"], targetUserId := none,
            createdAt := env.now, updatedAt := env.now }, rfl, rfl, ?_⟩
  simp [postVendors_notify, saveAndEmit, save, validate, vendorNotification, castOptionalId,
    h, hm, typeEnum, roleEnum, ha]

/-- C21, as stated, fails: the sample vendor passes validation and is saved, the store refuses
the notification record, and the answer is 500 with `success = false`, while the vendor stays
in the collection. -/
theorem postVendors_refused_notification_counterexample :
    Vendor.save vendorEnv [] (vendorData sampleVendorBody sampleVendorFiles) =
      some (sampleVendor, [sampleVendor]) ∧
    postVendors vendorEnv refusingEnv {} sampleVendorBody (some sampleVendorFiles) =
      ⟨{ status := 500, success := some false }, { vendors := [sampleVendor] }, []⟩ := by
  decide

/-- C21, amended: in `POST /vendors`, for a request that passes validation and whose vendor
document is saved, the answer is 201 with `success = true` when the notification record is
saved too, the record of type `new_vendor` being appended to the notifications; when the store
refuses the notification record the answer is 500 with `success = false`, the vendor stays
saved and nothing is emitted. -/
theorem postVendors_reply (venv nenv : Env) (st : VendorState) (body : VendorBody)
    (f : VendorFiles) (vendor : Vendor) (vendors1 : List Vendor) (x : String)
    (hvalid : Vendor.validateSync (vendorData body f) = true)
    (hsave : Vendor.save venv st.vendors (vendorData body f) = some (vendor, vendors1))
    (hid : castObjectId vendor.oid = some x) :
    (nenv.accept = true →
      (postVendors venv nenv st body (some f)).reply = { status := 201, success := some true } ∧
      (postVendors venv nenv st body (some f)).state.vendors = vendors1 ∧
      ∃ saved : Notification, saved.type = "new_vendor" ∧
        (postVendors venv nenv st body (some f)).state.notifications =
          st.notifications ++ [saved]) ∧
    (nenv.accept = false →
      postVendors venv nenv st body (some f) =
        ⟨{ status := 500, success := some false }, { st with vendors := vendors1 }, []⟩) := by
  constructor
  · intro ha
    obtain ⟨saved, ht, _, hn⟩ := postVendors_notify_accepted nenv st.notifications vendor.oid x
      vendor.name hid ha
    have hout : postVendors venv nenv st body (some f) =
        ⟨{ status := 201, success := some true },
          { vendors := vendors1, notifications := st.notifications ++ [saved] },
          [⟨.all, "adminNotification", .notification saved⟩,
           ⟨.all, "vendorsUpdate", .vendors (vendorsNewestFirst vendors1)⟩] ++
            emitStatusCounts vendors1⟩ := by
      simp [postVendors, hvalid, hsave, hn, broadcastVendorsUpdate, truthy]
    rw [hout]
    exact ⟨rfl, rfl, saved, ht, rfl⟩
  · intro ha
    have hn := postVendors_notify_refused nenv st.notifications vendor.oid x vendor.name hid ha
    simp [postVendors, hvalid, hsave, hn]

/-- Witness of C21: the sample request with both writes accepted. -/
theorem postVendors_reply_witness :
    Vendor.validateSync (vendorData sampleVendorBody sampleVendorFiles) = true ∧
    (postVendors vendorEnv sampleEnv {} sampleVendorBody (some sampleVendorFiles)).reply =
      { status := 201, success := some true } :=
  ⟨by decide,
    ((postVendors_reply vendorEnv sampleEnv {} sampleVendorBody sampleVendorFiles sampleVendor
      [sampleVendor] sampleVendor.oid (by decide) (by decide) (by decide)).1 rfl).1⟩

/-! ## C24: the status counts after a change of the payment status -/

/-- The updated document is the one a later `findById` returns. -/
theorem find_updateVendor (vendors : List Vendor) (oid : String) (f : Vendor → Vendor)
    (hf : ∀ v, (f v).oid = v.oid) :
    (updateVendor vendors oid f).find? (fun v => v.oid == oid) =
      (vendors.find? fun v => v.oid == oid).map f := by
  induction vendors with
  | nil => rfl
  | cons v rest ih =>
    by_cases hv : v.oid = oid
    · simp [updateVendor, List.find?, hv, hf]
    · have hb : (v.oid == oid) = false := by simpa using hv
      have ih1 : List.find? (fun v => v.oid == oid)
          (List.map (fun v => if v.oid = oid then f v else v) rest) =
          Option.map f (List.find? (fun v => v.oid == oid) rest) := ih
      simp [updateVendor, List.find?, hv, hb, ih1]

/-- The map of `countBy` gives each value that occurs the number of its occurrences, and has
no other entry. -/
theorem mem_countBy (values : List (Option String)) (k : Option String) (n : Nat) :
    (k, n) ∈ countBy values ↔ k ∈ values ∧ n = values.count k := by
  simp only [countBy, List.mem_map, List.mem_dedup, Prod.mk.injEq]
  constructor
  · rintro ⟨v, hv, rfl, rfl⟩
    exact ⟨hv, rfl⟩
  · rintro ⟨hk, rfl⟩
    exact ⟨k, hk, rfl, rfl⟩

/-- C24, evaluated on the code: a successful `PATCH /vendors/:id/payment-status` for a stored
vendor answers 200, writes the status, and emits exactly `paymentStatusUpdate`,
`vendorsUpdate` and `vendorPaymentUpdate`: no `vendorStatusCounts` event follows, because
`broadcastVendorsUpdate` called with the id of the vendor ends at the unbound `status`. The
same change of the registration status does emit the counts of the updated collection. -/
theorem paymentStatus_emits_no_counts (env : Env) (st : VendorState) (id s : String)
    (vendor : Vendor) (hs : s ∈ validStatuses) (hid : castObjectId id = some id)
    (hacc : env.accept = true)
    (hfind : (st.vendors.find? fun v => v.oid == id) = some vendor) :
    (patchPaymentStatus env st id (some s)).reply = { status := 200, success := some true } ∧
    (patchPaymentStatus env st id (some s)).state.vendors =
      updateVendor st.vendors id (fun v => { v with payment_status := some s }) ∧
    (patchPaymentStatus env st id (some s)).emitted =
      [⟨.all, "paymentStatusUpdate", .paymentStatus vendor.oid (some s)⟩,
       ⟨.all, "vendorsUpdate", .vendors (vendorsNewestFirst
          (updateVendor st.vendors id fun v => { v with payment_status := some s }))⟩,
       ⟨.all, "vendorPaymentUpdate", .vendorPayment vendor.oid vendor.payment_attachment
          (some s)⟩] ∧
    (∀ p ∈ (patchPaymentStatus env st id (some s)).emitted, p.event ≠ "vendorStatusCounts") ∧
    (patchRegistrationStatus env st id (some s)).emitted =
      [⟨.all, "vendorsUpdate", .vendors (vendorsNewestFirst
          (updateVendor st.vendors id fun v => { v with registration_status := s }))⟩] ++
      emitStatusCounts
        (updateVendor st.vendors id fun v => { v with registration_status := s }) := by
  have hoid : vendor.oid = id := by
    have := List.find?_some hfind
    simpa using this
  have hne : id ≠ "" := castObjectId_ne_empty hid
  have hfind1 := find_updateVendor st.vendors id (fun v => { v with payment_status := some s })
    (fun _ => rfl)
  rw [hfind] at hfind1
  have hout : patchPaymentStatus env st id (some s) =
      ⟨{ status := 200, success := some true },
        { st with vendors :=
            updateVendor st.vendors id fun v => { v with payment_status := some s } },
        [⟨.all, "paymentStatusUpdate", .paymentStatus vendor.oid (some s)⟩,
         ⟨.all, "vendorsUpdate", .vendors (vendorsNewestFirst
            (updateVendor st.vendors id fun v => { v with payment_status := some s }))⟩,
         ⟨.all, "vendorPaymentUpdate", .vendorPayment vendor.oid vendor.payment_attachment
            (some s)⟩]⟩ := by
    simp [patchPaymentStatus, hs, hid, hacc, hfind, broadcastVendorsUpdate, hoid, truthy, hne,
      hfind1, statusInScope]
  refine ⟨by rw [hout], by rw [hout], by rw [hout], ?_, ?_⟩
  · rw [hout]
    intro p hp
    simp only [List.mem_cons, List.mem_singleton, List.not_mem_nil, or_false] at hp
    rcases hp with rfl | rfl | rfl <;> simp
  · simp [patchRegistrationStatus, hs, hid, hacc, hfind, broadcastVendorsUpdate, truthy]

/-- Witness of C24: the payment of the sample vendor is approved. -/
theorem paymentStatus_emits_no_counts_witness :
    (patchPaymentStatus sampleEnv { vendors := [sampleVendor] } sampleVendor.oid
      (some "Approved")).reply = { status := 200, success := some true } ∧
    ∀ p ∈ (patchPaymentStatus sampleEnv { vendors := [sampleVendor] } sampleVendor.oid
      (some "Approved")).emitted, p.event ≠ "vendorStatusCounts" :=
  ⟨(paymentStatus_emits_no_counts sampleEnv { vendors := [sampleVendor] } sampleVendor.oid
      "Approved" sampleVendor (by decide) (by decide) rfl rfl).1,
   (paymentStatus_emits_no_counts sampleEnv { vendors := [sampleVendor] } sampleVendor.oid
      "Approved" sampleVendor (by decide) (by decide) rfl rfl).2.2.2.1⟩
/-! ## C30: booths and vendors of the assignments -/

/-- C30, evaluated on the code: two vendors are each assigned a booth by `POST /assignments`;
a further POST for the second vendor is refused with 400, but `PUT /assignments/:id`, which
has no check of the vendor, moves the first assignment to the second vendor and answers 200.
Afterwards two assignments reference the second vendor; and once the moved assignment is
deleted, that vendor has `isAssign = false` while an assignment still references it. -/
theorem put_gives_vendor_second_assignment :
    (postAssignments { newId := assignmentOne } twoAssigned
      { vendor := some secondVendor.oid, festival := some sampleFestivalId,
        booth := some boothThree }).reply.status = 400 ∧
    (putAssignments { newId := "" } twoAssigned assignmentOne moveBody).reply.status = 200 ∧
    (runAssign twoVendors reassignOps).assignments =
      [{ oid := assignmentOne, id := 1, vendor := secondVendor.oid,
         festival := sampleFestivalId, booth := boothOne },
       { oid := assignmentTwo, id := 2, vendor := secondVendor.oid,
         festival := sampleFestivalId, booth := boothTwo }] ∧
    assignmentsOf (runAssign twoVendors reassignOps) secondVendor.oid = 2 ∧
    (runAssign twoVendors (reassignOps ++ [.delete assignmentOne])).vendors =
      [sampleVendor, secondVendor] ∧
    assignmentsOf (runAssign twoVendors (reassignOps ++ [.delete assignmentOne]))
      secondVendor.oid = 1 := by
  decide

/-! ## C22: broadcasts and the commit of the write -/

/-- C22, evaluated on the code: `PUT /assignments/:id` that moves an assignment to another
stored vendor calls `broadcastVendorAssignmentUpdate` before `commitTransaction`; when the
commit fails, the transaction is aborted, the state stays as it was and the answer is 500, yet
`vendorAssignmentUpdate` and `yourBoothAssignment` are emitted for that vendor. In
`POST /vendors`, a body that fails validation is answered 400, nothing is stored and nothing
is emitted. -/
theorem put_broadcasts_without_commit (env : AssignEnv) (st : AssignState) (id v : String)
    (festival booth : Option String) (f b : Option String) (current : Assignment) (w : Vendor)
    (hid : castObjectId id = some id) (hv : castObjectId v = some v)
    (hf : castUpdate festival = some f) (hb : castUpdate booth = some b)
    (hfree : (truthy booth &&
      st.assignments.any (fun a => some a.booth == b && a.oid != id)) = false)
    (hcur : (st.assignments.find? fun a => a.oid == id) = some current)
    (hne : v ≠ current.vendor)
    (hw : (st.vendors.find? fun x => x.oid == v) = some w)
    (hacc : env.accept = true) (hcommit : env.commitOk = false) :
    putAssignments env st id { vendor := some v, festival := festival, booth := booth } =
      ⟨{ status := 500, success := some false }, st,
        [⟨.all, "vendorAssignmentUpdate", .vendorAssignment w.id w.isAssign w.booth_id⟩,
         ⟨.room ("vendor_" ++ toString w.id), "yourBoothAssignment",
          .yourBooth w.isAssign w.booth_id⟩]⟩ ∧
    ∀ (venv nenv : Env) (vs : VendorState) (body : VendorBody) (files : VendorFiles),
      Vendor.validateSync (vendorData body files) = false →
      postVendors venv nenv vs body (some files) =
        ⟨{ status := 400, success := some false }, vs, []⟩ := by
  constructor
  · have hvne : v ≠ "" := castObjectId_ne_empty hv
    have htv : truthy (some v) = true := (truthy_some_iff v).mpr hvne
    have hcv : castUpdate (some v) = some (some v) := by simp [castUpdate, hv]
    have hbne : (some v != some current.vendor) = true := by simp [hne]
    have hbc : broadcastVendorAssignmentUpdate st.vendors v =
        [⟨.all, "vendorAssignmentUpdate", .vendorAssignment w.id w.isAssign w.booth_id⟩,
         ⟨.room ("vendor_" ++ toString w.id), "yourBoothAssignment",
          .yourBooth w.isAssign w.booth_id⟩] := by
      simp only [broadcastVendorAssignmentUpdate, hv, hw]
    have hbooth : truthy booth = true → castObjectId (booth.getD "") = b := by
      intro hbt
      cases booth with
      | none => simp [truthy] at hbt
      | some x =>
        cases hx : castObjectId x with
        | none => simp [castUpdate, hx] at hb
        | some y =>
          simp only [castUpdate, hx, Option.map_some', Option.some.injEq] at hb
          simp [hx, hb]
    have hcast : (truthy booth && (castObjectId (booth.getD "")).isNone) = false := by
      cases hbt : truthy booth with
      | false => rfl
      | true =>
        cases booth with
        | none => simp [truthy] at hbt
        | some x =>
          cases hx : castObjectId x with
          | none => simp [castUpdate, hx] at hb
          | some y => simp [hx]
    have hfree1 : (truthy booth && st.assignments.any (fun a =>
        some a.booth == castObjectId (booth.getD "") && a.oid != id)) = false := by
      cases hbt : truthy booth with
      | false => rfl
      | true =>
        rw [hbooth hbt]
        rw [hbt] at hfree
        exact hfree
    simp only [putAssignments, hid, hcv, hf, hb, hcast, hfree1, hcur, hacc, hcommit, htv,
      hbne, hbc, Bool.false_eq_true, if_false, Bool.not_true, Bool.not_false, Bool.and_self,
      if_true, Option.getD_some]
  · intro venv nenv vs body files hvalid
    simp [postVendors, hvalid]

/-- Witness of C22: the move of the first assignment to the second vendor, with a commit that
fails, and the sample body without a phone number. -/
theorem put_broadcasts_without_commit_witness :
    (putAssignments failingCommit twoAssigned assignmentOne moveBody).reply.status = 500 ∧
    (putAssignments failingCommit twoAssigned assignmentOne moveBody).state = twoAssigned ∧
    (putAssignments failingCommit twoAssigned assignmentOne moveBody).emitted =
      [⟨.all, "vendorAssignmentUpdate", .vendorAssignment 2 true (some boothTwo)⟩,
       ⟨.room "vendor_2", "yourBoothAssignment", .yourBooth true (some boothTwo)⟩] ∧
    postVendors vendorEnv sampleEnv {} invalidVendorBody (some sampleVendorFiles) =
      ⟨{ status := 400, success := some false }, {}, []⟩ := by
  have h := put_broadcasts_without_commit failingCommit twoAssigned assignmentOne
    secondVendor.oid (some sampleFestivalId) (some boothOne) (some sampleFestivalId)
    (some boothOne)
    { oid := assignmentOne, id := 1, vendor := sampleVendor.oid, festival := sampleFestivalId,
      booth := boothOne }
    { secondVendor with isAssign := true, booth_id := some boothTwo }
    (by decide) (by decide) (by decide) (by decide) (by decide) (by decide) (by decide)
    (by decide) rfl rfl
  have h1 : putAssignments failingCommit twoAssigned assignmentOne moveBody = _ := h.1
  refine ⟨?_, ?_, ?_, h.2 vendorEnv sampleEnv {} invalidVendorBody sampleVendorFiles
    (by decide)⟩
  · rw [h1]
  · rw [h1]
  · rw [h1]
    rfl

/-! ## C23: the broadcast of the festival collection -/

theorem festivalsByDate_sorted (l : List FestivalDoc) :
    (festivalsByDate l).Sorted (fun a b => a.date ≤ b.date) := by
  haveI : IsTotal FestivalDoc (fun a b => a.date ≤ b.date) :=
    ⟨fun a b => Nat.le_total a.date b.date⟩
  haveI : IsTrans FestivalDoc (fun a b => a.date ≤ b.date) :=
    ⟨fun _ _ _ hab hbc => Nat.le_trans hab hbc⟩
  exact List.sorted_insertionSort _ l

theorem festivalsByDate_perm (l : List FestivalDoc) : (festivalsByDate l).Perm l :=
  List.perm_insertionSort _ l

/-- C23: for every create, update or delete of a festival, with the fetch of the broadcast
resolving, a request answered with success emits exactly one event, `festivalsUpdate` to
every connection, whose payload is the collection after the write, complete and in the order
of the dates, and a request that is not emits nothing; with the fetch failing nothing is
emitted, and the answer and the collection are the same as with the fetch resolving. -/
theorem festivalsUpdate_after_write (env : Env) (st : List FestivalDoc) (op : FestivalOp) :
    ((op.run env true st).succeeded = true →
      (op.run env true st).emitted =
        [⟨.all, "festivalsUpdate",
          .festivals (festivalsByDate (op.run env true st).state)⟩]) ∧
    ((op.run env true st).succeeded = false → (op.run env true st).emitted = []) ∧
    (festivalsByDate (op.run env true st).state).Perm (op.run env true st).state ∧
    (festivalsByDate (op.run env true st).state).Sorted (fun a b => a.date ≤ b.date) ∧
    (op.run env false st).emitted = [] ∧
    (op.run env false st).reply = (op.run env true st).reply ∧
    (op.run env false st).state = (op.run env true st).state := by
  refine ⟨?_, ?_, festivalsByDate_perm _, festivalsByDate_sorted _, ?_, ?_, ?_⟩ <;>
    cases op <;>
    simp only [FestivalOp.run, postFestivals, putFestivals, deleteFestivals,
      broadcastFestivalsUpdate, FestivalOutcome.succeeded] <;>
    (repeat' split) <;> simp_all

/-- Witness of C23: the sample festival is created next to a later one, and the event
carries both in the order of their dates. -/
theorem festivalsUpdate_after_write_witness :
    (postFestivals sampleEnv true [laterFestival] sampleFestivalData).succeeded = true ∧
    (postFestivals sampleEnv true [laterFestival] sampleFestivalData).emitted =
      [⟨.all, "festivalsUpdate", .festivals [sampleFestival, laterFestival]⟩] :=
  ⟨by decide,
    ((festivalsUpdate_after_write sampleEnv [laterFestival] (.create sampleFestivalData)).1
      (by decide)).trans (by decide)⟩

/-! ## C28: cancelled events -/

/-- C28, evaluated on the code: for a stored event that is cancelled,
`PATCH /events/:id/status` with another allowed status is answered 400 and leaves the
collection as it is; `PUT /events/:id` with that status in the body, which does not read the
stored status, is answered 200 and the event has the new status afterwards. -/
theorem put_reactivates_cancelled (env : Env) (st : List Event) (id s : String) (event : Event)
    (hid : castObjectId id = some id) (hacc : env.accept = true)
    (hfind : (st.find? fun e => e.oid == id) = some event)
    (hc : event.status = "cancelled") (hs : s ∈ allowedStatuses) (hne : s ≠ "cancelled") :
    patchEventStatus env st id (some s) = ⟨{ status := 400, success := some false }, st⟩ ∧
    (putEvents env st id { status := some s }).reply = { status := 200 } ∧
    ((putEvents env st id { status := some s }).state.find? fun e => e.oid == id) =
      some { event with status := s } := by
  have hmap : ∀ l : List Event,
      (l.map fun e => if e.oid = id then { e with status := s } else e).find?
          (fun e => e.oid == id) =
        (l.find? fun e => e.oid == id).map fun e => { e with status := s } := by
    intro l
    induction l with
    | nil => rfl
    | cons e rest ih =>
      by_cases he : e.oid = id
      · simp [List.find?, he]
      · have hb : (e.oid == id) = false := by simpa using he
        simp [List.find?, he, hb, ih]
  refine ⟨?_, ?_, ?_⟩
  · simp [patchEventStatus, hs, hid, hfind, hc, hne]
  · simp [putEvents, hid, castUpdate, updatePath, hs, hacc, hfind]
  · have hput : (putEvents env st id { status := some s }).state =
        st.map fun e => if e.oid = id then { e with status := s } else e := by
      simp [putEvents, hid, castUpdate, updatePath, hs, hacc, hfind]
    rw [hput, hmap, hfind]
    rfl

/-- Witness of C28: the sample cancelled event is published again by a PUT. -/
theorem put_reactivates_cancelled_witness :
    cancelledEvent.status = "cancelled" ∧
    patchEventStatus sampleEnv [cancelledEvent] cancelledEvent.oid (some "published") =
      ⟨{ status := 400, success := some false }, [cancelledEvent]⟩ ∧
    (putEvents sampleEnv [cancelledEvent] cancelledEvent.oid
      { status := some "published" }).state = [{ cancelledEvent with status := "published" }] :=
  ⟨rfl,
    (put_reactivates_cancelled sampleEnv [cancelledEvent] cancelledEvent.oid "published"
      cancelledEvent (by decide) rfl (by decide) rfl (by decide) (by decide)).1,
    by decide⟩
/-! ## C29: tickets of one user for one festival -/

/-- The collection after `POST /tickets`: unchanged, or one ticket more that is in conflict
with no stored ticket. -/
theorem postTickets_state (env : TicketEnv) (st : List Ticket) (body : TicketBody)
    (file : Option String) :
    (postTickets env st body file).state = st ∨
    ∃ t : Ticket, (postTickets env st body file).state = st ++ [t] ∧
      ∀ a ∈ st, conflict a t = false := by
  unfold postTickets
  split
  · exact Or.inl rfl
  · split
    · rename_i user festival _ _
      split
      · exact Or.inl rfl
      · rename_i hany
        split
        · rename_i u _ _ _
          split
          · rename_i f amount _ _
            split
            · exact Or.inl rfl
            · have hfree : ∀ a ∈ st, conflict a
                  { oid := env.newId, user_id := u, festival_id := f, amount := amount,
                    payment_status := "Pending", qr_code := none } = false := by
                intro a ha
                have h1 : ¬(a.user_id = u ∧ a.festival_id = f ∧
                    ¬a.payment_status = "Rejected") := by
                  intro hc
                  apply hany
                  simp only [List.any_eq_true]
                  exact ⟨a, ha, by simp [hc.1, hc.2.1, hc.2.2]⟩
                by_contra hcon
                apply h1
                simp only [conflict, Bool.not_eq_false, Bool.and_eq_true, beq_iff_eq,
                  bne_iff_ne, ne_eq] at hcon
                exact ⟨hcon.1.1.1, hcon.1.1.2, hcon.1.2⟩
              split
              · exact Or.inr ⟨_, rfl, hfree⟩
              · exact Or.inr ⟨_, rfl, hfree⟩
          · exact Or.inl rfl
        · exact Or.inl rfl
    · exact Or.inl rfl

/-- A member of the collection after `updateTicket` is a stored ticket or the update of the
first ticket with the id. -/
theorem mem_updateTicket (oid : String) (g : Ticket → Ticket) (l : List Ticket) (b : Ticket)
    (hb : b ∈ updateTicket oid g l) :
    b ∈ l ∨ ∃ x, (l.find? fun t => t.oid == oid) = some x ∧ b = g x := by
  induction l with
  | nil => simp [updateTicket] at hb
  | cons t rest ih =>
    by_cases ht : t.oid = oid
    · simp only [updateTicket, if_pos ht, List.mem_cons] at hb
      rcases hb with rfl | hb
      · exact Or.inr ⟨t, by simp [List.find?, ht], rfl⟩
      · exact Or.inl (List.mem_cons_of_mem _ hb)
    · have hbeq : (t.oid == oid) = false := by simpa using ht
      simp only [updateTicket, if_neg ht, List.mem_cons] at hb
      rcases hb with rfl | hb
      · exact Or.inl (List.mem_cons_self _ _)
      · rcases ih hb with h | ⟨x, hx, rfl⟩
        · exact Or.inl (List.mem_cons_of_mem _ h)
        · exact Or.inr ⟨x, by simp [List.find?, hbeq, hx], rfl⟩

/-- An update that keeps user and festival, and that gives the found ticket a status other
than Rejected only when it had one, creates no conflict. -/
theorem updateTicket_atMostOne (oid : String) (g : Ticket → Ticket)
    (hu : ∀ t, (g t).user_id = t.user_id) (hf : ∀ t, (g t).festival_id = t.festival_id)
    (l : List Ticket)
    (hs : ∀ x, (l.find? fun t => t.oid == oid) = some x →
      (g x).payment_status ≠ "Rejected" → x.payment_status ≠ "Rejected")
    (h : atMostOne l) : atMostOne (updateTicket oid g l) := by
  have hleft : ∀ x b : Ticket, ((g x).payment_status ≠ "Rejected" →
      x.payment_status ≠ "Rejected") → conflict x b = false → conflict (g x) b = false := by
    intro x b hx hc
    by_contra hcon
    simp only [conflict, Bool.not_eq_false, Bool.and_eq_true, beq_iff_eq, bne_iff_ne, ne_eq,
      hu, hf] at hcon
    have : conflict x b = true := by
      simp only [conflict, Bool.and_eq_true, beq_iff_eq, bne_iff_ne, ne_eq]
      exact ⟨⟨⟨hcon.1.1.1, hcon.1.1.2⟩, hx hcon.1.2⟩, hcon.2⟩
    rw [hc] at this
    exact Bool.false_ne_true this
  have hright : ∀ a x : Ticket, ((g x).payment_status ≠ "Rejected" →
      x.payment_status ≠ "Rejected") → conflict a x = false → conflict a (g x) = false := by
    intro a x hx hc
    by_contra hcon
    simp only [conflict, Bool.not_eq_false, Bool.and_eq_true, beq_iff_eq, bne_iff_ne, ne_eq,
      hu, hf] at hcon
    have : conflict a x = true := by
      simp only [conflict, Bool.and_eq_true, beq_iff_eq, bne_iff_ne, ne_eq]
      exact ⟨⟨⟨hcon.1.1.1, hcon.1.1.2⟩, hcon.1.2⟩, hx hcon.2⟩
    rw [hc] at this
    exact Bool.false_ne_true this
  induction l with
  | nil => exact List.Pairwise.nil
  | cons t rest ih =>
    have hp := List.pairwise_cons.mp h
    by_cases ht : t.oid = oid
    · have hfind : ((t :: rest).find? fun t => t.oid == oid) = some t := by
        simp [List.find?, ht]
      simp only [updateTicket, if_pos ht]
      exact List.pairwise_cons.mpr ⟨fun b hb => hleft t b (hs t hfind) (hp.1 b hb), hp.2⟩
    · have hbeq : (t.oid == oid) = false := by simpa using ht
      have hfind : ((t :: rest).find? fun t => t.oid == oid) =
          rest.find? fun t => t.oid == oid := by
        simp [List.find?, hbeq]
      simp only [updateTicket, if_neg ht]
      refine List.pairwise_cons.mpr ⟨fun b hb => ?_, ih (fun x hx => hs x (hfind ▸ hx)) hp.2⟩
      rcases mem_updateTicket oid g rest b hb with hmem | ⟨x, hx, rfl⟩
      · exact hp.1 b hmem
      · exact hright t x (hs x (hfind ▸ hx)) (hp.1 x (List.mem_of_find?_eq_some hx))

/-- One request that revives no ticket keeps the collection free of conflicts. -/
theorem run_atMostOne (st : List Ticket) (op : TicketOp) (h : atMostOne st)
    (hr : op.revives st = false) : atMostOne (op.run st).state := by
  cases op with
  | post env body file =>
    rcases postTickets_state env st body file with heq | ⟨t, heq, hfree⟩
    · simp only [TicketOp.run, heq]
      exact h
    · simp only [TicketOp.run, heq]
      exact List.pairwise_append.mpr ⟨h, List.pairwise_singleton _ _, fun a ha b hb => by
        rw [List.mem_singleton.mp hb]
        exact hfree a ha⟩
  | patch env id status =>
    simp only [TicketOp.run, patchTicketStatus]
    split
    · exact h
    · rename_i s
      split
      · exact h
      · rename_i hvalid
        split
        · exact h
        · rename_i oid hcast
          split
          · exact h
          · rename_i found hfound
            have hvalid1 : s ∈ validStatuses := by simpa using hvalid
            have hkeep : s = "Rejected" ∨ found.payment_status ≠ "Rejected" := by
              by_cases hsr : s = "Rejected"
              · exact Or.inl hsr
              · right
                intro hfr
                simp [TicketOp.revives, hcast, hvalid1, hsr, hfound, hfr] at hr
            split
            · split
              · exact h
              · show atMostOne (updateTicket oid _ st)
                apply updateTicket_atMostOne
                · exact fun _ => rfl
                · exact fun _ => rfl
                · intro x hx hgx
                  rcases hkeep with hsr | hfr
                  · exact absurd hsr hgx
                  · rw [hfound] at hx
                    exact Option.some.inj hx ▸ hfr
                · exact h
            · split
              · exact h
              · show atMostOne (updateTicket oid _ st)
                apply updateTicket_atMostOne
                · exact fun _ => rfl
                · exact fun _ => rfl
                · intro x hx hgx
                  rcases hkeep with hsr | hfr
                  · exact absurd hsr hgx
                  · rw [hfound] at hx
                    exact Option.some.inj hx ▸ hfr
                · exact h

/-- C29, as stated, fails: a ticket is bought and rejected, the user buys a second ticket for
the same festival, and a PATCH approves the first again; every request is answered with
success and the collection holds two tickets of the user for the festival that are not
Rejected. -/
theorem revived_ticket_counterexample :
    runTickets [] reviveOps =
      [{ oid := ticketOne, user_id := sampleUser, festival_id := sampleFestivalId, amount := 5,
         payment_status := "Approved",
         qr_code := some "http://localhost:3000/downloads/ticket-64b7f3a2c9e1d4f5a6b7c8d1.png" },
       { oid := ticketTwo, user_id := sampleUser, festival_id := sampleFestivalId, amount := 5,
         payment_status := "Pending", qr_code := none }] ∧
    (patchTicketStatus { newId := "" } (runTickets [] (reviveOps.take 3)) ticketOne
      (some "Approved")).reply = { status := 200, success := some true } ∧
    ¬atMostOne (runTickets [] reviveOps) := by
  refine ⟨by decide, by decide, ?_⟩
  unfold atMostOne
  decide

/-- C29, amended: along every sequence of `POST /tickets` and
`PATCH /tickets/:id/payment-status` requests in which no PATCH gives a Rejected ticket the
status Pending or Approved, a collection without two tickets of one user for one festival
that are both not Rejected stays so. -/
theorem tickets_at_most_one (st : List Ticket) (ops : List TicketOp) (h : atMostOne st)
    (hr : noRevival st ops = true) : atMostOne (runTickets st ops) := by
  induction ops generalizing st with
  | nil => exact h
  | cons op rest ih =>
    simp only [noRevival, Bool.and_eq_true, Bool.not_eq_true_eq_eq_false] at hr
    simp only [runTickets, List.foldl_cons]
    exact ih (op.run st).state (run_atMostOne st op h hr.1) hr.2

/-- Witness of C29: a ticket is approved, then rejected, and the user buys a new one. -/
theorem tickets_at_most_one_witness :
    noRevival [] rebuyOps = true ∧ (runTickets [] rebuyOps).length = 2 ∧
    atMostOne (runTickets [] rebuyOps) :=
  ⟨by decide, by decide, tickets_at_most_one [] rebuyOps List.Pairwise.nil (by decide)⟩

end Festival
